import Mathlib

/-!
# LMSM: assembler and interpreter

A shallow embedding of `lmsm.c` (the interpreter) and `assembler.c` (the
assembler), followed by theorems about them.

Modelling conventions.

* A C `int` is a Lean `Int`.  The results of `+`, `-`, `*`, `/` on machine words
  and of the `%d` conversion are reduced into the signed 32-bit range by
  `int32_wrap` (two's complement); the `%d` conversion reads a `long` first and
  saturates there.  Index arithmetic (`program_counter++`, `stack_pointer++`,
  `offset + 1`, ...) is left unreduced.
* `memory` and `code` are C arrays indexed by an `int`; they are modelled as
  total functions `Int → Int`, so an index is never out of bounds in the model.
* A `char *` is a `String`; a pointer that may be `NULL` is an `Option`.
* The linked list of `asm_instruction` nodes hanging off `root` is a `List`.
* An integer division with no result (a zero divisor, or the least `int`
  divided by -1) stops the program: `lmsm_i_sdiv` returns `none`.
* The declarations of `lmsm.h` and `assembler.h` (the enumerations and the
  structs) are modelled from their use in the two `.c` files and from the
  specification; the constant `TOP_OF_MEMORY` is a parameter.
-/

/-! ## Machine integers -/

/-- Reduction of an integer into the signed 32-bit range, as a C `int` holds it. -/
def int32_wrap (x : Int) : Int :=
  (x + 2147483648) % 4294967296 - 2147483648

/-! ## The machine state (`lmsm.h`) -/

/-- Modelled from the spec: the status enumeration of `lmsm.h`
(Ready, Running, Halted). -/
inductive lmsm_status where
  | STATUS_READY
  | STATUS_RUNNING
  | STATUS_HALTED
  deriving DecidableEq, Repr

/-- Modelled from the spec: the error code enumeration of `lmsm.h`
(None, UnknownInstruction, BadStack). -/
inductive lmsm_error_code where
  | ERROR_NONE
  | ERROR_UNKNOWN_INSTRUCTION
  | ERROR_BAD_STACK
  deriving DecidableEq, Repr

open lmsm_status lmsm_error_code

/-- Modelled from the spec: the `lmsm` struct of `lmsm.h`, with the fields
that `lmsm.c` reads and writes. -/
structure lmsm where
  accumulator : Int
  program_counter : Int
  current_instruction : Int
  stack_pointer : Int
  return_address_pointer : Int
  memory : Int → Int
  status : lmsm_status
  error_code : lmsm_error_code
  output_buffer : String

/-- The assignment `a[i] = v` on an array modelled as a function. -/
def array_set (a : Int → Int) (i v : Int) : Int → Int :=
  fun j => if j = i then v else a j

/-! ## Utilities (`lmsm.c`) -/

/-- `lmsm_cap_value`, as a function from the old value of `*val` to the new one. -/
def lmsm_cap_value (val : Int) : Int :=
  if val > 999 then 999
  else if val < -999 then -999
  else val

/-- `lmsm_has_two_values_on_stack`: returns 0 when the stack pointer is below
`TOP_OF_MEMORY` and 1 otherwise. -/
def lmsm_has_two_values_on_stack (TOP_OF_MEMORY : Int) (m : lmsm) : Int :=
  if m.stack_pointer < TOP_OF_MEMORY then 0 else 1

/-! ## Instruction implementations (`lmsm.c`) -/

def lmsm_i_jal (m : lmsm) : lmsm :=
  let call := m.program_counter
  let rap := m.return_address_pointer + 1
  let pc := m.memory m.stack_pointer
  let sp := m.stack_pointer + 1
  { m with
    return_address_pointer := rap
    program_counter := pc
    stack_pointer := sp
    memory := array_set m.memory rap call }

def lmsm_i_ret (m : lmsm) : lmsm :=
  { m with
    program_counter := m.memory m.return_address_pointer
    return_address_pointer := m.return_address_pointer - 1 }

def lmsm_i_push (m : lmsm) : lmsm :=
  let val := m.accumulator
  let sp := m.stack_pointer - 1
  { m with stack_pointer := sp, memory := array_set m.memory sp val }

def lmsm_i_pop (TOP_OF_MEMORY : Int) (m : lmsm) : lmsm :=
  if m.stack_pointer = TOP_OF_MEMORY + 1 then
    { m with status := STATUS_HALTED, error_code := ERROR_BAD_STACK }
  else
    { m with
      accumulator := m.memory m.stack_pointer
      stack_pointer := m.stack_pointer + 1 }

def lmsm_i_dup (m : lmsm) : lmsm :=
  let val := m.memory m.stack_pointer
  { m with
    memory := array_set m.memory (m.stack_pointer - 1) val
    stack_pointer := m.stack_pointer - 1 }

def lmsm_i_drop (TOP_OF_MEMORY : Int) (m : lmsm) : lmsm :=
  if m.stack_pointer = TOP_OF_MEMORY + 1 then
    { m with status := STATUS_HALTED, error_code := ERROR_BAD_STACK }
  else
    { m with stack_pointer := m.stack_pointer + 1 }

def lmsm_i_swap (TOP_OF_MEMORY : Int) (m : lmsm) : lmsm :=
  if lmsm_has_two_values_on_stack TOP_OF_MEMORY m = 0 then
    let val1 := m.memory m.stack_pointer
    let val2 := m.memory (m.stack_pointer + 1)
    let tempVar := val1
    { m with
      memory := array_set (array_set m.memory m.stack_pointer val2)
        (m.stack_pointer + 1) tempVar }
  else
    { m with status := STATUS_HALTED, error_code := ERROR_BAD_STACK }

def lmsm_i_sadd (TOP_OF_MEMORY : Int) (m : lmsm) : lmsm :=
  if lmsm_has_two_values_on_stack TOP_OF_MEMORY m = 0 then
    let val1 := m.memory m.stack_pointer
    let val2 := m.memory (m.stack_pointer + 1)
    let sp := m.stack_pointer + 1
    { m with
      stack_pointer := sp
      memory := array_set m.memory sp (lmsm_cap_value (int32_wrap (val1 + val2))) }
  else
    { m with status := STATUS_HALTED, error_code := ERROR_BAD_STACK }

def lmsm_i_ssub (TOP_OF_MEMORY : Int) (m : lmsm) : lmsm :=
  if lmsm_has_two_values_on_stack TOP_OF_MEMORY m = 0 then
    let val1 := m.memory m.stack_pointer
    let val2 := m.memory (m.stack_pointer + 1)
    let sp := m.stack_pointer + 1
    { m with
      stack_pointer := sp
      memory := array_set m.memory sp (lmsm_cap_value (int32_wrap (val2 - val1))) }
  else
    { m with status := STATUS_HALTED, error_code := ERROR_BAD_STACK }

def lmsm_i_smax (TOP_OF_MEMORY : Int) (m : lmsm) : lmsm :=
  if lmsm_has_two_values_on_stack TOP_OF_MEMORY m = 0 then
    let val1 := m.memory m.stack_pointer
    let val2 := m.memory (m.stack_pointer + 1)
    let sp := m.stack_pointer + 1
    let valToPush := if val1 > val2 then val1 else val2
    { m with stack_pointer := sp, memory := array_set m.memory sp valToPush }
  else
    { m with status := STATUS_HALTED, error_code := ERROR_BAD_STACK }

def lmsm_i_smin (TOP_OF_MEMORY : Int) (m : lmsm) : lmsm :=
  if lmsm_has_two_values_on_stack TOP_OF_MEMORY m = 0 then
    let val1 := m.memory m.stack_pointer
    let val2 := m.memory (m.stack_pointer + 1)
    let sp := m.stack_pointer + 1
    let valToPush := if val1 < val2 then val1 else val2
    { m with stack_pointer := sp, memory := array_set m.memory sp valToPush }
  else
    { m with status := STATUS_HALTED, error_code := ERROR_BAD_STACK }

def lmsm_i_smul (TOP_OF_MEMORY : Int) (m : lmsm) : lmsm :=
  if lmsm_has_two_values_on_stack TOP_OF_MEMORY m = 0 then
    let val1 := m.memory m.stack_pointer
    let val2 := m.memory (m.stack_pointer + 1)
    let sp := m.stack_pointer + 1
    { m with
      stack_pointer := sp
      memory := array_set m.memory sp (lmsm_cap_value (int32_wrap (val1 * val2))) }
  else
    { m with status := STATUS_HALTED, error_code := ERROR_BAD_STACK }

/-- `lmsm_i_sdiv`; `none` where the C division `val2 / val1` has no result and
the program is stopped: when the divisor `val1` is zero, and when `val2` is the
least `int` and `val1` is -1 (the quotient is not an `int`). -/
def lmsm_i_sdiv (TOP_OF_MEMORY : Int) (m : lmsm) : Option lmsm :=
  if lmsm_has_two_values_on_stack TOP_OF_MEMORY m = 0 then
    let val1 := m.memory m.stack_pointer
    let val2 := m.memory (m.stack_pointer + 1)
    let sp := m.stack_pointer + 1
    if val1 = 0 ∨ (val2 = -2147483648 ∧ val1 = -1) then none
    else
      some { m with
        stack_pointer := sp
        memory := array_set m.memory sp (int32_wrap (Int.tdiv val2 val1)) }
  else
    some { m with status := STATUS_HALTED, error_code := ERROR_BAD_STACK }

/-- `lmsm_i_out`: `sprintf` of `"%d "` at the end of the output buffer. -/
def lmsm_i_out (m : lmsm) : lmsm :=
  { m with output_buffer := m.output_buffer ++ (toString m.accumulator ++ " ") }

/-- `lmsm_i_inp`: `scanf("%d", &accumulator)`.  The integer that the standard
input supplies is the argument `input`; `none` when no integer could be read, in
which case `scanf` leaves the accumulator as it was. -/
def lmsm_i_inp (m : lmsm) (input : Option Int) : lmsm :=
  match input with
  | some v => { m with accumulator := v }
  | none => m

def lmsm_i_load (m : lmsm) (location : Int) : lmsm :=
  { m with accumulator := m.memory location }

def lmsm_i_add (m : lmsm) (location : Int) : lmsm :=
  { m with accumulator := int32_wrap (m.accumulator + m.memory location) }

def lmsm_i_sub (m : lmsm) (location : Int) : lmsm :=
  { m with accumulator := int32_wrap (m.accumulator - m.memory location) }

def lmsm_i_load_immediate (m : lmsm) (value : Int) : lmsm :=
  { m with accumulator := value }

def lmsm_i_store (m : lmsm) (location : Int) : lmsm :=
  { m with memory := array_set m.memory location m.accumulator }

def lmsm_i_halt (m : lmsm) : lmsm :=
  { m with status := STATUS_HALTED }

def lmsm_i_branch_unconditional (m : lmsm) (location : Int) : lmsm :=
  { m with program_counter := location }

def lmsm_i_branch_if_zero (m : lmsm) (location : Int) : lmsm :=
  if m.accumulator = 0 then { m with program_counter := location } else m

def lmsm_i_branch_if_positive (m : lmsm) (location : Int) : lmsm :=
  if m.accumulator ≥ 0 then { m with program_counter := location } else m

/-! ## Decode and execute (`lmsm.c`) -/

/-- The `if`/`else if` chain of `lmsm_exec_instruction`, before the final
`lmsm_cap_value` on the accumulator. -/
def lmsm_dispatch (TOP_OF_MEMORY : Int) (m : lmsm) (instruction : Int) : Option lmsm :=
  if instruction = 0 then some (lmsm_i_halt m)
  else if 100 ≤ instruction ∧ instruction ≤ 199 then some (lmsm_i_add m (instruction - 100))
  else if 200 ≤ instruction ∧ instruction ≤ 299 then some (lmsm_i_sub m (instruction - 200))
  else if 300 ≤ instruction ∧ instruction ≤ 399 then some (lmsm_i_store m (instruction - 300))
  else if 400 ≤ instruction ∧ instruction ≤ 499 then
    some (lmsm_i_load_immediate m (instruction - 400))
  else if 500 ≤ instruction ∧ instruction ≤ 599 then some (lmsm_i_load m (instruction - 500))
  else if 600 ≤ instruction ∧ instruction ≤ 699 then
    some (lmsm_i_branch_unconditional m (instruction - 600))
  else if 700 ≤ instruction ∧ instruction ≤ 799 then
    some (lmsm_i_branch_if_zero m (instruction - 700))
  else if 800 ≤ instruction ∧ instruction ≤ 899 then
    some (lmsm_i_branch_if_positive m (instruction - 800))
  else if 902 = instruction then some (lmsm_i_out m)
  else if 910 = instruction then some (lmsm_i_jal m)
  else if 911 = instruction then some (lmsm_i_ret m)
  else if 920 = instruction then some (lmsm_i_push m)
  else if 921 = instruction then some (lmsm_i_pop TOP_OF_MEMORY m)
  else if 922 = instruction then some (lmsm_i_dup m)
  else if 923 = instruction then some (lmsm_i_drop TOP_OF_MEMORY m)
  else if 924 = instruction then some (lmsm_i_swap TOP_OF_MEMORY m)
  else if 930 = instruction then some (lmsm_i_sadd TOP_OF_MEMORY m)
  else if 931 = instruction then some (lmsm_i_ssub TOP_OF_MEMORY m)
  else if 932 = instruction then some (lmsm_i_smul TOP_OF_MEMORY m)
  else if 933 = instruction then lmsm_i_sdiv TOP_OF_MEMORY m
  else if 934 = instruction then some (lmsm_i_smax TOP_OF_MEMORY m)
  else if 935 = instruction then some (lmsm_i_smin TOP_OF_MEMORY m)
  else some { m with error_code := ERROR_UNKNOWN_INSTRUCTION, status := STATUS_HALTED }

/-- `lmsm_exec_instruction`: dispatch on the instruction word, then cap the
accumulator. -/
def lmsm_exec_instruction (TOP_OF_MEMORY : Int) (m : lmsm) (instruction : Int) :
    Option lmsm :=
  (lmsm_dispatch TOP_OF_MEMORY m instruction).map
    (fun m1 => { m1 with accumulator := lmsm_cap_value m1.accumulator })

/-- `lmsm_step`: fetch, increment the program counter, execute; nothing when the
machine is halted. -/
def lmsm_step (TOP_OF_MEMORY : Int) (m : lmsm) : Option lmsm :=
  if m.status ≠ STATUS_HALTED then
    let next_instruction := m.memory m.program_counter
    let m1 := { m with
      program_counter := m.program_counter + 1
      current_instruction := next_instruction }
    let instruction := m1.current_instruction
    lmsm_exec_instruction TOP_OF_MEMORY m1 instruction
  else
    some m

/-- A sequence of `n` calls of `lmsm_step`. -/
def lmsm_steps (TOP_OF_MEMORY : Int) : Nat → lmsm → Option lmsm
  | 0, m => some m
  | n + 1, m => (lmsm_step TOP_OF_MEMORY m).bind (lmsm_steps TOP_OF_MEMORY n)

/-- `lmsm_load`: copies `program[0 .. length-1]` to the start of memory. -/
def lmsm_load (m : lmsm) (program : Int → Int) (length : Int) : lmsm :=
  { m with memory := fun i => if 0 ≤ i ∧ i < length then program i else m.memory i }

/-- `lmsm_init`.  The second `memset` clears `sizeof(int) * TOP_OF_MEMORY + 1`
bytes: the cells below `TOP_OF_MEMORY` and the first byte of the cell
`memory[TOP_OF_MEMORY]`, which with 4-byte little-endian `int`s is its low byte. -/
def lmsm_init (TOP_OF_MEMORY : Int) (the_machine : lmsm) : lmsm :=
  { accumulator := 0
    status := STATUS_READY
    error_code := ERROR_NONE
    program_counter := 0
    current_instruction := 0
    stack_pointer := TOP_OF_MEMORY + 1
    return_address_pointer := TOP_OF_MEMORY - 100
    output_buffer := ""
    memory := fun i =>
      if 0 ≤ i ∧ i < TOP_OF_MEMORY then 0
      else if i = TOP_OF_MEMORY then the_machine.memory i - the_machine.memory i % 256
      else the_machine.memory i }

def lmsm_reset (TOP_OF_MEMORY : Int) (m : lmsm) : lmsm :=
  lmsm_init TOP_OF_MEMORY m

/-- The `while` loop of `lmsm_run`, unrolled at most `fuel` times; `none` when
the machine has not halted by then (or a step has no result). -/
def lmsm_run_loop (TOP_OF_MEMORY : Int) : Nat → lmsm → Option lmsm
  | 0, m => if m.status ≠ STATUS_HALTED then none else some m
  | fuel + 1, m =>
    if m.status ≠ STATUS_HALTED then
      (lmsm_step TOP_OF_MEMORY m).bind (lmsm_run_loop TOP_OF_MEMORY fuel)
    else some m

/-- `lmsm_run`: set the status to Running, then step until halted. -/
def lmsm_run (TOP_OF_MEMORY : Int) (fuel : Nat) (m : lmsm) : Option lmsm :=
  lmsm_run_loop TOP_OF_MEMORY fuel { m with status := STATUS_RUNNING }

/-- `lmsm_create`: the struct comes from `malloc` with arbitrary contents
`garbage`, then `lmsm_init`. -/
def lmsm_create (TOP_OF_MEMORY : Int) (garbage : lmsm) : lmsm :=
  lmsm_init TOP_OF_MEMORY garbage

/-! ## The assembler's data (`assembler.h`, `assembler.c`) -/

def ASM_ERROR_UNKNOWN_INSTRUCTION : String := "Unknown Assembly Instruction"
def ASM_ERROR_ARG_REQUIRED : String := "Argument Required"
def ASM_ERROR_BAD_LABEL : String := "Bad Label"
def ASM_ERROR_OUT_OF_RANGE : String := "Number is out of range"

def INSTRUCTIONS : List String :=
  ["ADD", "SUB", "LDA", "STA", "BRA", "BRZ", "BRP", "INP", "OUT", "HLT", "COB", "DAT",
   "LDI",
   "JAL", "CALL", "RET",
   "SPUSH", "SPUSHI", "SPOP", "SDUP", "SDROP", "SSWAP", "SADD", "SSUB", "SMAX", "SMIN",
   "SMUL", "SDIV"]

def ARG_INSTRUCTIONS : List String :=
  ["ADD", "SUB", "LDA", "STA", "BRA", "BRZ", "BRP", "DAT",
   "LDI",
   "CALL",
   "SPUSHI"]

/-- Modelled from the spec: the `asm_instruction` struct of `assembler.h`; the
`next` pointer is the tail of the list the node sits in. -/
structure asm_instruction where
  instruction : String
  label : Option String
  label_reference : Option String
  value : Int
  offset : Int
  slots : Int
  deriving DecidableEq, Repr

/-- Modelled from the spec: the `asm_compilation_result` struct of
`assembler.h`: the instruction list hanging off `root`, the error (a `char *`,
`NULL` when there is none) and the code array. -/
structure asm_compilation_result where
  root : List asm_instruction
  error : Option String
  code : Int → Int

/-- `asm_make_instruction`.  The assignment `predecessor->next = new_instruction`
is the caller's append of the new node to the list. -/
def asm_make_instruction (type : String) (label label_reference : Option String)
    (value : Int) (predecessor : Option asm_instruction) : asm_instruction :=
  { instruction := type
    label := label
    label_reference := label_reference
    value := value
    offset := match predecessor with
      | some p => p.offset + p.slots
      | none => 0
    slots := if type = "CALL" then 3 else if type = "SPUSHI" then 2 else 1 }

/-- `asm_make_compilation_result`: `calloc` zeroes the struct. -/
def asm_make_compilation_result : asm_compilation_result :=
  { root := [], error := none, code := fun _ => 0 }

/-! ## Helpers (`assembler.c`) -/

def asm_is_instruction (token : String) : Bool :=
  INSTRUCTIONS.any (fun s => token == s)

def asm_instruction_requires_arg (token : String) : Bool :=
  ARG_INSTRUCTIONS.any (fun s => token == s)

/-- The test `!(*token < '0' || '9' < *token)` of `asm_is_num`. -/
def asm_is_digit (c : Char) : Bool :=
  !(decide (c < '0') || decide ('9' < c))

def asm_is_num (token : String) : Bool :=
  match token.data with
  | '-' :: rest => if rest = [] then false else rest.all asm_is_digit
  | cs => cs.all asm_is_digit

def asm_find_label : List asm_instruction → String → Int
  | [], _ => -1
  | root :: next, label =>
    if root.label = some label then root.offset else asm_find_label next label

/-! ## Tokens and numbers -/

/-- The successive results of `strtok(src, " \n")`, `strtok(NULL, " \n")`, ...:
the maximal runs of characters other than space and newline.  `cur` holds the
characters of the token being read. -/
def strtok_tokens : List Char → List Char → List String
  | [], cur => if cur.isEmpty then [] else [String.mk cur]
  | c :: cs, cur =>
    if c = ' ' ∨ c = '\n' then
      if cur.isEmpty then strtok_tokens cs [] else String.mk cur :: strtok_tokens cs []
    else strtok_tokens cs (cur ++ [c])

/-- The integer that a string of decimal digits denotes. -/
def decimal_value (digits : List Char) : Int :=
  digits.foldl (fun acc c => acc * 10 + ((c.toNat : Int) - 48)) 0

/-- The integer that a numeric token (an optional minus sign, then digits)
denotes. -/
def token_value (token : String) : Int :=
  match token.data with
  | '-' :: rest => - decimal_value rest
  | cs => decimal_value cs

/-- `sscanf(current_str, "%d", &value)` on a numeric token, as the C library
converts it: the denoted integer is read into a 64-bit `long`, where it
saturates at the least and at the greatest `long`, and is then stored in the C
`int` `value`. -/
def sscanf_d (token : String) : Int :=
  int32_wrap (max (-9223372036854775808) (min 9223372036854775807 (token_value token)))

/-! ## Parsing (`assembler.c`) -/

/-- The argument branch of `asm_parse_src` (the `else` of the `NULL` test): from
the argument token and the error so far to `value`, `label_ref` and the error. -/
def asm_parse_src_arg (current_str : String) (error : Option String) :
    Int × Option String × Option String :=
  if asm_is_num current_str then
    let value := sscanf_d current_str
    let (value, error) :=
      if value > 999 then (999, some ASM_ERROR_OUT_OF_RANGE) else (value, error)
    let (value, error) :=
      if value < -999 then (-999, some ASM_ERROR_OUT_OF_RANGE) else (value, error)
    (value, none, error)
  else
    (0, some current_str, error)

/-- The `while` loop of `asm_parse_src` over the tokens that `strtok` yields.
`result.root` is the list of the nodes made so far and `last_instruction` the
last of them.  The result is `none` when a label is the last token: the loop
then passes the `NULL` it got from `strtok` to `strcmp`. -/
def asm_parse_tokens : List String → Option asm_instruction → asm_compilation_result →
    Option asm_compilation_result
  | [], _, result => some result
  | current_str :: rest, last_instruction, result =>
    if asm_is_instruction current_str then
      if asm_instruction_requires_arg current_str then
        match rest with
        | [] => some { result with error := some ASM_ERROR_ARG_REQUIRED }
        | arg :: rest1 =>
          let a := asm_parse_src_arg arg result.error
          let new_inst := asm_make_instruction current_str none a.2.1 a.1 last_instruction
          asm_parse_tokens rest1 (some new_inst)
            { result with root := result.root ++ [new_inst], error := a.2.2 }
      else
        let new_inst := asm_make_instruction current_str none none 0 last_instruction
        asm_parse_tokens rest (some new_inst)
          { result with root := result.root ++ [new_inst] }
    else
      match rest with
      | [] => none
      | type :: rest1 =>
        if asm_is_instruction type then
          if asm_instruction_requires_arg type then
            match rest1 with
            | [] => some { result with error := some ASM_ERROR_ARG_REQUIRED }
            | arg :: rest2 =>
              let a := asm_parse_src_arg arg result.error
              let new_inst :=
                asm_make_instruction type (some current_str) a.2.1 a.1 last_instruction
              asm_parse_tokens rest2 (some new_inst)
                { result with root := result.root ++ [new_inst], error := a.2.2 }
          else
            let new_inst :=
              asm_make_instruction type (some current_str) none 0 last_instruction
            asm_parse_tokens rest1 (some new_inst)
              { result with root := result.root ++ [new_inst] }
        else
          some { result with error := some ASM_ERROR_UNKNOWN_INSTRUCTION }

/-- `asm_parse_src`.  The nodes made by the loop are reachable from
`result->root` when that pointer was `NULL` at entry, as it is in
`asm_assemble`; a root that was already set is left as it was. -/
def asm_parse_src (result : asm_compilation_result) (original_src : String) :
    Option asm_compilation_result :=
  (asm_parse_tokens (strtok_tokens original_src.data []) none { result with root := [] }).map
    (fun r => if result.root.isEmpty then r else { r with root := result.root })

/-! ## Code generation (`assembler.c`) -/

/-- The `strcmp` chain of `asm_gen_code_for_instruction`, entered once
`value_for_instruction` is known. -/
def asm_gen_code_for_instruction_emit (result : asm_compilation_result)
    (instruction : asm_instruction) (value_for_instruction : Int) : asm_compilation_result :=
  let set1 (w : Int) : asm_compilation_result :=
    { result with code := array_set result.code instruction.offset w }
  if instruction.instruction = "ADD" then set1 (100 + value_for_instruction)
  else if instruction.instruction = "SUB" then set1 (200 + value_for_instruction)
  else if instruction.instruction = "STA" then set1 (300 + value_for_instruction)
  else if instruction.instruction = "LDI" then set1 (400 + value_for_instruction)
  else if instruction.instruction = "LDA" then set1 (500 + value_for_instruction)
  else if instruction.instruction = "BRA" then set1 (600 + value_for_instruction)
  else if instruction.instruction = "BRZ" then set1 (700 + value_for_instruction)
  else if instruction.instruction = "BRP" then set1 (800 + value_for_instruction)
  else if instruction.instruction = "INP" then set1 901
  else if instruction.instruction = "OUT" then set1 902
  else if instruction.instruction = "DAT" then set1 value_for_instruction
  else if instruction.instruction = "CALL" then
    { result with
      code := array_set
        (array_set (array_set result.code (instruction.offset + 1) 920)
          instruction.offset (400 + value_for_instruction))
        (instruction.offset + 2) 910 }
  else if instruction.instruction = "JAL" then set1 910
  else if instruction.instruction = "RET" then set1 911
  else if instruction.instruction = "SPUSH" then set1 920
  else if instruction.instruction = "SPUSHI" then
    { result with
      code := array_set (array_set result.code (instruction.offset + 1) 920)
        instruction.offset (400 + value_for_instruction) }
  else if instruction.instruction = "SPOP" then set1 921
  else if instruction.instruction = "SDUP" then set1 922
  else if instruction.instruction = "SDROP" then set1 923
  else if instruction.instruction = "SSWAP" then set1 924
  else if instruction.instruction = "SADD" then set1 930
  else if instruction.instruction = "SSUB" then set1 931
  else if instruction.instruction = "SMUL" then set1 932
  else if instruction.instruction = "SDIV" then set1 933
  else if instruction.instruction = "SMAX" then set1 934
  else if instruction.instruction = "SMIN" then set1 935
  else if instruction.instruction = "HLT" then set1 0
  else if instruction.instruction = "COB" then set1 0
  else
    { result with
      code := array_set result.code instruction.offset 0
      error := some ASM_ERROR_UNKNOWN_INSTRUCTION }

def asm_gen_code_for_instruction (result : asm_compilation_result)
    (instruction : asm_instruction) : asm_compilation_result :=
  match instruction.label_reference with
  | some label_reference =>
    let value_for_instruction := asm_find_label result.root label_reference
    if value_for_instruction = -1 then
      { result with error := some ASM_ERROR_BAD_LABEL }
    else
      asm_gen_code_for_instruction_emit result instruction value_for_instruction
  | none => asm_gen_code_for_instruction_emit result instruction instruction.value

/-- `asm_gen_code`: the walk from `result->root` along `next`. -/
def asm_gen_code (result : asm_compilation_result) : asm_compilation_result :=
  result.root.foldl asm_gen_code_for_instruction result

/-- `asm_assemble`; `none` when parsing has no result. -/
def asm_assemble (src : String) : Option asm_compilation_result :=
  (asm_parse_src asm_make_compilation_result src).map asm_gen_code

/-! ## Instruction lists and the encoding table -/

/-- The slot width that `asm_make_instruction` gives to a mnemonic. -/
def asm_slots (type : String) : Int :=
  if type = "CALL" then 3 else if type = "SPUSHI" then 2 else 1

/-- An instruction list as successive calls of `asm_make_instruction` build it,
each node with the one before it as predecessor: the first node sits at offset
`o` (0 for a whole list), every further node at its predecessor's offset plus
its predecessor's slots, and the slots are those of the mnemonic. -/
def asm_linked : Int → List asm_instruction → Prop
  | _, [] => True
  | o, i :: next =>
    i.offset = o ∧ i.slots = asm_slots i.instruction ∧ asm_linked (o + i.slots) next

/-- The encoding table of the specification for the mnemonics that take one
slot: the word for a mnemonic and its value `v` (the literal or the resolved
label offset). -/
def encoding_table (mnemonic : String) (v : Int) : Option Int :=
  if mnemonic = "ADD" then some (100 + v)
  else if mnemonic = "SUB" then some (200 + v)
  else if mnemonic = "STA" then some (300 + v)
  else if mnemonic = "LDI" then some (400 + v)
  else if mnemonic = "LDA" then some (500 + v)
  else if mnemonic = "BRA" then some (600 + v)
  else if mnemonic = "BRZ" then some (700 + v)
  else if mnemonic = "BRP" then some (800 + v)
  else if mnemonic = "DAT" then some v
  else if mnemonic = "INP" then some 901
  else if mnemonic = "OUT" then some 902
  else if mnemonic = "HLT" then some 0
  else if mnemonic = "COB" then some 0
  else if mnemonic = "JAL" then some 910
  else if mnemonic = "RET" then some 911
  else if mnemonic = "SPUSH" then some 920
  else if mnemonic = "SPOP" then some 921
  else if mnemonic = "SDUP" then some 922
  else if mnemonic = "SDROP" then some 923
  else if mnemonic = "SSWAP" then some 924
  else if mnemonic = "SADD" then some 930
  else if mnemonic = "SSUB" then some 931
  else if mnemonic = "SMUL" then some 932
  else if mnemonic = "SDIV" then some 933
  else if mnemonic = "SMAX" then some 934
  else if mnemonic = "SMIN" then some 935
  else none

instance asm_linked_decidable : ∀ (o : Int) (l : List asm_instruction),
    Decidable (asm_linked o l)
  | _, [] => isTrue trivial
  | o, i :: next =>
    haveI := asm_linked_decidable (o + i.slots) next
    inferInstanceAs
      (Decidable (i.offset = o ∧ i.slots = asm_slots i.instruction ∧
        asm_linked (o + i.slots) next))

/-! ## Sample inputs -/

/-- A machine with the given accumulator and stack pointer whose memory holds
`word` in every cell, program counter 0, status Ready. -/
def lmsm_sample (acc sp word : Int) : lmsm :=
  { accumulator := acc
    program_counter := 0
    current_instruction := 0
    stack_pointer := sp
    return_address_pointer := 99
    memory := fun _ => word
    status := STATUS_READY
    error_code := ERROR_NONE
    output_buffer := "" }

/-- A source with a call of a routine defined further down, a load from a label
defined further down, and a data word. -/
def asm_sample_source : String := "CALL f\nHLT\nf LDA x\nRET\nx DAT 7"

def asm_sample_call : asm_instruction :=
  { instruction := "CALL", label := none, label_reference := some "f", value := 0,
    offset := 0, slots := 3 }

def asm_sample_hlt : asm_instruction :=
  { instruction := "HLT", label := none, label_reference := none, value := 0,
    offset := 3, slots := 1 }

def asm_sample_lda : asm_instruction :=
  { instruction := "LDA", label := some "f", label_reference := some "x", value := 0,
    offset := 4, slots := 1 }

def asm_sample_ret : asm_instruction :=
  { instruction := "RET", label := none, label_reference := none, value := 0,
    offset := 5, slots := 1 }

def asm_sample_dat : asm_instruction :=
  { instruction := "DAT", label := some "x", label_reference := none, value := 7,
    offset := 6, slots := 1 }

/-- What `asm_parse_src` makes of `asm_sample_source`. -/
def asm_sample_parsed : asm_compilation_result :=
  { root := [asm_sample_call, asm_sample_hlt, asm_sample_lda, asm_sample_ret, asm_sample_dat]
    error := none
    code := fun _ => 0 }

def asm_sample_bra : asm_instruction :=
  { instruction := "BRA", label := none, label_reference := some "nowhere", value := 0,
    offset := 0, slots := 1 }

/-- The list of `BRA nowhere`, `HLT`: a reference to a label that no instruction
carries. -/
def asm_sample_bad : asm_compilation_result :=
  { root := [asm_sample_bra,
      { instruction := "HLT", label := none, label_reference := none, value := 0,
        offset := 1, slots := 1 }]
    error := none
    code := fun _ => 0 }

/-- A machine at program counter 0, status Ready, with stack pointer 198 and the
values `a` (top) and `b` in the cells 198 and 199, every other cell holding
`word`. -/
def lmsm_sample_stack (a b word : Int) : lmsm :=
  { accumulator := 0
    program_counter := 0
    current_instruction := 0
    stack_pointer := 198
    return_address_pointer := 99
    memory := fun i => if i = 198 then a else if i = 199 then b else word
    status := STATUS_READY
    error_code := ERROR_NONE
    output_buffer := "" }

/-- A halted machine: `lmsm_sample` with the status Halted. -/
def lmsm_sample_halted (acc sp word : Int) : lmsm :=
  { lmsm_sample acc sp word with status := STATUS_HALTED }

/-- A machine with accumulator 3 and 0 in every cell. -/
def lmsm_sample_add : lmsm :=
  lmsm_sample 3 200 0

/-- A machine that has not started, with HLT in cell 0, then LDI 5 (405),
OUT (902) and HLT in the cells 1 to 3, and 0 in every other cell. -/
def lmsm_sample_hlt_program : lmsm :=
  { lmsm_sample 0 200 0 with
    memory := fun i => if i = 1 then 405 else if i = 2 then 902 else 0 }

/-! ## Complete lines -/

/-- The token lists that the loop of `asm_parse_src` consumes to the last token
without returning early: a sequence of lines, each an optional label (a token
that is not a mnemonic), a mnemonic, and one more token when the mnemonic
requires an argument. -/
def asm_lines : List String → Bool
  | [] => true
  | current_str :: rest =>
    if asm_is_instruction current_str then
      if asm_instruction_requires_arg current_str then
        match rest with
        | [] => false
        | _ :: rest1 => asm_lines rest1
      else asm_lines rest
    else
      match rest with
      | [] => false
      | type :: rest1 =>
        if asm_is_instruction type then
          if asm_instruction_requires_arg type then
            match rest1 with
            | [] => false
            | _ :: rest2 => asm_lines rest2
          else asm_lines rest1
        else false

/-- What `asm_parse_src` makes of the source `LDI 5000`, `BRA nowhere`, `HLT`: a
literal out of range and a reference to a label that no instruction carries. -/
def asm_sample_errors : asm_compilation_result :=
  { root := [asm_make_instruction "LDI" none none 999 none,
      { instruction := "BRA", label := none, label_reference := some "nowhere", value := 0,
        offset := 1, slots := 1 },
      { instruction := "HLT", label := none, label_reference := none, value := 0,
        offset := 2, slots := 1 }]
    error := some ASM_ERROR_OUT_OF_RANGE
    code := fun _ => 0 }

/-- A running machine that stands at program counter 1 in front of the three
words of a CALL of the address `x` (`400 + x`, 920, 910 in the cells 1, 2, 3),
with the error code `e`; cell 0 holds SPOP (921), every other cell 0, and the
operand stack is empty. -/
def lmsm_sample_call (x : Int) (e : lmsm_error_code) : lmsm :=
  { accumulator := 0
    program_counter := 1
    current_instruction := 921
    stack_pointer := 200
    return_address_pointer := 99
    memory := fun i =>
      if i = 0 then 921 else if i = 1 then 400 + x else if i = 2 then 920
      else if i = 3 then 910 else 0
    status := STATUS_RUNNING
    error_code := e
    output_buffer := "" }

/-- The program of `lmsm_sample_call` in a machine that has not started: program
counter 0, status Ready, error code None. -/
def lmsm_sample_call_program (x : Int) : lmsm :=
  { lmsm_sample_call x ERROR_NONE with
    program_counter := 0
    current_instruction := 0
    status := STATUS_READY }

/-- A machine in front of SSUB (931) with 700 on top of the stack and -800 below
it. -/
def lmsm_sample_ssub : lmsm :=
  lmsm_sample_stack 700 (-800) 931

/-- The machine `lmsm_sample_call` for a CALL of the address 5, with no error
recorded. -/
def lmsm_sample_call_5 : lmsm :=
  lmsm_sample_call 5 ERROR_NONE

/-! ## The interpreter: capping and dispatch -/

theorem lmsm_cap_value_range (v : Int) :
    -999 ≤ lmsm_cap_value v ∧ lmsm_cap_value v ≤ 999 := by
  unfold lmsm_cap_value
  split_ifs <;> omega

theorem lmsm_cap_value_of_range (v : Int) (h1 : -999 ≤ v) (h2 : v ≤ 999) :
    lmsm_cap_value v = v := by
  unfold lmsm_cap_value
  split_ifs <;> omega

theorem lmsm_exec_instruction_eq_some (TOP : Int) (m s' : lmsm) (w : Int)
    (h : lmsm_exec_instruction TOP m w = some s') :
    ∃ m1, lmsm_dispatch TOP m w = some m1 ∧
      s' = { m1 with accumulator := lmsm_cap_value m1.accumulator } := by
  unfold lmsm_exec_instruction at h
  rcases Option.map_eq_some'.mp h with ⟨m1, h1, h2⟩
  exact ⟨m1, h1, h2.symm⟩

theorem lmsm_i_sdiv_eq_none (TOP : Int) (m : lmsm) (h : lmsm_i_sdiv TOP m = none) :
    m.stack_pointer < TOP ∧
      (m.memory m.stack_pointer = 0 ∨
        (m.memory (m.stack_pointer + 1) = -2147483648 ∧ m.memory m.stack_pointer = -1)) := by
  unfold lmsm_i_sdiv lmsm_has_two_values_on_stack at h
  by_cases hsp : m.stack_pointer < TOP
  · refine ⟨hsp, ?_⟩
    by_contra hz
    rw [if_pos hsp, if_pos rfl] at h
    exact absurd h (by simp [hz])
  · rw [if_neg hsp, if_neg (by decide)] at h
    exact absurd h (by simp)

theorem lmsm_dispatch_eq_none (TOP : Int) (m : lmsm) (w : Int)
    (h : lmsm_dispatch TOP m w = none) :
    w = 933 ∧ m.stack_pointer < TOP ∧
      (m.memory m.stack_pointer = 0 ∨
        (m.memory (m.stack_pointer + 1) = -2147483648 ∧ m.memory m.stack_pointer = -1)) := by
  by_cases h933 : 933 = w
  · subst h933
    simp only [lmsm_dispatch] at h
    norm_num at h
    exact ⟨rfl, lmsm_i_sdiv_eq_none TOP m h⟩
  · have hs : (lmsm_dispatch TOP m w).isSome = true := by
      simp only [lmsm_dispatch, apply_ite Option.isSome, Option.isSome_some, h933, if_false,
        ite_self]
    rw [h] at hs
    exact absurd hs (by simp)

theorem lmsm_step_halted (TOP : Int) (m : lmsm) (h : m.status = STATUS_HALTED) :
    lmsm_step TOP m = some m := by
  simp [lmsm_step, h]

theorem lmsm_step_accumulator_range (TOP : Int) (m s' : lmsm)
    (h : lmsm_step TOP m = some s') :
    (m.status = STATUS_HALTED ∧ s' = m) ∨
      (-999 ≤ s'.accumulator ∧ s'.accumulator ≤ 999) := by
  by_cases hs : m.status = STATUS_HALTED
  · left
    rw [lmsm_step_halted TOP m hs] at h
    exact ⟨hs, (Option.some.inj h).symm⟩
  · right
    simp only [lmsm_step, ne_eq, hs, not_false_eq_true, if_true] at h
    obtain ⟨m1, -, rfl⟩ := lmsm_exec_instruction_eq_some _ _ _ _ h
    exact lmsm_cap_value_range _

theorem lmsm_steps_accumulator_range (TOP : Int) (n : Nat) (m s' : lmsm)
    (hm : -999 ≤ m.accumulator ∧ m.accumulator ≤ 999)
    (h : lmsm_steps TOP n m = some s') :
    -999 ≤ s'.accumulator ∧ s'.accumulator ≤ 999 := by
  induction n generalizing m with
  | zero =>
    simp only [lmsm_steps] at h
    cases h
    exact hm
  | succ k ih =>
    simp only [lmsm_steps] at h
    rcases Option.bind_eq_some.mp h with ⟨m1, h1, h2⟩
    rcases lmsm_step_accumulator_range TOP m m1 h1 with ⟨-, rfl⟩ | hr
    · exact ih m1 hm h2
    · exact ih m1 hr h2

/-- C2: from a machine that is not halted, a step leaves the accumulator in
[-999, 999] whichever word was fetched, and so does every longer sequence of
steps; the step has a result unless the fetched word is SDIV (933) with two
values on the stack and a division that stops the program: a zero divisor on
top, or -1 on top of the least `int`. -/
theorem lmsm_step_accumulator_capped (TOP_OF_MEMORY : Int) (m : lmsm)
    (h : m.status ≠ STATUS_HALTED) :
    (lmsm_step TOP_OF_MEMORY m = none →
      m.memory m.program_counter = 933 ∧ m.stack_pointer < TOP_OF_MEMORY ∧
        (m.memory m.stack_pointer = 0 ∨
          (m.memory (m.stack_pointer + 1) = -2147483648 ∧
            m.memory m.stack_pointer = -1))) ∧
    (∀ s', lmsm_step TOP_OF_MEMORY m = some s' →
      -999 ≤ s'.accumulator ∧ s'.accumulator ≤ 999) ∧
    (∀ n s', lmsm_steps TOP_OF_MEMORY (n + 1) m = some s' →
      -999 ≤ s'.accumulator ∧ s'.accumulator ≤ 999) := by
  have hstep : ∀ s', lmsm_step TOP_OF_MEMORY m = some s' →
      -999 ≤ s'.accumulator ∧ s'.accumulator ≤ 999 := by
    intro s' hs
    rcases lmsm_step_accumulator_range TOP_OF_MEMORY m s' hs with ⟨hh, -⟩ | hr
    · exact absurd hh h
    · exact hr
  refine ⟨?_, hstep, ?_⟩
  · intro hn
    simp only [lmsm_step, ne_eq, h, not_false_eq_true, if_true, lmsm_exec_instruction,
      Option.map_eq_none'] at hn
    have hd := lmsm_dispatch_eq_none _ _ _ hn
    exact hd
  · intro n s' hs
    simp only [lmsm_steps] at hs
    rcases Option.bind_eq_some.mp hs with ⟨m1, h1, h2⟩
    exact lmsm_steps_accumulator_range TOP_OF_MEMORY n m1 s' (hstep m1 h1) h2

theorem lmsm_step_accumulator_capped_witness :
    (lmsm_sample 5000 200 150).status ≠ STATUS_HALTED ∧
    ((lmsm_step 199 (lmsm_sample 5000 200 150) = none →
      (lmsm_sample 5000 200 150).memory (lmsm_sample 5000 200 150).program_counter = 933 ∧
        (lmsm_sample 5000 200 150).stack_pointer < 199 ∧
        ((lmsm_sample 5000 200 150).memory (lmsm_sample 5000 200 150).stack_pointer = 0 ∨
          ((lmsm_sample 5000 200 150).memory
              ((lmsm_sample 5000 200 150).stack_pointer + 1) = -2147483648 ∧
            (lmsm_sample 5000 200 150).memory
              (lmsm_sample 5000 200 150).stack_pointer = -1))) ∧
    (∀ s', lmsm_step 199 (lmsm_sample 5000 200 150) = some s' →
      -999 ≤ s'.accumulator ∧ s'.accumulator ≤ 999) ∧
    (∀ n s', lmsm_steps 199 (n + 1) (lmsm_sample 5000 200 150) = some s' →
      -999 ≤ s'.accumulator ∧ s'.accumulator ≤ 999)) :=
  ⟨by decide, lmsm_step_accumulator_capped 199 (lmsm_sample 5000 200 150) (by decide)⟩

theorem lmsm_step_running (TOP : Int) (m : lmsm) (h : m.status ≠ STATUS_HALTED) :
    lmsm_step TOP m =
      lmsm_exec_instruction TOP
        { m with
          program_counter := m.program_counter + 1
          current_instruction := m.memory m.program_counter }
        (m.memory m.program_counter) := by
  simp [lmsm_step, h]

theorem lmsm_dispatch_unknown (TOP : Int) (m : lmsm) (w : Int)
    (hw : w ≠ 0 ∧ ¬(100 ≤ w ∧ w ≤ 899) ∧ w ≠ 902 ∧ w ≠ 910 ∧ w ≠ 911 ∧
      ¬(920 ≤ w ∧ w ≤ 924) ∧ ¬(930 ≤ w ∧ w ≤ 935)) :
    lmsm_dispatch TOP m w =
      some { m with error_code := ERROR_UNKNOWN_INSTRUCTION, status := STATUS_HALTED } := by
  unfold lmsm_dispatch
  iterate 23 rw [if_neg (by omega)]

theorem lmsm_dispatch_921 (TOP : Int) (m : lmsm) :
    lmsm_dispatch TOP m 921 = some (lmsm_i_pop TOP m) := by
  simp only [lmsm_dispatch]
  norm_num

theorem lmsm_dispatch_923 (TOP : Int) (m : lmsm) :
    lmsm_dispatch TOP m 923 = some (lmsm_i_drop TOP m) := by
  simp only [lmsm_dispatch]
  norm_num

/-- C8: when the machine is not halted and the word at the program counter is
none of 0, 100..899, 901, 902, 910, 911, 920..924, 930..935, `lmsm_step` sets the
error code to UnknownInstruction and the status to Halted. -/
theorem lmsm_step_unknown_instruction (TOP_OF_MEMORY : Int) (m : lmsm)
    (h : m.status ≠ STATUS_HALTED)
    (hw : m.memory m.program_counter ≠ 0 ∧
      ¬(100 ≤ m.memory m.program_counter ∧ m.memory m.program_counter ≤ 899) ∧
      m.memory m.program_counter ≠ 901 ∧ m.memory m.program_counter ≠ 902 ∧
      m.memory m.program_counter ≠ 910 ∧ m.memory m.program_counter ≠ 911 ∧
      ¬(920 ≤ m.memory m.program_counter ∧ m.memory m.program_counter ≤ 924) ∧
      ¬(930 ≤ m.memory m.program_counter ∧ m.memory m.program_counter ≤ 935)) :
    ∃ s', lmsm_step TOP_OF_MEMORY m = some s' ∧
      s'.error_code = ERROR_UNKNOWN_INSTRUCTION ∧ s'.status = STATUS_HALTED := by
  rw [lmsm_step_running TOP_OF_MEMORY m h, lmsm_exec_instruction,
    lmsm_dispatch_unknown _ _ _ ⟨hw.1, hw.2.1, hw.2.2.2.1, hw.2.2.2.2.1, hw.2.2.2.2.2.1,
      hw.2.2.2.2.2.2.1, hw.2.2.2.2.2.2.2⟩]
  exact ⟨_, rfl, rfl, rfl⟩

theorem lmsm_step_unknown_instruction_witness :
    (lmsm_sample 7 200 903).status ≠ STATUS_HALTED ∧
    ∃ s', lmsm_step 199 (lmsm_sample 7 200 903) = some s' ∧
      s'.error_code = ERROR_UNKNOWN_INSTRUCTION ∧ s'.status = STATUS_HALTED :=
  ⟨by decide, lmsm_step_unknown_instruction 199 (lmsm_sample 7 200 903) (by decide)
    (by decide)⟩

/-- C9 (as the code behaves): when the machine is not halted and the word at the
program counter is 901, `lmsm_step` does not read an input: it sets the error
code to UnknownInstruction and the status to Halted, and the accumulator is the
old one, capped.  In particular the result differs from what `lmsm_i_inp` gives,
which keeps the error code and the status. -/
theorem lmsm_step_inp_is_unknown (TOP_OF_MEMORY : Int) (m : lmsm)
    (h : m.status ≠ STATUS_HALTED) (hw : m.memory m.program_counter = 901) :
    ∃ s', lmsm_step TOP_OF_MEMORY m = some s' ∧
      s'.error_code = ERROR_UNKNOWN_INSTRUCTION ∧ s'.status = STATUS_HALTED ∧
      s'.accumulator = lmsm_cap_value m.accumulator ∧
      ∀ input, (lmsm_i_inp m input).status = m.status ∧
        (lmsm_i_inp m input).error_code = m.error_code := by
  rw [lmsm_step_running TOP_OF_MEMORY m h, lmsm_exec_instruction, hw,
    lmsm_dispatch_unknown _ _ _ (by omega)]
  refine ⟨_, rfl, rfl, rfl, rfl, ?_⟩
  intro input
  cases input <;> exact ⟨rfl, rfl⟩

theorem lmsm_step_inp_is_unknown_witness :
    (lmsm_sample 7 200 901).status ≠ STATUS_HALTED ∧
    (lmsm_sample 7 200 901).memory (lmsm_sample 7 200 901).program_counter = 901 ∧
    ∃ s', lmsm_step 199 (lmsm_sample 7 200 901) = some s' ∧
      s'.error_code = ERROR_UNKNOWN_INSTRUCTION ∧ s'.status = STATUS_HALTED ∧
      s'.accumulator = lmsm_cap_value (lmsm_sample 7 200 901).accumulator ∧
      ∀ input, (lmsm_i_inp (lmsm_sample 7 200 901) input).status =
          (lmsm_sample 7 200 901).status ∧
        (lmsm_i_inp (lmsm_sample 7 200 901) input).error_code =
          (lmsm_sample 7 200 901).error_code :=
  ⟨by decide, by decide,
    lmsm_step_inp_is_unknown 199 (lmsm_sample 7 200 901) (by decide) (by decide)⟩

/-- C10 (as stated, at a concrete machine): with accumulator 1000, an empty
stack (stack pointer 200 = 199 + 1) and SPOP (921) at the program counter, the
step ends with accumulator 999: the accumulator is not left unchanged. -/
theorem lmsm_step_pop_empty_changes_accumulator :
    (lmsm_sample 1000 200 921).status ≠ STATUS_HALTED ∧
    (lmsm_sample 1000 200 921).stack_pointer = 199 + 1 ∧
    (lmsm_sample 1000 200 921).memory (lmsm_sample 1000 200 921).program_counter = 921 ∧
    (lmsm_sample 1000 200 921).accumulator = 1000 ∧
    (lmsm_step 199 (lmsm_sample 1000 200 921)).map (fun s => s.accumulator) = some 999 := by
  decide

/-- C10 (amended): when the machine is not halted and the stack pointer is
`TOP_OF_MEMORY + 1`, a step on SPOP (921) or SDROP (923) sets the error code to
BadStack and the status to Halted and leaves the stack pointer and every memory
cell unchanged; the accumulator is the old one capped into [-999, 999], hence
unchanged when it was in that range. -/
theorem lmsm_step_pop_drop_empty (TOP_OF_MEMORY : Int) (m : lmsm)
    (h : m.status ≠ STATUS_HALTED) (hsp : m.stack_pointer = TOP_OF_MEMORY + 1)
    (hw : m.memory m.program_counter = 921 ∨ m.memory m.program_counter = 923) :
    ∃ s', lmsm_step TOP_OF_MEMORY m = some s' ∧
      s'.error_code = ERROR_BAD_STACK ∧ s'.status = STATUS_HALTED ∧
      s'.stack_pointer = m.stack_pointer ∧ s'.memory = m.memory ∧
      s'.accumulator = lmsm_cap_value m.accumulator ∧
      (-999 ≤ m.accumulator ∧ m.accumulator ≤ 999 → s'.accumulator = m.accumulator) := by
  rw [lmsm_step_running TOP_OF_MEMORY m h, lmsm_exec_instruction]
  rcases hw with hw | hw
  · rw [hw, lmsm_dispatch_921]
    simp only [lmsm_i_pop, hsp, if_true, Option.map_some']
    exact ⟨_, rfl, rfl, rfl, rfl, rfl, rfl, fun hr => lmsm_cap_value_of_range _ hr.1 hr.2⟩
  · rw [hw, lmsm_dispatch_923]
    simp only [lmsm_i_drop, hsp, if_true, Option.map_some']
    exact ⟨_, rfl, rfl, rfl, rfl, rfl, rfl, fun hr => lmsm_cap_value_of_range _ hr.1 hr.2⟩

theorem lmsm_step_pop_drop_empty_witness :
    (lmsm_sample 42 200 923).status ≠ STATUS_HALTED ∧
    (lmsm_sample 42 200 923).stack_pointer = 199 + 1 ∧
    ((lmsm_sample 42 200 923).memory (lmsm_sample 42 200 923).program_counter = 921 ∨
      (lmsm_sample 42 200 923).memory (lmsm_sample 42 200 923).program_counter = 923) ∧
    ∃ s', lmsm_step 199 (lmsm_sample 42 200 923) = some s' ∧
      s'.error_code = ERROR_BAD_STACK ∧ s'.status = STATUS_HALTED ∧
      s'.stack_pointer = (lmsm_sample 42 200 923).stack_pointer ∧
      s'.memory = (lmsm_sample 42 200 923).memory ∧
      s'.accumulator = lmsm_cap_value (lmsm_sample 42 200 923).accumulator ∧
      (-999 ≤ (lmsm_sample 42 200 923).accumulator ∧
        (lmsm_sample 42 200 923).accumulator ≤ 999 →
        s'.accumulator = (lmsm_sample 42 200 923).accumulator) :=
  ⟨by decide, by decide, by decide,
    lmsm_step_pop_drop_empty 199 (lmsm_sample 42 200 923) (by decide) (by decide)
      (by decide)⟩

/-! ## The assembler: instruction lists -/

theorem array_set_eq (a : Int → Int) (i v : Int) : array_set a i v i = v := by
  simp [array_set]

theorem array_set_ne (a : Int → Int) (i v j : Int) (h : j ≠ i) :
    array_set a i v j = a j := by
  simp [array_set, h]

theorem asm_slots_range (type : String) : 1 ≤ asm_slots type ∧ asm_slots type ≤ 3 := by
  unfold asm_slots
  split_ifs <;> omega

theorem asm_make_instruction_slots (type : String) (label label_reference : Option String)
    (value : Int) (predecessor : Option asm_instruction) :
    (asm_make_instruction type label label_reference value predecessor).slots =
      asm_slots type := rfl

theorem asm_linked_append_make (type : String) (label label_reference : Option String)
    (value : Int) (o : Int) (l : List asm_instruction)
    (h : asm_linked o l) (h0 : l = [] → o = 0) :
    asm_linked o (l ++ [asm_make_instruction type label label_reference value l.getLast?]) := by
  induction l generalizing o with
  | nil =>
    simp only [List.nil_append, List.getLast?_nil, asm_linked, and_true]
    exact ⟨(h0 rfl).symm, rfl⟩
  | cons i rest ih =>
    obtain ⟨h1, h2, h3⟩ := h
    cases rest with
    | nil =>
      simp only [List.cons_append, List.nil_append, List.getLast?_singleton, asm_linked,
        and_true]
      exact ⟨h1, h2, by simp [asm_make_instruction, h1], rfl⟩
    | cons j rest2 =>
      have ih2 := ih (o + i.slots) h3 (by simp)
      rw [List.getLast?_cons_cons]
      exact ⟨h1, h2, ih2⟩

theorem asm_linked_offset_ge (o : Int) (l : List asm_instruction) (h : asm_linked o l)
    (j : asm_instruction) (hj : j ∈ l) : o ≤ j.offset := by
  induction l generalizing o with
  | nil => simp at hj
  | cons i rest ih =>
    obtain ⟨h1, h2, h3⟩ := h
    rcases List.mem_cons.mp hj with rfl | hj2
    · omega
    · have := ih (o + i.slots) h3 hj2
      have := asm_slots_range i.instruction
      omega

theorem asm_linked_slots (o : Int) (l : List asm_instruction) (h : asm_linked o l)
    (j : asm_instruction) (hj : j ∈ l) : j.slots = asm_slots j.instruction := by
  induction l generalizing o with
  | nil => simp at hj
  | cons i rest ih =>
    obtain ⟨h1, h2, h3⟩ := h
    rcases List.mem_cons.mp hj with rfl | hj2
    · exact h2
    · exact ih (o + i.slots) h3 hj2

theorem asm_linked_split (o : Int) (pre : List asm_instruction) (i : asm_instruction)
    (post : List asm_instruction) (h : asm_linked o (pre ++ i :: post)) :
    o ≤ i.offset ∧ i.slots = asm_slots i.instruction ∧
      asm_linked (i.offset + i.slots) post ∧
      (∀ k ∈ pre, k.offset + k.slots ≤ i.offset) := by
  induction pre generalizing o with
  | nil =>
    obtain ⟨h1, h2, h3⟩ := h
    refine ⟨by omega, h2, ?_, by simp⟩
    rw [h1]
    exact h3
  | cons p rest ih =>
    obtain ⟨h1, h2, h3⟩ := h
    obtain ⟨a, b, c, d⟩ := ih (o + p.slots) h3
    have hp := asm_slots_range p.instruction
    refine ⟨by omega, b, c, ?_⟩
    intro k hk
    rcases List.mem_cons.mp hk with rfl | hk2
    · omega
    · exact d k hk2

/-! ## The assembler: the parser builds a linked list -/

theorem asm_parse_tokens_linked (toks : List String) (last : Option asm_instruction)
    (result r : asm_compilation_result)
    (hp : asm_parse_tokens toks last result = some r)
    (hlast : last = result.root.getLast?)
    (hl : asm_linked 0 result.root)
    (hv : ∀ i ∈ result.root, asm_is_instruction i.instruction = true) :
    asm_linked 0 r.root ∧ (∀ i ∈ r.root, asm_is_instruction i.instruction = true) ∧
      r.code = result.code := by
  induction toks, last, result using asm_parse_tokens.induct with
  | case1 last result =>
    unfold asm_parse_tokens at hp
    cases hp
    exact ⟨hl, hv, rfl⟩
  | case2 cur last result h1 h2 =>
    unfold asm_parse_tokens at hp
    simp only [h1, h2, if_true] at hp
    cases hp
    exact ⟨hl, hv, rfl⟩
  | case3 cur last result h1 h2 arg rest1 a new_inst ih =>
    unfold asm_parse_tokens at hp
    simp only [h1, h2, if_true] at hp
    refine ih hp (by simp) ?_ ?_
    · subst hlast
      exact asm_linked_append_make _ _ _ _ 0 _ hl (fun _ => rfl)
    · intro i hi
      rcases List.mem_append.mp hi with hi | hi
      · exact hv i hi
      · simp only [List.mem_singleton] at hi
        subst hi
        exact h1
  | case4 cur rest last result h1 h2 new_inst ih =>
    unfold asm_parse_tokens at hp
    simp only [h1, h2, if_true, Bool.false_eq_true, if_false] at hp
    refine ih hp (by simp) ?_ ?_
    · subst hlast
      exact asm_linked_append_make _ _ _ _ 0 _ hl (fun _ => rfl)
    · intro i hi
      rcases List.mem_append.mp hi with hi | hi
      · exact hv i hi
      · simp only [List.mem_singleton] at hi
        subst hi
        exact h1
  | case5 cur last result h1 =>
    unfold asm_parse_tokens at hp
    simp only [h1, Bool.false_eq_true, if_false] at hp
    cases hp
  | case6 cur last result h1 type h3 h4 =>
    unfold asm_parse_tokens at hp
    simp only [h1, h3, h4, if_true, Bool.false_eq_true, if_false] at hp
    cases hp
    exact ⟨hl, hv, rfl⟩
  | case7 cur last result h1 type h3 h4 arg rest1 a new_inst ih =>
    unfold asm_parse_tokens at hp
    simp only [h1, h3, h4, if_true, Bool.false_eq_true, if_false] at hp
    refine ih hp (by simp) ?_ ?_
    · subst hlast
      exact asm_linked_append_make _ _ _ _ 0 _ hl (fun _ => rfl)
    · intro i hi
      rcases List.mem_append.mp hi with hi | hi
      · exact hv i hi
      · simp only [List.mem_singleton] at hi
        subst hi
        exact h3
  | case8 cur last result h1 type rest1 h3 h4 new_inst ih =>
    unfold asm_parse_tokens at hp
    simp only [h1, h3, h4, if_true, Bool.false_eq_true, if_false] at hp
    refine ih hp (by simp) ?_ ?_
    · subst hlast
      exact asm_linked_append_make _ _ _ _ 0 _ hl (fun _ => rfl)
    · intro i hi
      rcases List.mem_append.mp hi with hi | hi
      · exact hv i hi
      · simp only [List.mem_singleton] at hi
        subst hi
        exact h3
  | case9 cur last result h1 type rest1 h3 =>
    unfold asm_parse_tokens at hp
    simp only [h1, h3, if_true, Bool.false_eq_true, if_false] at hp
    cases hp
    exact ⟨hl, hv, rfl⟩

theorem asm_parse_src_linked (src : String) (r : asm_compilation_result)
    (hp : asm_parse_src asm_make_compilation_result src = some r) :
    asm_linked 0 r.root ∧ (∀ i ∈ r.root, asm_is_instruction i.instruction = true) ∧
      (∀ a, r.code a = 0) := by
  unfold asm_parse_src at hp
  rcases Option.map_eq_some'.mp hp with ⟨r1, h1, h2⟩
  simp only [asm_make_compilation_result, List.isEmpty_nil, if_true] at h2
  subst h2
  obtain ⟨a, b, c⟩ := asm_parse_tokens_linked _ _ _ _ h1 rfl trivial (by simp [asm_make_compilation_result])
  exact ⟨a, b, fun x => by rw [c]; rfl⟩

/-! ## The assembler: what one instruction writes -/

theorem asm_gen_code_for_instruction_emit_root (r : asm_compilation_result)
    (i : asm_instruction) (v : Int) :
    (asm_gen_code_for_instruction_emit r i v).root = r.root := by
  simp only [asm_gen_code_for_instruction_emit, apply_ite asm_compilation_result.root, ite_self]

theorem asm_gen_code_for_instruction_none (r : asm_compilation_result) (i : asm_instruction)
    (h : i.label_reference = none) :
    asm_gen_code_for_instruction r i = asm_gen_code_for_instruction_emit r i i.value := by
  simp only [asm_gen_code_for_instruction, h]

theorem asm_gen_code_for_instruction_found (r : asm_compilation_result) (i : asm_instruction)
    (l : String) (h : i.label_reference = some l) (hf : asm_find_label r.root l ≠ -1) :
    asm_gen_code_for_instruction r i =
      asm_gen_code_for_instruction_emit r i (asm_find_label r.root l) := by
  simp only [asm_gen_code_for_instruction, h, hf, if_false]

theorem asm_gen_code_for_instruction_bad (r : asm_compilation_result) (i : asm_instruction)
    (l : String) (h : i.label_reference = some l) (hf : asm_find_label r.root l = -1) :
    asm_gen_code_for_instruction r i = { r with error := some ASM_ERROR_BAD_LABEL } := by
  simp only [asm_gen_code_for_instruction, h, hf, if_true]

theorem asm_gen_code_for_instruction_root (r : asm_compilation_result) (i : asm_instruction) :
    (asm_gen_code_for_instruction r i).root = r.root := by
  cases h : i.label_reference with
  | none =>
    rw [asm_gen_code_for_instruction_none r i h]
    exact asm_gen_code_for_instruction_emit_root _ _ _
  | some l =>
    by_cases hf : asm_find_label r.root l = -1
    · rw [asm_gen_code_for_instruction_bad r i l h hf]
    · rw [asm_gen_code_for_instruction_found r i l h hf]
      exact asm_gen_code_for_instruction_emit_root _ _ _

theorem asm_emit_call (r : asm_compilation_result) (i : asm_instruction) (v : Int)
    (h : i.instruction = "CALL") :
    asm_gen_code_for_instruction_emit r i v =
      { r with
        code := array_set
          (array_set (array_set r.code (i.offset + 1) 920) i.offset (400 + v))
          (i.offset + 2) 910 } := by
  simp [asm_gen_code_for_instruction_emit, h]

theorem asm_emit_spushi (r : asm_compilation_result) (i : asm_instruction) (v : Int)
    (h : i.instruction = "SPUSHI") :
    asm_gen_code_for_instruction_emit r i v =
      { r with
        code := array_set (array_set r.code (i.offset + 1) 920) i.offset (400 + v) } := by
  simp [asm_gen_code_for_instruction_emit, h]

theorem asm_emit_code_other (r : asm_compilation_result) (i : asm_instruction) (v a : Int)
    (hC : i.instruction ≠ "CALL") (hS : i.instruction ≠ "SPUSHI") (hne : a ≠ i.offset) :
    (asm_gen_code_for_instruction_emit r i v).code a = r.code a := by
  have h1 : ∀ w, array_set r.code i.offset w a = r.code a :=
    fun w => array_set_ne _ _ _ _ hne
  simp only [asm_gen_code_for_instruction_emit, hC, hS, if_false,
    apply_ite asm_compilation_result.code, ite_apply, h1, ite_self]

theorem asm_emit_code_at (r1 r2 : asm_compilation_result) (i : asm_instruction) (v : Int)
    (hC : i.instruction ≠ "CALL") (hS : i.instruction ≠ "SPUSHI") :
    (asm_gen_code_for_instruction_emit r1 i v).code i.offset =
      (asm_gen_code_for_instruction_emit r2 i v).code i.offset := by
  simp only [asm_gen_code_for_instruction_emit, hC, hS, if_false,
    apply_ite asm_compilation_result.code, ite_apply, array_set_eq]

/-- The code that `asm_gen_code_for_instruction_emit` leaves outside the slots
of the instruction is the old code. -/
theorem asm_emit_code_outside (r : asm_compilation_result) (i : asm_instruction) (v a : Int)
    (ha : a < i.offset ∨ i.offset + asm_slots i.instruction ≤ a) :
    (asm_gen_code_for_instruction_emit r i v).code a = r.code a := by
  by_cases hC : i.instruction = "CALL"
  · rw [asm_emit_call r i v hC]
    have hs : asm_slots i.instruction = 3 := by simp [asm_slots, hC]
    simp only
    rw [array_set_ne _ _ _ _ (by omega), array_set_ne _ _ _ _ (by omega),
      array_set_ne _ _ _ _ (by omega)]
  · by_cases hS : i.instruction = "SPUSHI"
    · rw [asm_emit_spushi r i v hS]
      have hs : asm_slots i.instruction = 2 := by simp [asm_slots, hS]
      simp only
      rw [array_set_ne _ _ _ _ (by omega), array_set_ne _ _ _ _ (by omega)]
    · have hs : asm_slots i.instruction = 1 := by simp [asm_slots, hC, hS]
      exact asm_emit_code_other r i v a hC hS (by omega)

/-- The word that `asm_gen_code_for_instruction_emit` leaves in a cell depends on
the old code at that cell only. -/
theorem asm_emit_code_congr (r1 r2 : asm_compilation_result) (i : asm_instruction)
    (v a : Int) (h : r1.code a = r2.code a) :
    (asm_gen_code_for_instruction_emit r1 i v).code a =
      (asm_gen_code_for_instruction_emit r2 i v).code a := by
  by_cases hC : i.instruction = "CALL"
  · rw [asm_emit_call r1 i v hC, asm_emit_call r2 i v hC]
    simp only [array_set]
    split_ifs <;> first | rfl | exact h
  · by_cases hS : i.instruction = "SPUSHI"
    · rw [asm_emit_spushi r1 i v hS, asm_emit_spushi r2 i v hS]
      simp only [array_set]
      split_ifs <;> first | rfl | exact h
    · by_cases ha : a = i.offset
      · subst ha
        exact asm_emit_code_at r1 r2 i v hC hS
      · rw [asm_emit_code_other r1 i v a hC hS ha, asm_emit_code_other r2 i v a hC hS ha]
        exact h

theorem asm_gen_code_for_instruction_outside (r : asm_compilation_result)
    (i : asm_instruction) (a : Int)
    (ha : a < i.offset ∨ i.offset + asm_slots i.instruction ≤ a) :
    (asm_gen_code_for_instruction r i).code a = r.code a := by
  cases h : i.label_reference with
  | none =>
    rw [asm_gen_code_for_instruction_none r i h]
    exact asm_emit_code_outside _ _ _ _ ha
  | some l =>
    by_cases hf : asm_find_label r.root l = -1
    · rw [asm_gen_code_for_instruction_bad r i l h hf]
    · rw [asm_gen_code_for_instruction_found r i l h hf]
      exact asm_emit_code_outside _ _ _ _ ha

theorem asm_gen_code_for_instruction_congr (r1 r2 : asm_compilation_result)
    (i : asm_instruction) (a : Int) (hroot : r1.root = r2.root)
    (h : r1.code a = r2.code a) :
    (asm_gen_code_for_instruction r1 i).code a =
      (asm_gen_code_for_instruction r2 i).code a := by
  cases hl : i.label_reference with
  | none =>
    rw [asm_gen_code_for_instruction_none r1 i hl, asm_gen_code_for_instruction_none r2 i hl]
    exact asm_emit_code_congr _ _ _ _ _ h
  | some l =>
    by_cases hf : asm_find_label r1.root l = -1
    · rw [asm_gen_code_for_instruction_bad r1 i l hl hf,
        asm_gen_code_for_instruction_bad r2 i l hl (hroot ▸ hf)]
      exact h
    · rw [asm_gen_code_for_instruction_found r1 i l hl hf,
        asm_gen_code_for_instruction_found r2 i l hl (hroot ▸ hf), ← hroot]
      exact asm_emit_code_congr _ _ _ _ _ h

/-! ## The assembler: the code array after `asm_gen_code` -/

theorem asm_foldl_root (l : List asm_instruction) (r : asm_compilation_result) :
    (l.foldl asm_gen_code_for_instruction r).root = r.root := by
  induction l generalizing r with
  | nil => rfl
  | cons i rest ih =>
    rw [List.foldl_cons, ih, asm_gen_code_for_instruction_root]

theorem asm_foldl_code_below (l : List asm_instruction) (o : Int)
    (r : asm_compilation_result) (hl : asm_linked o l) (a : Int) (ha : a < o) :
    (l.foldl asm_gen_code_for_instruction r).code a = r.code a := by
  induction l generalizing o r with
  | nil => rfl
  | cons i rest ih =>
    obtain ⟨h1, h2, h3⟩ := hl
    have hs := asm_slots_range i.instruction
    rw [List.foldl_cons, ih (o + i.slots) _ h3 (by omega)]
    exact asm_gen_code_for_instruction_outside r i a (by omega)

/-- After the walk over a linked list, the cells of the slots of an instruction
of the list hold what `asm_gen_code_for_instruction` writes for that instruction
alone; `r0` is any result with the same root and the same old code there. -/
theorem asm_foldl_code_at (l : List asm_instruction) (o : Int)
    (r r0 : asm_compilation_result) (hl : asm_linked o l) (hroot : r.root = r0.root)
    (j : asm_instruction) (hj : j ∈ l) (a : Int)
    (ha : j.offset ≤ a ∧ a < j.offset + j.slots) (hcode : r.code a = r0.code a) :
    (l.foldl asm_gen_code_for_instruction r).code a =
      (asm_gen_code_for_instruction r0 j).code a := by
  induction l generalizing o r with
  | nil => simp at hj
  | cons i rest ih =>
    obtain ⟨h1, h2, h3⟩ := hl
    have hs := asm_slots_range i.instruction
    rw [List.foldl_cons]
    rcases List.mem_cons.mp hj with rfl | hj2
    · rw [asm_foldl_code_below rest (o + j.slots) _ h3 a (by omega)]
      exact asm_gen_code_for_instruction_congr r r0 j a hroot hcode
    · have hge := asm_linked_offset_ge _ _ h3 j hj2
      refine ih (o + i.slots) _ h3 ?_ hj2 ?_
      · rw [asm_gen_code_for_instruction_root, hroot]
      · rw [asm_gen_code_for_instruction_outside r i a (by omega)]
        exact hcode

theorem asm_gen_code_code_at (r : asm_compilation_result) (hl : asm_linked 0 r.root)
    (j : asm_instruction) (hj : j ∈ r.root) (a : Int)
    (ha : j.offset ≤ a ∧ a < j.offset + j.slots) :
    (asm_gen_code r).code a = (asm_gen_code_for_instruction r j).code a :=
  asm_foldl_code_at r.root 0 r r hl rfl j hj a ha rfl

/-! ## The assembler: label lookup -/

theorem asm_find_label_first (pre : List asm_instruction) (j : asm_instruction)
    (post : List asm_instruction) (L : String) (hj : j.label = some L)
    (hpre : ∀ k ∈ pre, k.label ≠ some L) :
    asm_find_label (pre ++ j :: post) L = j.offset := by
  induction pre with
  | nil => simp [asm_find_label, hj]
  | cons p rest ih =>
    have hp : p.label ≠ some L := hpre p (List.mem_cons_self _ _)
    simp only [List.cons_append, asm_find_label, hp, if_false]
    exact ih (fun k hk => hpre k (List.mem_cons_of_mem _ hk))

theorem asm_find_label_absent (l : List asm_instruction) (L : String)
    (h : ∀ k ∈ l, k.label ≠ some L) : asm_find_label l L = -1 := by
  induction l with
  | nil => rfl
  | cons p rest ih =>
    have hp : p.label ≠ some L := h p (List.mem_cons_self _ _)
    simp only [asm_find_label, hp, if_false]
    exact ih (fun k hk => h k (List.mem_cons_of_mem _ hk))

theorem asm_find_label_present (l : List asm_instruction) (L : String)
    (h : ∃ k ∈ l, k.label = some L) :
    ∃ k ∈ l, k.label = some L ∧ asm_find_label l L = k.offset := by
  induction l with
  | nil => simp at h
  | cons p rest ih =>
    by_cases hp : p.label = some L
    · exact ⟨p, List.mem_cons_self _ _, hp, by simp [asm_find_label, hp]⟩
    · obtain ⟨k, hk, hkl⟩ := h
      rcases List.mem_cons.mp hk with rfl | hk2
      · exact absurd hkl hp
      · obtain ⟨k2, hk2m, hk2l, hk2f⟩ := ih ⟨k, hk2, hkl⟩
        exact ⟨k2, List.mem_cons_of_mem _ hk2m, hk2l, by simp [asm_find_label, hp, hk2f]⟩

theorem asm_find_label_resolved (l : List asm_instruction) (L : String)
    (hl : asm_linked 0 l) (h : ∃ k ∈ l, k.label = some L) :
    asm_find_label l L ≠ -1 := by
  obtain ⟨k, hk, -, hf⟩ := asm_find_label_present l L h
  have := asm_linked_offset_ge 0 l hl k hk
  omega

/-! ## The assembler: the words of the encoding table -/

theorem asm_is_instruction_mem (m : String) (h : asm_is_instruction m = true) :
    m ∈ INSTRUCTIONS := by
  unfold asm_is_instruction at h
  rcases List.any_eq_true.mp h with ⟨s, hs, hb⟩
  have : m = s := by simpa using hb
  rw [this]
  exact hs

theorem asm_emit_encoding (r : asm_compilation_result) (i : asm_instruction) (v : Int)
    (hm : asm_is_instruction i.instruction = true)
    (hC : i.instruction ≠ "CALL") (hS : i.instruction ≠ "SPUSHI") :
    some ((asm_gen_code_for_instruction_emit r i v).code i.offset) =
      encoding_table i.instruction v := by
  have hmem := asm_is_instruction_mem _ hm
  simp only [INSTRUCTIONS, List.mem_cons, List.mem_singleton, List.not_mem_nil, or_false]
    at hmem
  rcases hmem with h | h | h | h | h | h | h | h | h | h | h | h | h | h | h | h | h | h | h |
    h | h | h | h | h | h | h | h | h
  all_goals first
    | exact absurd h hC
    | exact absurd h hS
    | simp [asm_gen_code_for_instruction_emit, encoding_table, h, array_set_eq]

theorem asm_slots_one (m : String) (h : asm_slots m = 1) : m ≠ "CALL" ∧ m ≠ "SPUSHI" := by
  unfold asm_slots at h
  constructor
  · intro hc
    simp [hc] at h
  · intro hs
    simp [hs] at h

/-! ## The assembler: errors during code generation -/

theorem asm_emit_error_valid (r : asm_compilation_result) (i : asm_instruction) (v : Int)
    (hm : asm_is_instruction i.instruction = true) :
    (asm_gen_code_for_instruction_emit r i v).error = r.error := by
  have hmem := asm_is_instruction_mem _ hm
  simp only [INSTRUCTIONS, List.mem_cons, List.mem_singleton, List.not_mem_nil, or_false]
    at hmem
  rcases hmem with h | h | h | h | h | h | h | h | h | h | h | h | h | h | h | h | h | h | h |
    h | h | h | h | h | h | h | h | h
  all_goals simp [asm_gen_code_for_instruction_emit, h]

theorem asm_emit_error_isSome (r : asm_compilation_result) (i : asm_instruction) (v : Int)
    (h : r.error.isSome = true) :
    (asm_gen_code_for_instruction_emit r i v).error.isSome = true := by
  simp only [asm_gen_code_for_instruction_emit, apply_ite asm_compilation_result.error,
    apply_ite Option.isSome, h, Option.isSome_some, ite_self]

theorem asm_gen_code_for_instruction_error_isSome (r : asm_compilation_result)
    (i : asm_instruction) (h : r.error.isSome = true) :
    (asm_gen_code_for_instruction r i).error.isSome = true := by
  cases hl : i.label_reference with
  | none =>
    rw [asm_gen_code_for_instruction_none r i hl]
    exact asm_emit_error_isSome _ _ _ h
  | some l =>
    by_cases hf : asm_find_label r.root l = -1
    · rw [asm_gen_code_for_instruction_bad r i l hl hf]
      rfl
    · rw [asm_gen_code_for_instruction_found r i l hl hf]
      exact asm_emit_error_isSome _ _ _ h

theorem asm_foldl_error_isSome (l : List asm_instruction) (r : asm_compilation_result)
    (h : r.error.isSome = true) :
    (l.foldl asm_gen_code_for_instruction r).error.isSome = true := by
  induction l generalizing r with
  | nil => exact h
  | cons i rest ih =>
    rw [List.foldl_cons]
    exact ih _ (asm_gen_code_for_instruction_error_isSome r i h)

theorem asm_gen_code_for_instruction_keeps_bad_label (r : asm_compilation_result)
    (i : asm_instruction) (hm : asm_is_instruction i.instruction = true)
    (h : r.error = some ASM_ERROR_BAD_LABEL) :
    (asm_gen_code_for_instruction r i).error = some ASM_ERROR_BAD_LABEL := by
  cases hl : i.label_reference with
  | none =>
    rw [asm_gen_code_for_instruction_none r i hl, asm_emit_error_valid _ _ _ hm]
    exact h
  | some l =>
    by_cases hf : asm_find_label r.root l = -1
    · rw [asm_gen_code_for_instruction_bad r i l hl hf]
    · rw [asm_gen_code_for_instruction_found r i l hl hf, asm_emit_error_valid _ _ _ hm]
      exact h

theorem asm_foldl_keeps_bad_label (l : List asm_instruction) (r : asm_compilation_result)
    (hm : ∀ k ∈ l, asm_is_instruction k.instruction = true)
    (h : r.error = some ASM_ERROR_BAD_LABEL) :
    (l.foldl asm_gen_code_for_instruction r).error = some ASM_ERROR_BAD_LABEL := by
  induction l generalizing r with
  | nil => exact h
  | cons i rest ih =>
    rw [List.foldl_cons]
    exact ih _ (fun k hk => hm k (List.mem_cons_of_mem _ hk))
      (asm_gen_code_for_instruction_keeps_bad_label r i (hm i (List.mem_cons_self _ _)) h)

/-- Once the walk meets an instruction whose label reference matches no label of
`root`, the error is set from there on; it is BadLabel at the end when every
mnemonic of the list is a known one. -/
theorem asm_foldl_bad_label (l : List asm_instruction) (r : asm_compilation_result)
    (i : asm_instruction) (hi : i ∈ l) (L : String) (href : i.label_reference = some L)
    (hno : asm_find_label r.root L = -1) :
    (l.foldl asm_gen_code_for_instruction r).error.isSome = true ∧
    ((∀ k ∈ l, asm_is_instruction k.instruction = true) →
      (l.foldl asm_gen_code_for_instruction r).error = some ASM_ERROR_BAD_LABEL) := by
  induction l generalizing r with
  | nil => simp at hi
  | cons p rest ih =>
    rw [List.foldl_cons]
    rcases List.mem_cons.mp hi with rfl | hi2
    · have hb := asm_gen_code_for_instruction_bad r i L href hno
      constructor
      · exact asm_foldl_error_isSome _ _ (by rw [hb]; rfl)
      · intro hv
        exact asm_foldl_keeps_bad_label _ _ (fun k hk => hv k (List.mem_cons_of_mem _ hk))
          (by rw [hb])
    · have hr := asm_gen_code_for_instruction_root r p
      obtain ⟨h1, h2⟩ := ih (asm_gen_code_for_instruction r p) hi2 (by rw [hr]; exact hno)
      exact ⟨h1, fun hv => h2 (fun k hk => hv k (List.mem_cons_of_mem _ hk))⟩

/-! ## Tokens -/

theorem strtok_tokens_append (xs ys cur : List Char) (d : Char) (hd : d = ' ' ∨ d = '\n') :
    strtok_tokens (xs ++ d :: ys) cur = strtok_tokens xs cur ++ strtok_tokens ys [] := by
  induction xs generalizing cur with
  | nil =>
    simp only [List.nil_append, strtok_tokens, hd, if_true]
    cases cur <;> simp
  | cons c cs ih =>
    simp only [List.cons_append, strtok_tokens]
    by_cases hc : c = ' ' ∨ c = '\n'
    · simp only [hc, if_true]
      cases cur <;> simp [ih]
    · simp only [hc, if_false]
      exact ih _

set_option maxRecDepth 100000 in
theorem strtok_tokens_small_number (n : Nat) (hn : n ≤ 99) :
    strtok_tokens (toString n).data [] = [toString n] := by
  interval_cases n <;> decide

set_option maxRecDepth 100000 in
theorem asm_is_num_small_number (n : Nat) (hn : n ≤ 99) :
    asm_is_num (toString n) = true := by
  interval_cases n <;> decide

set_option maxRecDepth 100000 in
theorem sscanf_d_small_number (n : Nat) (hn : n ≤ 99) :
    sscanf_d (toString n) = (n : Int) := by
  interval_cases n <;> decide

/-- Literals beyond the range of a `long`: the conversion saturates, and the low
32 bits of the greatest and of the least `long` are -1 and 0. -/
theorem sscanf_d_beyond_long :
    sscanf_d "99999999999999999999" = -1 ∧ sscanf_d "-99999999999999999999" = 0 := by
  decide

theorem int32_wrap_of_range (x : Int) (h1 : -2147483648 ≤ x) (h2 : x ≤ 2147483647) :
    int32_wrap x = x := by
  unfold int32_wrap
  omega

/-! ## The parser: one numeric argument -/

theorem asm_parse_src_arg_numeric (tok : String) (error : Option String)
    (hnum : asm_is_num tok = true)
    (hlo : -2147483648 ≤ token_value tok) (hhi : token_value tok ≤ 2147483647) :
    asm_parse_src_arg tok error =
      (max (-999) (min 999 (token_value tok)), none,
        if token_value tok < -999 ∨ 999 < token_value tok then some ASM_ERROR_OUT_OF_RANGE
        else error) := by
  unfold asm_parse_src_arg sscanf_d
  rw [show max (-9223372036854775808) (min 9223372036854775807 (token_value tok)) =
    token_value tok by omega, int32_wrap_of_range _ hlo hhi]
  simp only [hnum, if_true]
  by_cases h1 : token_value tok > 999
  · have h2 : ¬ ((999 : Int) < -999) := by omega
    have h3 : min 999 (token_value tok) = 999 := by omega
    have h4 : token_value tok < -999 ∨ 999 < token_value tok := Or.inr h1
    simp [h1, h3, h4]
  · by_cases h2 : token_value tok < -999
    · have h3 : min 999 (token_value tok) = token_value tok := by omega
      have h4 : token_value tok < -999 ∨ 999 < token_value tok := Or.inl h2
      have h5 : max (-999) (token_value tok) = -999 := by omega
      simp [h1, h2, h3, h4, h5]
    · have h3 : min 999 (token_value tok) = token_value tok := by omega
      have h4 : ¬ (token_value tok < -999 ∨ 999 < token_value tok) := by omega
      have h5 : max (-999) (token_value tok) = token_value tok := by omega
      simp [h1, h2, h3, h4, h5]

theorem asm_parse_tokens_arg (type arg : String) (rest : List String)
    (last : Option asm_instruction) (result : asm_compilation_result)
    (hi : asm_is_instruction type = true) (ha : asm_instruction_requires_arg type = true) :
    asm_parse_tokens (type :: arg :: rest) last result =
      asm_parse_tokens rest
        (some (asm_make_instruction type none (asm_parse_src_arg arg result.error).2.1
          (asm_parse_src_arg arg result.error).1 last))
        { result with
          root := result.root ++
            [asm_make_instruction type none (asm_parse_src_arg arg result.error).2.1
              (asm_parse_src_arg arg result.error).1 last]
          error := (asm_parse_src_arg arg result.error).2.2 } := by
  conv_lhs => unfold asm_parse_tokens
  simp only [hi, ha, if_true]

theorem asm_parse_tokens_noarg (type : String) (rest : List String)
    (last : Option asm_instruction) (result : asm_compilation_result)
    (hi : asm_is_instruction type = true) (ha : asm_instruction_requires_arg type = false) :
    asm_parse_tokens (type :: rest) last result =
      asm_parse_tokens rest (some (asm_make_instruction type none none 0 last))
        { result with root := result.root ++ [asm_make_instruction type none none 0 last] } := by
  conv_lhs => unfold asm_parse_tokens
  simp only [hi, ha, if_true, Bool.false_eq_true, if_false]

theorem asm_parse_tokens_label_arg (label type arg : String) (rest : List String)
    (last : Option asm_instruction) (result : asm_compilation_result)
    (hl : asm_is_instruction label = false)
    (hi : asm_is_instruction type = true) (ha : asm_instruction_requires_arg type = true) :
    asm_parse_tokens (label :: type :: arg :: rest) last result =
      asm_parse_tokens rest
        (some (asm_make_instruction type (some label)
          (asm_parse_src_arg arg result.error).2.1 (asm_parse_src_arg arg result.error).1 last))
        { result with
          root := result.root ++
            [asm_make_instruction type (some label) (asm_parse_src_arg arg result.error).2.1
              (asm_parse_src_arg arg result.error).1 last]
          error := (asm_parse_src_arg arg result.error).2.2 } := by
  conv_lhs => unfold asm_parse_tokens
  simp only [hl, hi, ha, if_true, Bool.false_eq_true, if_false]

theorem asm_parse_tokens_label_noarg (label type : String) (rest : List String)
    (last : Option asm_instruction) (result : asm_compilation_result)
    (hl : asm_is_instruction label = false)
    (hi : asm_is_instruction type = true) (ha : asm_instruction_requires_arg type = false) :
    asm_parse_tokens (label :: type :: rest) last result =
      asm_parse_tokens rest (some (asm_make_instruction type (some label) none 0 last))
        { result with
          root := result.root ++ [asm_make_instruction type (some label) none 0 last] } := by
  conv_lhs => unfold asm_parse_tokens
  simp only [hl, hi, ha, if_true, Bool.false_eq_true, if_false]

/-! ## Assembling and running `LDI n OUT HLT` -/

theorem strtok_tokens_string_append (a b sep : String) (cur : List Char)
    (hsep : sep = " " ∨ sep = "\n") :
    strtok_tokens (a ++ sep ++ b).data cur =
      strtok_tokens a.data cur ++ strtok_tokens b.data [] := by
  have e1 : (" " : String).data = [' '] := rfl
  have e2 : ("\n" : String).data = ['\n'] := rfl
  rcases hsep with rfl | rfl
  · rw [String.data_append, String.data_append, e1, List.append_assoc, List.singleton_append]
    exact strtok_tokens_append _ _ _ _ (Or.inl rfl)
  · rw [String.data_append, String.data_append, e2, List.append_assoc, List.singleton_append]
    exact strtok_tokens_append _ _ _ _ (Or.inr rfl)

theorem strtok_tokens_ldi_out_hlt (n : Nat) (hn : n ≤ 99) (sep1 sep2 sep3 : String)
    (h1 : sep1 = " " ∨ sep1 = "\n") (h2 : sep2 = " " ∨ sep2 = "\n")
    (h3 : sep3 = " " ∨ sep3 = "\n") :
    strtok_tokens ("LDI" ++ sep1 ++ toString n ++ sep2 ++ "OUT" ++ sep3 ++ "HLT").data [] =
      ["LDI", toString n, "OUT", "HLT"] := by
  have t1 : strtok_tokens ("LDI" : String).data [] = ["LDI"] := by decide
  have t2 : strtok_tokens ("OUT" : String).data [] = ["OUT"] := by decide
  have t3 : strtok_tokens ("HLT" : String).data [] = ["HLT"] := by decide
  have t4 := strtok_tokens_small_number n hn
  rw [strtok_tokens_string_append _ "HLT" sep3 _ h3,
    strtok_tokens_string_append _ "OUT" sep2 _ h2,
    strtok_tokens_string_append "LDI" (toString n) sep1 _ h1, t1, t2, t3, t4]
  rfl

theorem asm_parse_src_arg_small_number (n : Nat) (hn : n ≤ 99) (error : Option String) :
    asm_parse_src_arg (toString n) error = ((n : Int), none, error) := by
  unfold asm_parse_src_arg
  rw [asm_is_num_small_number n hn, sscanf_d_small_number n hn]
  have h1 : ¬ ((n : Int) > 999) := by omega
  have h2 : ¬ ((n : Int) < -999) := by omega
  simp [h1, h2]

theorem asm_assemble_ldi_out_hlt (n : Nat) (hn : n ≤ 99) (sep1 sep2 sep3 : String)
    (h1 : sep1 = " " ∨ sep1 = "\n") (h2 : sep2 = " " ∨ sep2 = "\n")
    (h3 : sep3 = " " ∨ sep3 = "\n") :
    ∃ r, asm_assemble ("LDI" ++ sep1 ++ toString n ++ sep2 ++ "OUT" ++ sep3 ++ "HLT") = some r ∧
      r.error = none ∧ r.code 0 = 400 + (n : Int) ∧ r.code 1 = 902 ∧ r.code 2 = 0 := by
  have i1 : asm_is_instruction "LDI" = true := by decide
  have a1 : asm_instruction_requires_arg "LDI" = true := by decide
  have i2 : asm_is_instruction "OUT" = true := by decide
  have a2 : asm_instruction_requires_arg "OUT" = false := by decide
  have i3 : asm_is_instruction "HLT" = true := by decide
  have a3 : asm_instruction_requires_arg "HLT" = false := by decide
  unfold asm_assemble asm_parse_src
  rw [strtok_tokens_ldi_out_hlt n hn sep1 sep2 sep3 h1 h2 h3,
    asm_parse_tokens_arg _ _ _ _ _ i1 a1, asm_parse_src_arg_small_number n hn,
    asm_parse_tokens_noarg _ _ _ _ i2 a2, asm_parse_tokens_noarg _ _ _ _ i3 a3]
  simp [asm_parse_tokens, asm_make_compilation_result, asm_gen_code,
    asm_gen_code_for_instruction, asm_gen_code_for_instruction_emit, asm_make_instruction,
    array_set]

theorem lmsm_dispatch_0 (TOP : Int) (m : lmsm) :
    lmsm_dispatch TOP m 0 = some (lmsm_i_halt m) := by
  simp only [lmsm_dispatch, if_true]

theorem lmsm_dispatch_ldi (TOP : Int) (m : lmsm) (w : Int) (h : 400 ≤ w ∧ w ≤ 499) :
    lmsm_dispatch TOP m w = some (lmsm_i_load_immediate m (w - 400)) := by
  unfold lmsm_dispatch
  iterate 4 rw [if_neg (by omega)]
  rw [if_pos h]

theorem lmsm_dispatch_902 (TOP : Int) (m : lmsm) :
    lmsm_dispatch TOP m 902 = some (lmsm_i_out m) := by
  simp only [lmsm_dispatch]
  norm_num

theorem lmsm_run_loop_halted (TOP : Int) (fuel : Nat) (m : lmsm)
    (h : m.status = STATUS_HALTED) : lmsm_run_loop TOP fuel m = some m := by
  cases fuel <;> simp [lmsm_run_loop, h]

theorem lmsm_run_loop_step (TOP : Int) (fuel : Nat) (m : lmsm)
    (h : m.status ≠ STATUS_HALTED) :
    lmsm_run_loop TOP (fuel + 1) m =
      (lmsm_step TOP m).bind (lmsm_run_loop TOP fuel) := by
  simp [lmsm_run_loop, h]

theorem lmsm_run_ldi_out_hlt (TOP : Int) (m : lmsm) (n : Nat) (hn : n ≤ 99)
    (hpc : m.program_counter = 0)
    (h0 : m.memory 0 = 400 + (n : Int)) (h1 : m.memory 1 = 902) (h2 : m.memory 2 = 0)
    (hb : m.output_buffer = "") (he : m.error_code = ERROR_NONE)
    (fuel : Nat) (hf : 3 ≤ fuel) :
    ∃ s', lmsm_run TOP fuel m = some s' ∧ s'.status = STATUS_HALTED ∧
      s'.error_code = ERROR_NONE ∧ s'.output_buffer = toString n ++ " " := by
  obtain ⟨k, rfl⟩ : ∃ k, fuel = k + 3 := ⟨fuel - 3, by omega⟩
  have hc : lmsm_cap_value (n : Int) = (n : Int) :=
    lmsm_cap_value_of_range _ (by omega) (by omega)
  unfold lmsm_run
  rw [lmsm_run_loop_step _ _ _ (by simp), lmsm_step_running _ _ (by simp)]
  simp only [hpc, h0, lmsm_exec_instruction]
  rw [lmsm_dispatch_ldi _ _ _ (by omega)]
  simp only [Option.map_some', Option.some_bind, lmsm_i_load_immediate, add_sub_cancel_left, hc]
  rw [lmsm_run_loop_step _ _ _ (by simp), lmsm_step_running _ _ (by simp)]
  simp only [zero_add, h1, lmsm_exec_instruction, lmsm_dispatch_902, Option.map_some',
    Option.some_bind, lmsm_i_out, hc]
  rw [lmsm_run_loop_step _ _ _ (by simp), lmsm_step_running _ _ (by simp)]
  have h12 : (1 : Int) + 1 = 2 := by norm_num
  simp only [h12, h2, lmsm_exec_instruction, lmsm_dispatch_0, Option.map_some',
    Option.some_bind, lmsm_i_halt, hc]
  rw [lmsm_run_loop_halted _ _ _ rfl]
  refine ⟨_, rfl, rfl, he, ?_⟩
  simp only [hb]
  show "" ++ (toString n ++ " ") = toString n ++ " "
  simp

/-! ## The parser keeps what it has -/

theorem asm_parse_src_arg_error_isSome (arg : String) (error : Option String)
    (h : error.isSome = true) : (asm_parse_src_arg arg error).2.2.isSome = true := by
  unfold asm_parse_src_arg
  by_cases hn : asm_is_num arg = true
  · simp only [hn, if_true]
    by_cases h1 : sscanf_d arg > 999
    · simp only [h1, if_true]
      by_cases h2 : (999 : Int) < -999
      · simp [h2]
      · simp [h2]
    · simp only [h1, if_false]
      by_cases h2 : sscanf_d arg < -999
      · simp [h2]
      · simp [h2, h]
  · simp [hn, h]

theorem asm_parse_tokens_grows (toks : List String) (last : Option asm_instruction)
    (result r : asm_compilation_result)
    (hp : asm_parse_tokens toks last result = some r) :
    result.root <+: r.root ∧ (result.error.isSome = true → r.error.isSome = true) := by
  induction toks, last, result using asm_parse_tokens.induct with
  | case1 last result =>
    unfold asm_parse_tokens at hp
    cases hp
    exact ⟨List.prefix_refl _, id⟩
  | case2 cur last result h1 h2 =>
    unfold asm_parse_tokens at hp
    simp only [h1, h2, if_true] at hp
    cases hp
    exact ⟨List.prefix_refl _, fun _ => rfl⟩
  | case3 cur last result h1 h2 arg rest1 a new_inst ih =>
    unfold asm_parse_tokens at hp
    simp only [h1, h2, if_true] at hp
    obtain ⟨p1, p2⟩ := ih hp
    exact ⟨(List.prefix_append _ _).trans p1,
      fun he => p2 (asm_parse_src_arg_error_isSome _ _ he)⟩
  | case4 cur rest last result h1 h2 new_inst ih =>
    unfold asm_parse_tokens at hp
    simp only [h1, h2, if_true, Bool.false_eq_true, if_false] at hp
    obtain ⟨p1, p2⟩ := ih hp
    exact ⟨(List.prefix_append _ _).trans p1, p2⟩
  | case5 cur last result h1 =>
    unfold asm_parse_tokens at hp
    simp only [h1, Bool.false_eq_true, if_false] at hp
    cases hp
  | case6 cur last result h1 type h3 h4 =>
    unfold asm_parse_tokens at hp
    simp only [h1, h3, h4, if_true, Bool.false_eq_true, if_false] at hp
    cases hp
    exact ⟨List.prefix_refl _, fun _ => rfl⟩
  | case7 cur last result h1 type h3 h4 arg rest1 a new_inst ih =>
    unfold asm_parse_tokens at hp
    simp only [h1, h3, h4, if_true, Bool.false_eq_true, if_false] at hp
    obtain ⟨p1, p2⟩ := ih hp
    exact ⟨(List.prefix_append _ _).trans p1,
      fun he => p2 (asm_parse_src_arg_error_isSome _ _ he)⟩
  | case8 cur last result h1 type rest1 h3 h4 new_inst ih =>
    unfold asm_parse_tokens at hp
    simp only [h1, h3, h4, if_true, Bool.false_eq_true, if_false] at hp
    obtain ⟨p1, p2⟩ := ih hp
    exact ⟨(List.prefix_append _ _).trans p1, p2⟩
  | case9 cur last result h1 type rest1 h3 =>
    unfold asm_parse_tokens at hp
    simp only [h1, h3, if_true, Bool.false_eq_true, if_false] at hp
    cases hp
    exact ⟨List.prefix_refl _, fun _ => rfl⟩

/-! ## The claims about the assembler -/

/-- C1: after `asm_parse_src` and `asm_gen_code`, the code array holds at the
offset of every one-slot instruction of the list the word of the encoding table,
for `v` the literal value or the offset that the label reference resolves to;
and for `n` in [0, 99] the sources `ADD n` and `SUB n` give the words `100 + n`
and `200 + n`. -/
theorem asm_gen_code_encoding_table (src : String) (r : asm_compilation_result)
    (hp : asm_parse_src asm_make_compilation_result src = some r)
    (i : asm_instruction) (hi : i ∈ r.root) (hs : i.slots = 1) (v : Int)
    (hv : (i.label_reference = none ∧ v = i.value) ∨
      ∃ l, i.label_reference = some l ∧ (∃ k ∈ r.root, k.label = some l) ∧
        v = asm_find_label r.root l)
    (n : Nat) (hn : n ≤ 99) :
    some ((asm_gen_code r).code i.offset) = encoding_table i.instruction v ∧
    (asm_assemble ("ADD " ++ toString n)).map (fun c => c.code 0) = some (100 + (n : Int)) ∧
    (asm_assemble ("SUB " ++ toString n)).map (fun c => c.code 0) = some (200 + (n : Int)) := by
  refine ⟨?_, ?_, ?_⟩
  · obtain ⟨hl, hvalid, -⟩ := asm_parse_src_linked src r hp
    have hslots := asm_linked_slots 0 r.root hl i hi
    obtain ⟨hC, hS⟩ := asm_slots_one i.instruction (by rw [← hslots]; exact hs)
    rw [asm_gen_code_code_at r hl i hi i.offset ⟨le_refl _, by omega⟩]
    rcases hv with ⟨hnone, rfl⟩ | ⟨l, hsome, hex, rfl⟩
    · rw [asm_gen_code_for_instruction_none r i hnone]
      exact asm_emit_encoding r i _ (hvalid i hi) hC hS
    · rw [asm_gen_code_for_instruction_found r i l hsome
        (asm_find_label_resolved r.root l hl hex)]
      exact asm_emit_encoding r i _ (hvalid i hi) hC hS
  · interval_cases n <;> rfl
  · interval_cases n <;> rfl

theorem asm_gen_code_encoding_table_witness :
    asm_parse_src asm_make_compilation_result asm_sample_source = some asm_sample_parsed ∧
    asm_sample_lda ∈ asm_sample_parsed.root ∧ asm_sample_lda.slots = 1 ∧
    ((asm_sample_lda.label_reference = none ∧ (6 : Int) = asm_sample_lda.value) ∨
      ∃ l, asm_sample_lda.label_reference = some l ∧
        (∃ k ∈ asm_sample_parsed.root, k.label = some l) ∧
        (6 : Int) = asm_find_label asm_sample_parsed.root l) ∧
    7 ≤ 99 ∧
    (some ((asm_gen_code asm_sample_parsed).code asm_sample_lda.offset) =
        encoding_table asm_sample_lda.instruction 6 ∧
      (asm_assemble ("ADD " ++ toString 7)).map (fun c => c.code 0) =
        some (100 + ((7 : Nat) : Int)) ∧
      (asm_assemble ("SUB " ++ toString 7)).map (fun c => c.code 0) =
        some (200 + ((7 : Nat) : Int))) :=
  have hv : (asm_sample_lda.label_reference = none ∧ (6 : Int) = asm_sample_lda.value) ∨
      ∃ l, asm_sample_lda.label_reference = some l ∧
        (∃ k ∈ asm_sample_parsed.root, k.label = some l) ∧
        (6 : Int) = asm_find_label asm_sample_parsed.root l :=
    Or.inr ⟨"x", rfl, ⟨asm_sample_dat, by decide, rfl⟩, by decide⟩
  ⟨rfl, by decide, rfl, hv, by decide,
    asm_gen_code_encoding_table asm_sample_source asm_sample_parsed rfl asm_sample_lda
      (by decide) rfl 6 hv 7 (by decide)⟩

/-- C4: in an instruction list where `j` is the first instruction labelled `L`,
`asm_find_label` gives the offset of `j`, and `asm_gen_code_for_instruction`
encodes an instruction `i` of the list that references `L` with that offset,
wherever `i` stands in the list relative to `j`. -/
theorem asm_gen_code_for_instruction_resolves (result : asm_compilation_result)
    (hl : asm_linked 0 result.root)
    (pre : List asm_instruction) (j : asm_instruction) (post : List asm_instruction)
    (hroot : result.root = pre ++ j :: post) (L : String) (hj : j.label = some L)
    (hpre : ∀ k ∈ pre, k.label ≠ some L)
    (i : asm_instruction) (_hi : i ∈ result.root) (href : i.label_reference = some L) :
    asm_find_label result.root L = j.offset ∧
    asm_gen_code_for_instruction result i =
      asm_gen_code_for_instruction_emit result i j.offset := by
  have hf : asm_find_label result.root L = j.offset := by
    rw [hroot]
    exact asm_find_label_first pre j post L hj hpre
  refine ⟨hf, ?_⟩
  have hne : asm_find_label result.root L ≠ -1 :=
    asm_find_label_resolved result.root L hl ⟨j, by rw [hroot]; simp, hj⟩
  rw [asm_gen_code_for_instruction_found result i L href hne, hf]

theorem asm_gen_code_for_instruction_resolves_witness :
    asm_linked 0 asm_sample_parsed.root ∧
    asm_sample_parsed.root =
      [asm_sample_call, asm_sample_hlt, asm_sample_lda, asm_sample_ret] ++
        asm_sample_dat :: [] ∧
    asm_sample_dat.label = some "x" ∧
    (∀ k ∈ [asm_sample_call, asm_sample_hlt, asm_sample_lda, asm_sample_ret],
      k.label ≠ some "x") ∧
    asm_sample_lda ∈ asm_sample_parsed.root ∧
    asm_sample_lda.label_reference = some "x" ∧
    (asm_find_label asm_sample_parsed.root "x" = asm_sample_dat.offset ∧
      asm_gen_code_for_instruction asm_sample_parsed asm_sample_lda =
        asm_gen_code_for_instruction_emit asm_sample_parsed asm_sample_lda
          asm_sample_dat.offset) :=
  ⟨by decide, rfl, rfl, by decide, by decide, rfl,
    asm_gen_code_for_instruction_resolves asm_sample_parsed (by decide)
      [asm_sample_call, asm_sample_hlt, asm_sample_lda, asm_sample_ret] asm_sample_dat []
      rfl "x" rfl (by decide) asm_sample_lda (by decide) rfl⟩

/-- C5: in an instruction list, for an instruction `i` whose label reference
`L` matches no label of the list: `asm_gen_code_for_instruction` sets the error
to BadLabel and writes no word; after `asm_gen_code` the error is set (it is
BadLabel when every mnemonic of the list is a known one), the cells of the slots
of `i` still hold the 0 of the zero-initialised code array, and the cells of the
slots of every instruction `j` of the list hold what
`asm_gen_code_for_instruction` writes for `j` alone. -/
theorem asm_gen_code_bad_label (result : asm_compilation_result)
    (hl : asm_linked 0 result.root) (hz : ∀ a, result.code a = 0)
    (i : asm_instruction) (hi : i ∈ result.root) (L : String)
    (href : i.label_reference = some L) (hno : ∀ k ∈ result.root, k.label ≠ some L) :
    (asm_gen_code_for_instruction result i).error = some ASM_ERROR_BAD_LABEL ∧
    (asm_gen_code_for_instruction result i).code = result.code ∧
    (asm_gen_code result).error.isSome = true ∧
    ((∀ k ∈ result.root, asm_is_instruction k.instruction = true) →
      (asm_gen_code result).error = some ASM_ERROR_BAD_LABEL) ∧
    (∀ a, i.offset ≤ a ∧ a < i.offset + i.slots → (asm_gen_code result).code a = 0) ∧
    (∀ j ∈ result.root, ∀ a, j.offset ≤ a ∧ a < j.offset + j.slots →
      (asm_gen_code result).code a = (asm_gen_code_for_instruction result j).code a) := by
  have hf := asm_find_label_absent result.root L hno
  have hb := asm_gen_code_for_instruction_bad result i L href hf
  obtain ⟨e1, e2⟩ := asm_foldl_bad_label result.root result i hi L href hf
  refine ⟨by rw [hb], by rw [hb], e1, e2, ?_, ?_⟩
  · intro a ha
    rw [asm_gen_code_code_at result hl i hi a ha, hb]
    exact hz a
  · intro j hj a ha
    exact asm_gen_code_code_at result hl j hj a ha

theorem asm_gen_code_bad_label_witness :
    asm_linked 0 asm_sample_bad.root ∧ (∀ a, asm_sample_bad.code a = 0) ∧
    asm_sample_bra ∈ asm_sample_bad.root ∧
    asm_sample_bra.label_reference = some "nowhere" ∧
    (∀ k ∈ asm_sample_bad.root, k.label ≠ some "nowhere") ∧
    ((asm_gen_code_for_instruction asm_sample_bad asm_sample_bra).error =
        some ASM_ERROR_BAD_LABEL ∧
      (asm_gen_code_for_instruction asm_sample_bad asm_sample_bra).code =
        asm_sample_bad.code ∧
      (asm_gen_code asm_sample_bad).error.isSome = true ∧
      ((∀ k ∈ asm_sample_bad.root, asm_is_instruction k.instruction = true) →
        (asm_gen_code asm_sample_bad).error = some ASM_ERROR_BAD_LABEL) ∧
      (∀ a, asm_sample_bra.offset ≤ a ∧ a < asm_sample_bra.offset + asm_sample_bra.slots →
        (asm_gen_code asm_sample_bad).code a = 0) ∧
      (∀ j ∈ asm_sample_bad.root, ∀ a, j.offset ≤ a ∧ a < j.offset + j.slots →
        (asm_gen_code asm_sample_bad).code a =
          (asm_gen_code_for_instruction asm_sample_bad j).code a)) :=
  ⟨by decide, fun _ => rfl, by decide, rfl, by decide,
    asm_gen_code_bad_label asm_sample_bad (by decide) (fun _ => rfl) asm_sample_bra
      (by decide) "nowhere" rfl (by decide)⟩

/-- C6: the code misses the range of a numeric argument that does not fit a C
`int`.  The argument `4294967296` is numeric and denotes an integer above 999,
yet for the source `LDI 4294967296` `asm_parse_src` stores the value 0, not 999,
and records no error, while its range test stores 999 with the error OutOfRange
for `LDI 5000`: the token has gone through `sscanf` with `%d` into an `int`
before the test sees it. -/
theorem asm_parse_src_literal_beyond_int :
    asm_is_num "4294967296" = true ∧ token_value "4294967296" = 4294967296 ∧
    max (-999 : Int) (min 999 4294967296) = 999 ∧
    (asm_parse_src asm_make_compilation_result "LDI 4294967296").map
      (fun r => (r.root.map (fun i => i.value), r.error)) = some ([0], none) ∧
    (asm_parse_src asm_make_compilation_result "LDI 5000").map
      (fun r => (r.root.map (fun i => i.value), r.error)) =
        some ([999], some ASM_ERROR_OUT_OF_RANGE) := by
  decide

/-- Numeric arguments within the range of a C `int`: for an argument token that
is numeric and denotes an integer `n` that a C `int` holds, the loop of
`asm_parse_src` makes an instruction with
the value `max (-999) (min 999 n)`, sets the error to OutOfRange when `n` is
outside [-999, 999] and leaves the error as it was otherwise, and goes on with
the tokens that follow, with or without a label in front of the mnemonic; the
instruction is in the list that parsing ends with.  `LDI 5000` stores 999 and
`LDI -5000` stores -999, both with the error OutOfRange. -/
theorem asm_parse_src_numeric_argument (tok : String) (hnum : asm_is_num tok = true)
    (hlo : -2147483648 ≤ token_value tok) (hhi : token_value tok ≤ 2147483647)
    (type : String) (hi : asm_is_instruction type = true)
    (ha : asm_instruction_requires_arg type = true)
    (rest : List String) (last : Option asm_instruction) (result : asm_compilation_result) :
    asm_parse_tokens (type :: tok :: rest) last result =
      asm_parse_tokens rest
        (some (asm_make_instruction type none none
          (max (-999) (min 999 (token_value tok))) last))
        { result with
          root := result.root ++
            [asm_make_instruction type none none (max (-999) (min 999 (token_value tok))) last]
          error :=
            if token_value tok < -999 ∨ 999 < token_value tok then
              some ASM_ERROR_OUT_OF_RANGE
            else result.error } ∧
    (∀ label, asm_is_instruction label = false →
      asm_parse_tokens (label :: type :: tok :: rest) last result =
        asm_parse_tokens rest
          (some (asm_make_instruction type (some label) none
            (max (-999) (min 999 (token_value tok))) last))
          { result with
            root := result.root ++
              [asm_make_instruction type (some label) none
                (max (-999) (min 999 (token_value tok))) last]
            error :=
              if token_value tok < -999 ∨ 999 < token_value tok then
                some ASM_ERROR_OUT_OF_RANGE
              else result.error }) ∧
    (∀ r, asm_parse_tokens (type :: tok :: rest) last result = some r →
      asm_make_instruction type none none (max (-999) (min 999 (token_value tok))) last
        ∈ r.root ∧
      (token_value tok < -999 ∨ 999 < token_value tok → r.error.isSome = true)) ∧
    (asm_parse_src asm_make_compilation_result "LDI 5000").map
      (fun r => (r.root.map (fun i => i.value), r.error)) =
        some ([999], some ASM_ERROR_OUT_OF_RANGE) ∧
    (asm_parse_src asm_make_compilation_result "LDI -5000").map
      (fun r => (r.root.map (fun i => i.value), r.error)) =
        some ([-999], some ASM_ERROR_OUT_OF_RANGE) := by
  have harg := asm_parse_src_arg_numeric tok result.error hnum hlo hhi
  have h1 : asm_parse_tokens (type :: tok :: rest) last result =
      asm_parse_tokens rest
        (some (asm_make_instruction type none none
          (max (-999) (min 999 (token_value tok))) last))
        { result with
          root := result.root ++
            [asm_make_instruction type none none (max (-999) (min 999 (token_value tok))) last]
          error :=
            if token_value tok < -999 ∨ 999 < token_value tok then
              some ASM_ERROR_OUT_OF_RANGE
            else result.error } := by
    rw [asm_parse_tokens_arg type tok rest last result hi ha, harg]
  refine ⟨h1, ?_, ?_, by decide, by decide⟩
  · intro label hl
    rw [asm_parse_tokens_label_arg label type tok rest last result hl hi ha, harg]
  · intro r hr
    rw [h1] at hr
    obtain ⟨p1, p2⟩ := asm_parse_tokens_grows _ _ _ _ hr
    refine ⟨p1.subset (by simp), ?_⟩
    intro hout
    apply p2
    simp [hout]

theorem asm_parse_src_numeric_argument_witness :
    asm_is_num "5000" = true ∧ -2147483648 ≤ token_value "5000" ∧
    token_value "5000" ≤ 2147483647 ∧ asm_is_instruction "LDI" = true ∧
    asm_instruction_requires_arg "LDI" = true ∧
    (asm_parse_tokens ("LDI" :: "5000" :: ["OUT"]) none asm_make_compilation_result =
      asm_parse_tokens ["OUT"]
        (some (asm_make_instruction "LDI" none none
          (max (-999) (min 999 (token_value "5000"))) none))
        { asm_make_compilation_result with
          root := asm_make_compilation_result.root ++
            [asm_make_instruction "LDI" none none
              (max (-999) (min 999 (token_value "5000"))) none]
          error :=
            if token_value "5000" < -999 ∨ 999 < token_value "5000" then
              some ASM_ERROR_OUT_OF_RANGE
            else asm_make_compilation_result.error } ∧
    (∀ label, asm_is_instruction label = false →
      asm_parse_tokens (label :: "LDI" :: "5000" :: ["OUT"]) none
          asm_make_compilation_result =
        asm_parse_tokens ["OUT"]
          (some (asm_make_instruction "LDI" (some label) none
            (max (-999) (min 999 (token_value "5000"))) none))
          { asm_make_compilation_result with
            root := asm_make_compilation_result.root ++
              [asm_make_instruction "LDI" (some label) none
                (max (-999) (min 999 (token_value "5000"))) none]
            error :=
              if token_value "5000" < -999 ∨ 999 < token_value "5000" then
                some ASM_ERROR_OUT_OF_RANGE
              else asm_make_compilation_result.error }) ∧
    (∀ r, asm_parse_tokens ("LDI" :: "5000" :: ["OUT"]) none asm_make_compilation_result =
        some r →
      asm_make_instruction "LDI" none none (max (-999) (min 999 (token_value "5000"))) none
        ∈ r.root ∧
      (token_value "5000" < -999 ∨ 999 < token_value "5000" → r.error.isSome = true)) ∧
    (asm_parse_src asm_make_compilation_result "LDI 5000").map
      (fun r => (r.root.map (fun i => i.value), r.error)) =
        some ([999], some ASM_ERROR_OUT_OF_RANGE) ∧
    (asm_parse_src asm_make_compilation_result "LDI -5000").map
      (fun r => (r.root.map (fun i => i.value), r.error)) =
        some ([-999], some ASM_ERROR_OUT_OF_RANGE)) :=
  ⟨by decide, by decide, by decide, by decide, by decide,
    asm_parse_src_numeric_argument "5000" (by decide) (by decide) (by decide) "LDI"
      (by decide) (by decide) ["OUT"] none asm_make_compilation_result⟩

/-- C7: in an assembled program, for a CALL instruction `i` whose argument is
the value or resolved label offset `x`, `asm_gen_code` leaves the words
`400 + x`, 920, 910 at the offsets of `i`, plus one and plus two, and the
instruction that follows `i` in the list sits at the offset of `i` plus three. -/
theorem asm_gen_code_call (src : String) (r : asm_compilation_result)
    (hp : asm_parse_src asm_make_compilation_result src = some r)
    (pre : List asm_instruction) (i : asm_instruction) (post : List asm_instruction)
    (hroot : r.root = pre ++ i :: post) (hcall : i.instruction = "CALL") (x : Int)
    (hx : (i.label_reference = none ∧ x = i.value) ∨
      ∃ l, i.label_reference = some l ∧ (∃ k ∈ r.root, k.label = some l) ∧
        x = asm_find_label r.root l) :
    (asm_gen_code r).code i.offset = 400 + x ∧
    (asm_gen_code r).code (i.offset + 1) = 920 ∧
    (asm_gen_code r).code (i.offset + 2) = 910 ∧
    ∀ j, post.head? = some j → j.offset = i.offset + 3 := by
  obtain ⟨hl, -, -⟩ := asm_parse_src_linked src r hp
  have hi : i ∈ r.root := by rw [hroot]; simp
  have hslots : i.slots = 3 := by
    rw [asm_linked_slots 0 r.root hl i hi, hcall]
    rfl
  have hgen : asm_gen_code_for_instruction r i = asm_gen_code_for_instruction_emit r i x := by
    rcases hx with ⟨hnone, rfl⟩ | ⟨l, hsome, hex, rfl⟩
    · exact asm_gen_code_for_instruction_none r i hnone
    · exact asm_gen_code_for_instruction_found r i l hsome
        (asm_find_label_resolved r.root l hl hex)
  refine ⟨?_, ?_, ?_, ?_⟩
  · rw [asm_gen_code_code_at r hl i hi i.offset ⟨le_refl _, by omega⟩, hgen,
      asm_emit_call r i x hcall]
    simp [array_set]
  · rw [asm_gen_code_code_at r hl i hi (i.offset + 1) ⟨by omega, by omega⟩, hgen,
      asm_emit_call r i x hcall]
    simp [array_set]
  · rw [asm_gen_code_code_at r hl i hi (i.offset + 2) ⟨by omega, by omega⟩, hgen,
      asm_emit_call r i x hcall]
    simp [array_set]
  · intro j hj
    rw [hroot] at hl
    obtain ⟨-, -, hpost, -⟩ := asm_linked_split 0 pre i post hl
    cases post with
    | nil => simp at hj
    | cons p rest =>
      simp only [List.head?_cons, Option.some.injEq] at hj
      subst hj
      obtain ⟨h1, -, -⟩ := hpost
      omega

theorem asm_gen_code_call_witness :
    asm_parse_src asm_make_compilation_result asm_sample_source = some asm_sample_parsed ∧
    asm_sample_parsed.root =
      [] ++ asm_sample_call :: [asm_sample_hlt, asm_sample_lda, asm_sample_ret,
        asm_sample_dat] ∧
    asm_sample_call.instruction = "CALL" ∧
    ((asm_sample_call.label_reference = none ∧ (4 : Int) = asm_sample_call.value) ∨
      ∃ l, asm_sample_call.label_reference = some l ∧
        (∃ k ∈ asm_sample_parsed.root, k.label = some l) ∧
        (4 : Int) = asm_find_label asm_sample_parsed.root l) ∧
    ((asm_gen_code asm_sample_parsed).code asm_sample_call.offset = 400 + 4 ∧
      (asm_gen_code asm_sample_parsed).code (asm_sample_call.offset + 1) = 920 ∧
      (asm_gen_code asm_sample_parsed).code (asm_sample_call.offset + 2) = 910 ∧
      ∀ j, [asm_sample_hlt, asm_sample_lda, asm_sample_ret, asm_sample_dat].head? = some j →
        j.offset = asm_sample_call.offset + 3) :=
  have hx : (asm_sample_call.label_reference = none ∧ (4 : Int) = asm_sample_call.value) ∨
      ∃ l, asm_sample_call.label_reference = some l ∧
        (∃ k ∈ asm_sample_parsed.root, k.label = some l) ∧
        (4 : Int) = asm_find_label asm_sample_parsed.root l :=
    Or.inr ⟨"f", rfl, ⟨asm_sample_lda, by decide, rfl⟩, by decide⟩
  ⟨rfl, rfl, rfl, hx,
    asm_gen_code_call asm_sample_source asm_sample_parsed rfl [] asm_sample_call
      [asm_sample_hlt, asm_sample_lda, asm_sample_ret, asm_sample_dat] rfl rfl 4 hx⟩

/-! ## The claim about assembling and running a program -/

/-- C3: for `n` in [0, 99], the source `LDI n OUT HLT`, with a space or a
newline at each of the three separations, assembles without error; the code
array loaded (with any length that covers the three words) into a machine made
by `lmsm_create`, `lmsm_run` ends (with any fuel of three steps or more) in
status Halted with error code None and the output buffer the decimal text of `n`
followed by a space. -/
theorem lmsm_run_assembled_ldi_out_hlt (TOP_OF_MEMORY : Int) (garbage : lmsm)
    (n : Nat) (hn : n ≤ 99) (sep1 sep2 sep3 : String)
    (h1 : sep1 = " " ∨ sep1 = "\n") (h2 : sep2 = " " ∨ sep2 = "\n")
    (h3 : sep3 = " " ∨ sep3 = "\n")
    (length : Int) (hlen : 3 ≤ length) (fuel : Nat) (hf : 3 ≤ fuel) :
    ∃ r s',
      asm_assemble ("LDI" ++ sep1 ++ toString n ++ sep2 ++ "OUT" ++ sep3 ++ "HLT") = some r ∧
      r.error = none ∧
      lmsm_run TOP_OF_MEMORY fuel (lmsm_load (lmsm_create TOP_OF_MEMORY garbage) r.code length) =
        some s' ∧
      s'.status = STATUS_HALTED ∧ s'.error_code = ERROR_NONE ∧
      s'.output_buffer = toString n ++ " " := by
  obtain ⟨r, hr, he, c0, c1, c2⟩ := asm_assemble_ldi_out_hlt n hn sep1 sep2 sep3 h1 h2 h3
  have hm0 : (lmsm_load (lmsm_create TOP_OF_MEMORY garbage) r.code length).memory 0 =
      400 + (n : Int) := by
    simp only [lmsm_load]
    rw [if_pos ⟨le_refl _, by omega⟩, c0]
  have hm1 : (lmsm_load (lmsm_create TOP_OF_MEMORY garbage) r.code length).memory 1 = 902 := by
    simp only [lmsm_load]
    rw [if_pos ⟨by omega, by omega⟩, c1]
  have hm2 : (lmsm_load (lmsm_create TOP_OF_MEMORY garbage) r.code length).memory 2 = 0 := by
    simp only [lmsm_load]
    rw [if_pos ⟨by omega, by omega⟩, c2]
  obtain ⟨s', hs', hst, her, hout⟩ :=
    lmsm_run_ldi_out_hlt TOP_OF_MEMORY
      (lmsm_load (lmsm_create TOP_OF_MEMORY garbage) r.code length) n hn rfl hm0 hm1 hm2 rfl rfl
      fuel hf
  exact ⟨r, s', hr, he, hs', hst, her, hout⟩

theorem lmsm_run_assembled_ldi_out_hlt_witness :
    5 ≤ 99 ∧ ((" " : String) = " " ∨ (" " : String) = "\n") ∧
    (("\n" : String) = " " ∨ ("\n" : String) = "\n") ∧ (3 : Int) ≤ 100 ∧ 3 ≤ 10 ∧
    ∃ r s',
      asm_assemble ("LDI" ++ " " ++ toString 5 ++ "\n" ++ "OUT" ++ "\n" ++ "HLT") = some r ∧
      r.error = none ∧
      lmsm_run 199 10 (lmsm_load (lmsm_create 199 (lmsm_sample 77 3 8)) r.code 100) =
        some s' ∧
      s'.status = STATUS_HALTED ∧ s'.error_code = ERROR_NONE ∧
      s'.output_buffer = toString 5 ++ " " :=
  ⟨by decide, Or.inl rfl, Or.inr rfl, by decide, by decide,
    lmsm_run_assembled_ldi_out_hlt 199 (lmsm_sample 77 3 8) 5 (by decide) " " "\n" "\n"
      (Or.inl rfl) (Or.inr rfl) (Or.inr rfl) 100 (by decide) 10 (by decide)⟩

/-! ## The interpreter: the operand stack -/

theorem lmsm_cap_value_eq_max_min (v : Int) :
    lmsm_cap_value v = max (-999) (min 999 v) := by
  unfold lmsm_cap_value
  split_ifs <;> omega

theorem lmsm_dispatch_924 (TOP : Int) (m : lmsm) :
    lmsm_dispatch TOP m 924 = some (lmsm_i_swap TOP m) := by
  simp only [lmsm_dispatch]
  norm_num

theorem lmsm_dispatch_930 (TOP : Int) (m : lmsm) :
    lmsm_dispatch TOP m 930 = some (lmsm_i_sadd TOP m) := by
  simp only [lmsm_dispatch]
  norm_num

theorem lmsm_dispatch_931 (TOP : Int) (m : lmsm) :
    lmsm_dispatch TOP m 931 = some (lmsm_i_ssub TOP m) := by
  simp only [lmsm_dispatch]
  norm_num

theorem lmsm_dispatch_932 (TOP : Int) (m : lmsm) :
    lmsm_dispatch TOP m 932 = some (lmsm_i_smul TOP m) := by
  simp only [lmsm_dispatch]
  norm_num

theorem lmsm_dispatch_933 (TOP : Int) (m : lmsm) :
    lmsm_dispatch TOP m 933 = lmsm_i_sdiv TOP m := by
  simp only [lmsm_dispatch]
  norm_num

theorem lmsm_dispatch_934 (TOP : Int) (m : lmsm) :
    lmsm_dispatch TOP m 934 = some (lmsm_i_smax TOP m) := by
  simp only [lmsm_dispatch]
  norm_num

theorem lmsm_dispatch_935 (TOP : Int) (m : lmsm) :
    lmsm_dispatch TOP m 935 = some (lmsm_i_smin TOP m) := by
  simp only [lmsm_dispatch]
  norm_num

/-- With fewer than two values on the stack, every two-operand stack instruction
takes its error branch. -/
theorem lmsm_dispatch_binary_underflow (TOP : Int) (m : lmsm) (w : Int)
    (hsp : m.stack_pointer = TOP + 1 ∨ m.stack_pointer = TOP)
    (hw : w = 924 ∨ w = 930 ∨ w = 931 ∨ w = 932 ∨ w = 933 ∨ w = 934 ∨ w = 935) :
    lmsm_dispatch TOP m w =
      some { m with status := STATUS_HALTED, error_code := ERROR_BAD_STACK } := by
  have h2 : lmsm_has_two_values_on_stack TOP m ≠ 0 := by
    unfold lmsm_has_two_values_on_stack
    rw [if_neg (by omega)]
    decide
  rcases hw with rfl | rfl | rfl | rfl | rfl | rfl | rfl
  · rw [lmsm_dispatch_924, lmsm_i_swap, if_neg h2]
  · rw [lmsm_dispatch_930, lmsm_i_sadd, if_neg h2]
  · rw [lmsm_dispatch_931, lmsm_i_ssub, if_neg h2]
  · rw [lmsm_dispatch_932, lmsm_i_smul, if_neg h2]
  · rw [lmsm_dispatch_933, lmsm_i_sdiv, if_neg h2]
  · rw [lmsm_dispatch_934, lmsm_i_smax, if_neg h2]
  · rw [lmsm_dispatch_935, lmsm_i_smin, if_neg h2]

/-- C11: when the machine is not halted and the stack pointer is
`TOP_OF_MEMORY + 1` or `TOP_OF_MEMORY` (fewer than two values on the operand
stack), a step on SSWAP, SADD, SSUB, SMUL, SDIV, SMAX or SMIN (924, 930..935)
sets the error code to BadStack and the status to Halted and leaves the stack
pointer and every memory cell unchanged. -/
theorem lmsm_step_binary_underflow (TOP_OF_MEMORY : Int) (m : lmsm)
    (h : m.status ≠ STATUS_HALTED)
    (hsp : m.stack_pointer = TOP_OF_MEMORY + 1 ∨ m.stack_pointer = TOP_OF_MEMORY)
    (hw : m.memory m.program_counter = 924 ∨ m.memory m.program_counter = 930 ∨
      m.memory m.program_counter = 931 ∨ m.memory m.program_counter = 932 ∨
      m.memory m.program_counter = 933 ∨ m.memory m.program_counter = 934 ∨
      m.memory m.program_counter = 935) :
    ∃ s', lmsm_step TOP_OF_MEMORY m = some s' ∧
      s'.error_code = ERROR_BAD_STACK ∧ s'.status = STATUS_HALTED ∧
      s'.stack_pointer = m.stack_pointer ∧ s'.memory = m.memory := by
  have hd := lmsm_dispatch_binary_underflow TOP_OF_MEMORY
    { m with
      program_counter := m.program_counter + 1
      current_instruction := m.memory m.program_counter }
    (m.memory m.program_counter) hsp hw
  rw [lmsm_step_running TOP_OF_MEMORY m h, lmsm_exec_instruction, hd]
  exact ⟨_, rfl, rfl, rfl, rfl, rfl⟩

theorem lmsm_step_binary_underflow_witness :
    (lmsm_sample 7 199 932).status ≠ STATUS_HALTED ∧
    ((lmsm_sample 7 199 932).stack_pointer = 199 + 1 ∨
      (lmsm_sample 7 199 932).stack_pointer = 199) ∧
    ((lmsm_sample 7 199 932).memory (lmsm_sample 7 199 932).program_counter = 924 ∨
      (lmsm_sample 7 199 932).memory (lmsm_sample 7 199 932).program_counter = 930 ∨
      (lmsm_sample 7 199 932).memory (lmsm_sample 7 199 932).program_counter = 931 ∨
      (lmsm_sample 7 199 932).memory (lmsm_sample 7 199 932).program_counter = 932 ∨
      (lmsm_sample 7 199 932).memory (lmsm_sample 7 199 932).program_counter = 933 ∨
      (lmsm_sample 7 199 932).memory (lmsm_sample 7 199 932).program_counter = 934 ∨
      (lmsm_sample 7 199 932).memory (lmsm_sample 7 199 932).program_counter = 935) ∧
    ∃ s', lmsm_step 199 (lmsm_sample 7 199 932) = some s' ∧
      s'.error_code = ERROR_BAD_STACK ∧ s'.status = STATUS_HALTED ∧
      s'.stack_pointer = (lmsm_sample 7 199 932).stack_pointer ∧
      s'.memory = (lmsm_sample 7 199 932).memory :=
  ⟨by decide, by decide, by decide,
    lmsm_step_binary_underflow 199 (lmsm_sample 7 199 932) (by decide) (by decide)
      (by decide)⟩

theorem lmsm_has_two_values_on_stack_eq_zero (TOP : Int) (m : lmsm)
    (h : m.stack_pointer < TOP) : lmsm_has_two_values_on_stack TOP m = 0 := by
  unfold lmsm_has_two_values_on_stack
  rw [if_pos h]

theorem lmsm_i_sadd_two (TOP : Int) (m : lmsm) (h : m.stack_pointer < TOP) :
    lmsm_i_sadd TOP m =
      { m with
        stack_pointer := m.stack_pointer + 1
        memory := array_set m.memory (m.stack_pointer + 1)
          (lmsm_cap_value (int32_wrap
            (m.memory m.stack_pointer + m.memory (m.stack_pointer + 1)))) } := by
  rw [lmsm_i_sadd, if_pos (lmsm_has_two_values_on_stack_eq_zero TOP m h)]

/-- C12 (as stated, at a concrete machine): with the two values 1073741824 and
1073741824 on the stack (stack pointer 198 = 199 - 1) and SADD (930) at the
program counter, the step leaves -999 at the new top, not
`max (-999) (min 999 (1073741824 + 1073741824))`, which is 999. -/
theorem lmsm_sadd_overflow_wraps :
    (lmsm_sample_stack 1073741824 1073741824 930).status ≠ STATUS_HALTED ∧
    (lmsm_sample_stack 1073741824 1073741824 930).stack_pointer ≤ 199 - 1 ∧
    (lmsm_sample_stack 1073741824 1073741824 930).memory
      (lmsm_sample_stack 1073741824 1073741824 930).program_counter = 930 ∧
    (lmsm_sample_stack 1073741824 1073741824 930).memory 198 = 1073741824 ∧
    (lmsm_sample_stack 1073741824 1073741824 930).memory (198 + 1) = 1073741824 ∧
    (lmsm_step 199 (lmsm_sample_stack 1073741824 1073741824 930)).map
      (fun s => s.memory (198 + 1)) = some (-999) ∧
    max (-999 : Int) (min 999 (1073741824 + 1073741824)) = 999 := by
  decide

/-- C12 (amended): when the machine is not halted, the stack pointer `sp` is at
most `TOP_OF_MEMORY - 1`, and the sum of `a = memory[sp]` and `b = memory[sp+1]`
fits a C `int`, a step on SADD (930) raises no error (error code and status are
as before), moves the stack pointer to `sp + 1`, leaves
`max (-999) (min 999 (a + b))` in `memory[sp+1]` and every other cell as it was;
with `sp = TOP_OF_MEMORY - 1` the stack pointer ends at `TOP_OF_MEMORY`, one
value on the stack. -/
theorem lmsm_step_sadd (TOP_OF_MEMORY : Int) (m : lmsm)
    (h : m.status ≠ STATUS_HALTED) (hsp : m.stack_pointer ≤ TOP_OF_MEMORY - 1)
    (hw : m.memory m.program_counter = 930)
    (hlo : -2147483648 ≤ m.memory m.stack_pointer + m.memory (m.stack_pointer + 1))
    (hhi : m.memory m.stack_pointer + m.memory (m.stack_pointer + 1) ≤ 2147483647) :
    ∃ s', lmsm_step TOP_OF_MEMORY m = some s' ∧
      s'.error_code = m.error_code ∧ s'.status = m.status ∧
      s'.stack_pointer = m.stack_pointer + 1 ∧
      s'.memory (m.stack_pointer + 1) =
        max (-999) (min 999 (m.memory m.stack_pointer + m.memory (m.stack_pointer + 1))) ∧
      (∀ j, j ≠ m.stack_pointer + 1 → s'.memory j = m.memory j) ∧
      (m.stack_pointer = TOP_OF_MEMORY - 1 → s'.stack_pointer = TOP_OF_MEMORY) := by
  have hs := lmsm_i_sadd_two TOP_OF_MEMORY
    { m with program_counter := m.program_counter + 1, current_instruction := 930 }
    (show m.stack_pointer < TOP_OF_MEMORY by omega)
  rw [lmsm_step_running TOP_OF_MEMORY m h, lmsm_exec_instruction, hw, lmsm_dispatch_930, hs]
  refine ⟨_, rfl, rfl, rfl, rfl, ?_, ?_, ?_⟩
  · show array_set m.memory (m.stack_pointer + 1) _ (m.stack_pointer + 1) = _
    rw [array_set_eq, int32_wrap_of_range _ hlo hhi, lmsm_cap_value_eq_max_min]
  · intro j hj
    exact array_set_ne _ _ _ _ hj
  · intro he
    show m.stack_pointer + 1 = TOP_OF_MEMORY
    omega

theorem lmsm_step_sadd_witness :
    (lmsm_sample_stack 700 800 930).status ≠ STATUS_HALTED ∧
    (lmsm_sample_stack 700 800 930).stack_pointer ≤ 199 - 1 ∧
    (lmsm_sample_stack 700 800 930).memory
      (lmsm_sample_stack 700 800 930).program_counter = 930 ∧
    -2147483648 ≤ (lmsm_sample_stack 700 800 930).memory
        (lmsm_sample_stack 700 800 930).stack_pointer +
      (lmsm_sample_stack 700 800 930).memory
        ((lmsm_sample_stack 700 800 930).stack_pointer + 1) ∧
    (lmsm_sample_stack 700 800 930).memory (lmsm_sample_stack 700 800 930).stack_pointer +
      (lmsm_sample_stack 700 800 930).memory
        ((lmsm_sample_stack 700 800 930).stack_pointer + 1) ≤ 2147483647 ∧
    ∃ s', lmsm_step 199 (lmsm_sample_stack 700 800 930) = some s' ∧
      s'.error_code = (lmsm_sample_stack 700 800 930).error_code ∧
      s'.status = (lmsm_sample_stack 700 800 930).status ∧
      s'.stack_pointer = (lmsm_sample_stack 700 800 930).stack_pointer + 1 ∧
      s'.memory ((lmsm_sample_stack 700 800 930).stack_pointer + 1) =
        max (-999) (min 999
          ((lmsm_sample_stack 700 800 930).memory
              (lmsm_sample_stack 700 800 930).stack_pointer +
            (lmsm_sample_stack 700 800 930).memory
              ((lmsm_sample_stack 700 800 930).stack_pointer + 1))) ∧
      (∀ j, j ≠ (lmsm_sample_stack 700 800 930).stack_pointer + 1 →
        s'.memory j = (lmsm_sample_stack 700 800 930).memory j) ∧
      ((lmsm_sample_stack 700 800 930).stack_pointer = 199 - 1 → s'.stack_pointer = 199) :=
  ⟨by decide, by decide, by decide, by decide, by decide,
    lmsm_step_sadd 199 (lmsm_sample_stack 700 800 930) (by decide) (by decide) (by decide)
      (by decide) (by decide)⟩

/-! ## The interpreter: reset, and the Halted status -/

/-- C13 (as the code behaves): `lmsm_reset` gives accumulator 0, program counter
0, current instruction 0, stack pointer `TOP_OF_MEMORY + 1`, return-address
pointer `TOP_OF_MEMORY - 100`, status Ready, error code None, an empty output
buffer and 0 in the cells `0 .. TOP_OF_MEMORY - 1`; the cell
`memory[TOP_OF_MEMORY]` is not zeroed, it keeps its old value but for the low
byte: a machine with 256 in that cell still has 256 there after the reset. -/
theorem lmsm_reset_leaves_top_cell (TOP_OF_MEMORY : Int) (m : lmsm) :
    (lmsm_reset TOP_OF_MEMORY m).accumulator = 0 ∧
    (lmsm_reset TOP_OF_MEMORY m).program_counter = 0 ∧
    (lmsm_reset TOP_OF_MEMORY m).current_instruction = 0 ∧
    (lmsm_reset TOP_OF_MEMORY m).stack_pointer = TOP_OF_MEMORY + 1 ∧
    (lmsm_reset TOP_OF_MEMORY m).return_address_pointer = TOP_OF_MEMORY - 100 ∧
    (lmsm_reset TOP_OF_MEMORY m).status = STATUS_READY ∧
    (lmsm_reset TOP_OF_MEMORY m).error_code = ERROR_NONE ∧
    (lmsm_reset TOP_OF_MEMORY m).output_buffer = "" ∧
    (∀ i, 0 ≤ i ∧ i < TOP_OF_MEMORY → (lmsm_reset TOP_OF_MEMORY m).memory i = 0) ∧
    (lmsm_reset TOP_OF_MEMORY m).memory TOP_OF_MEMORY =
      m.memory TOP_OF_MEMORY - m.memory TOP_OF_MEMORY % 256 ∧
    (lmsm_sample 0 200 256).memory 199 = 256 ∧
    (lmsm_reset 199 (lmsm_sample 0 200 256)).memory 199 = 256 := by
  refine ⟨rfl, rfl, rfl, rfl, rfl, rfl, rfl, rfl, ?_, ?_, by decide, by decide⟩
  · intro i hi
    show (if 0 ≤ i ∧ i < TOP_OF_MEMORY then (0 : Int) else _) = 0
    rw [if_pos hi]
  · show (if 0 ≤ TOP_OF_MEMORY ∧ TOP_OF_MEMORY < TOP_OF_MEMORY then (0 : Int)
      else if TOP_OF_MEMORY = TOP_OF_MEMORY then _ else _) = _
    rw [if_neg (by omega), if_pos rfl]

/-- C14: on a machine whose status is Halted, `lmsm_step` returns the machine as
it was: accumulator, program counter, current instruction, stack pointer,
return-address pointer, status, error code, output buffer and memory are the
same. -/
theorem lmsm_step_halted_unchanged (TOP_OF_MEMORY : Int) (m : lmsm)
    (h : m.status = STATUS_HALTED) :
    lmsm_step TOP_OF_MEMORY m = some m := by
  unfold lmsm_step
  rw [if_neg (by simp [h])]

theorem lmsm_step_halted_unchanged_witness :
    (lmsm_sample_halted 5 200 405).status = STATUS_HALTED ∧
    lmsm_step 199 (lmsm_sample_halted 5 200 405) = some (lmsm_sample_halted 5 200 405) :=
  ⟨rfl, lmsm_step_halted_unchanged 199 (lmsm_sample_halted 5 200 405) rfl⟩

theorem lmsm_run_loop_status (TOP : Int) (fuel : Nat) (m s' : lmsm)
    (h : lmsm_run_loop TOP fuel m = some s') : s'.status = STATUS_HALTED := by
  induction fuel generalizing m with
  | zero =>
    unfold lmsm_run_loop at h
    by_cases hs : m.status = STATUS_HALTED
    · rw [if_neg (by simp [hs])] at h
      cases h
      exact hs
    · rw [if_pos hs] at h
      cases h
  | succ k ih =>
    by_cases hs : m.status = STATUS_HALTED
    · rw [lmsm_run_loop_halted TOP _ m hs] at h
      cases h
      exact hs
    · rw [lmsm_run_loop_step TOP k m hs] at h
      rcases Option.bind_eq_some.mp h with ⟨m1, -, h2⟩
      exact ih m1 h2

/-- C15: `lmsm_run` does not leave a Halted machine as it is.  The run of the
program HLT, LDI 5, OUT, HLT ends Halted at program counter 1 with accumulator 0
and nothing printed.  `lmsm_step` on that machine changes nothing, but a second
`lmsm_run` executes the cells after the HLT: it ends at program counter 4 with
accumulator 5 and `5 ` in the output buffer.  Likewise a machine whose status is
Halted, with program counter 0 and HLT in memory, ends at program counter 1. -/
theorem lmsm_run_halted_steps :
    (lmsm_run 199 1 lmsm_sample_hlt_program).map
      (fun s => (s.status, s.program_counter, s.accumulator, s.output_buffer)) =
      some (STATUS_HALTED, 1, 0, "") ∧
    ((lmsm_run 199 1 lmsm_sample_hlt_program).bind (lmsm_step 199)).map
      (fun s => (s.status, s.program_counter, s.accumulator, s.output_buffer)) =
      some (STATUS_HALTED, 1, 0, "") ∧
    ((lmsm_run 199 1 lmsm_sample_hlt_program).bind (lmsm_run 199 3)).map
      (fun s => (s.status, s.program_counter, s.accumulator, s.output_buffer)) =
      some (STATUS_HALTED, 4, 5, "5 ") ∧
    (lmsm_sample_halted 7 200 0).status = STATUS_HALTED ∧
    (lmsm_sample_halted 7 200 0).program_counter = 0 ∧
    (lmsm_run 199 5 (lmsm_sample_halted 7 200 0)).map (fun s => s.program_counter) =
      some 1 := by
  decide

/-- The code of `lmsm_run` has no test of the status: it assigns Running, so on
a machine whose status is Halted it fetches and executes the instruction at the
program counter and goes on stepping, as on the same machine with any other
status; a state it returns has status Halted. -/
theorem lmsm_run_restarts_halted (TOP_OF_MEMORY : Int) (m : lmsm) (fuel : Nat)
    (_h : m.status = STATUS_HALTED) :
    lmsm_run TOP_OF_MEMORY (fuel + 1) m =
      (lmsm_exec_instruction TOP_OF_MEMORY
        { m with
          status := STATUS_RUNNING
          program_counter := m.program_counter + 1
          current_instruction := m.memory m.program_counter }
        (m.memory m.program_counter)).bind (lmsm_run_loop TOP_OF_MEMORY fuel) ∧
    (∀ st, lmsm_run TOP_OF_MEMORY fuel m = lmsm_run TOP_OF_MEMORY fuel { m with status := st }) ∧
    (∀ s', lmsm_run TOP_OF_MEMORY fuel m = some s' → s'.status = STATUS_HALTED) := by
  refine ⟨?_, fun _ => rfl, fun s' hs => lmsm_run_loop_status _ _ _ _ hs⟩
  unfold lmsm_run
  rw [lmsm_run_loop_step _ _ _ (by simp), lmsm_step_running _ _ (by simp)]

theorem lmsm_run_restarts_halted_witness :
    (lmsm_sample_halted 7 200 0).status = STATUS_HALTED ∧
    (lmsm_run 199 (4 + 1) (lmsm_sample_halted 7 200 0) =
      (lmsm_exec_instruction 199
        { lmsm_sample_halted 7 200 0 with
          status := STATUS_RUNNING
          program_counter := (lmsm_sample_halted 7 200 0).program_counter + 1
          current_instruction :=
            (lmsm_sample_halted 7 200 0).memory (lmsm_sample_halted 7 200 0).program_counter }
        ((lmsm_sample_halted 7 200 0).memory
          (lmsm_sample_halted 7 200 0).program_counter)).bind (lmsm_run_loop 199 4) ∧
    (∀ st, lmsm_run 199 4 (lmsm_sample_halted 7 200 0) =
      lmsm_run 199 4 { lmsm_sample_halted 7 200 0 with status := st }) ∧
    (∀ s', lmsm_run 199 4 (lmsm_sample_halted 7 200 0) = some s' →
      s'.status = STATUS_HALTED)) :=
  ⟨rfl, lmsm_run_restarts_halted 199 (lmsm_sample_halted 7 200 0) 4 rfl⟩

/-! ## The parser: complete lines, then the rest -/

theorem asm_parse_src_fresh (src : String) :
    asm_parse_src asm_make_compilation_result src =
      asm_parse_tokens (strtok_tokens src.data []) none asm_make_compilation_result := by
  unfold asm_parse_src
  have h : (fun r : asm_compilation_result =>
      if asm_make_compilation_result.root.isEmpty = true then r
      else { r with root := asm_make_compilation_result.root }) = id := by
    funext r
    rfl
  rw [h, Option.map_id]
  rfl

theorem asm_parse_src_arg_error_cases (arg : String) (error : Option String) :
    (asm_parse_src_arg arg error).2.2 = error ∨
      (asm_parse_src_arg arg error).2.2 = some ASM_ERROR_OUT_OF_RANGE := by
  unfold asm_parse_src_arg
  by_cases hn : asm_is_num arg = true
  · simp only [hn, if_true]
    by_cases h1 : sscanf_d arg > 999
    · simp only [h1, if_true]
      by_cases h2 : (999 : Int) < -999
      · simp [h2]
      · simp [h2]
    · simp only [h1, if_false]
      by_cases h2 : sscanf_d arg < -999
      · simp [h2]
      · simp [h2]
  · simp [hn]

/-- On a list of complete lines the loop of `asm_parse_src` runs to the last
token: it has a result `r1`, whose error is the old one or OutOfRange, and the
loop over the lines followed by further tokens is the loop over those tokens
from `r1` on. -/
theorem asm_parse_tokens_lines (pre : List String) (last : Option asm_instruction)
    (result : asm_compilation_result) (hl : asm_lines pre = true)
    (hlast : last = result.root.getLast?) :
    ∃ r1, asm_parse_tokens pre last result = some r1 ∧
      (∀ suf, asm_parse_tokens (pre ++ suf) last result =
        asm_parse_tokens suf r1.root.getLast? r1) ∧
      (r1.error = result.error ∨ r1.error = some ASM_ERROR_OUT_OF_RANGE) := by
  induction pre, last, result using asm_parse_tokens.induct with
  | case1 last result =>
    refine ⟨result, by unfold asm_parse_tokens; rfl, ?_, Or.inl rfl⟩
    intro suf
    rw [List.nil_append, hlast]
  | case2 cur last result h1 h2 =>
    unfold asm_lines at hl
    simp [h1, h2] at hl
  | case3 cur last result h1 h2 arg rest1 a new_inst ih =>
    unfold asm_lines at hl
    simp only [h1, h2, if_true] at hl
    obtain ⟨r1, e1, e2, e3⟩ := ih hl (by simp)
    refine ⟨r1, ?_, ?_, ?_⟩
    · rw [asm_parse_tokens_arg cur arg rest1 last result h1 h2]
      exact e1
    · intro suf
      rw [List.cons_append, List.cons_append,
        asm_parse_tokens_arg cur arg (rest1 ++ suf) last result h1 h2]
      exact e2 suf
    · rcases e3 with e3 | e3
      · rw [e3]
        exact asm_parse_src_arg_error_cases arg result.error
      · exact Or.inr e3
  | case4 cur rest last result h1 h2 new_inst ih =>
    have h2f : asm_instruction_requires_arg cur = false := by simpa using h2
    unfold asm_lines at hl
    simp only [h1, h2f, if_true, Bool.false_eq_true, if_false] at hl
    obtain ⟨r1, e1, e2, e3⟩ := ih hl (by simp)
    refine ⟨r1, ?_, ?_, e3⟩
    · rw [asm_parse_tokens_noarg cur rest last result h1 h2f]
      exact e1
    · intro suf
      rw [List.cons_append, asm_parse_tokens_noarg cur (rest ++ suf) last result h1 h2f]
      exact e2 suf
  | case5 cur last result h1 =>
    unfold asm_lines at hl
    simp [h1] at hl
  | case6 cur last result h1 type h3 h4 =>
    unfold asm_lines at hl
    simp [h1, h3, h4] at hl
  | case7 cur last result h1 type h3 h4 arg rest1 a new_inst ih =>
    have h1f : asm_is_instruction cur = false := by simpa using h1
    unfold asm_lines at hl
    simp only [h1f, h3, h4, if_true, Bool.false_eq_true, if_false] at hl
    obtain ⟨r1, e1, e2, e3⟩ := ih hl (by simp)
    refine ⟨r1, ?_, ?_, ?_⟩
    · rw [asm_parse_tokens_label_arg cur type arg rest1 last result h1f h3 h4]
      exact e1
    · intro suf
      rw [List.cons_append, List.cons_append, List.cons_append,
        asm_parse_tokens_label_arg cur type arg (rest1 ++ suf) last result h1f h3 h4]
      exact e2 suf
    · rcases e3 with e3 | e3
      · rw [e3]
        exact asm_parse_src_arg_error_cases arg result.error
      · exact Or.inr e3
  | case8 cur last result h1 type rest1 h3 h4 new_inst ih =>
    have h1f : asm_is_instruction cur = false := by simpa using h1
    have h4f : asm_instruction_requires_arg type = false := by simpa using h4
    unfold asm_lines at hl
    simp only [h1f, h3, h4f, if_true, Bool.false_eq_true, if_false] at hl
    obtain ⟨r1, e1, e2, e3⟩ := ih hl (by simp)
    refine ⟨r1, ?_, ?_, e3⟩
    · rw [asm_parse_tokens_label_noarg cur type rest1 last result h1f h3 h4f]
      exact e1
    · intro suf
      rw [List.cons_append, List.cons_append,
        asm_parse_tokens_label_noarg cur type (rest1 ++ suf) last result h1f h3 h4f]
      exact e2 suf
  | case9 cur last result h1 type rest1 h3 =>
    unfold asm_lines at hl
    simp [h1, h3] at hl

theorem asm_parse_tokens_unknown (label t : String) (rest : List String)
    (last : Option asm_instruction) (result : asm_compilation_result)
    (h1 : asm_is_instruction label = false) (h2 : asm_is_instruction t = false) :
    asm_parse_tokens (label :: t :: rest) last result =
      some { result with error := some ASM_ERROR_UNKNOWN_INSTRUCTION } := by
  conv_lhs => unfold asm_parse_tokens
  simp only [h1, h2, Bool.false_eq_true, if_false]

theorem asm_parse_tokens_arg_required (t : String) (last : Option asm_instruction)
    (result : asm_compilation_result) (hi : asm_is_instruction t = true)
    (ha : asm_instruction_requires_arg t = true) :
    asm_parse_tokens [t] last result =
      some { result with error := some ASM_ERROR_ARG_REQUIRED } := by
  conv_lhs => unfold asm_parse_tokens
  simp only [hi, ha, if_true]

theorem asm_parse_tokens_label_arg_required (label t : String)
    (last : Option asm_instruction) (result : asm_compilation_result)
    (hl : asm_is_instruction label = false) (hi : asm_is_instruction t = true)
    (ha : asm_instruction_requires_arg t = true) :
    asm_parse_tokens [label, t] last result =
      some { result with error := some ASM_ERROR_ARG_REQUIRED } := by
  conv_lhs => unfold asm_parse_tokens
  simp only [hl, hi, ha, if_true, Bool.false_eq_true, if_false]

theorem asm_parse_tokens_nil (last : Option asm_instruction)
    (result : asm_compilation_result) : asm_parse_tokens [] last result = some result := by
  unfold asm_parse_tokens
  rfl

/-! ## The claims about errors during parsing -/

/-- C16: in a source whose tokens are complete lines `pre`, then a token `label`
that is not a mnemonic (so taken as a label), then a token `t` that is not a
mnemonic either, `asm_parse_src` sets the error to UnknownInstruction and stops:
the result is that of parsing the lines `pre` alone, with this error; its list
is the linked list of the instructions of `pre`, whatever tokens follow `t`.
The loop does so from any state in which it meets `label`. -/
theorem asm_parse_src_unknown_instruction (src : String) (pre : List String)
    (label t : String) (rest : List String)
    (hs : strtok_tokens src.data [] = pre ++ label :: t :: rest)
    (hl : asm_lines pre = true)
    (h1 : asm_is_instruction label = false) (h2 : asm_is_instruction t = false) :
    (∃ r1, asm_parse_tokens pre none asm_make_compilation_result = some r1 ∧
      asm_parse_src asm_make_compilation_result src =
        some { r1 with error := some ASM_ERROR_UNKNOWN_INSTRUCTION } ∧
      asm_linked 0 r1.root) ∧
    ∀ last result, asm_parse_tokens (label :: t :: rest) last result =
      some { result with error := some ASM_ERROR_UNKNOWN_INSTRUCTION } := by
  refine ⟨?_, fun last result => asm_parse_tokens_unknown label t rest last result h1 h2⟩
  obtain ⟨r1, e1, e2, -⟩ :=
    asm_parse_tokens_lines pre none asm_make_compilation_result hl rfl
  refine ⟨r1, e1, ?_, ?_⟩
  · rw [asm_parse_src_fresh, hs, e2, asm_parse_tokens_unknown label t rest _ r1 h1 h2]
  · exact (asm_parse_tokens_linked pre none asm_make_compilation_result r1 e1 rfl trivial
      (by simp [asm_make_compilation_result])).1

theorem asm_parse_src_unknown_instruction_witness :
    strtok_tokens ("LDI 5\nfoo bar OUT" : String).data [] =
      ["LDI", "5"] ++ "foo" :: "bar" :: ["OUT"] ∧
    asm_lines ["LDI", "5"] = true ∧ asm_is_instruction "foo" = false ∧
    asm_is_instruction "bar" = false ∧
    ((∃ r1, asm_parse_tokens ["LDI", "5"] none asm_make_compilation_result = some r1 ∧
      asm_parse_src asm_make_compilation_result "LDI 5\nfoo bar OUT" =
        some { r1 with error := some ASM_ERROR_UNKNOWN_INSTRUCTION } ∧
      asm_linked 0 r1.root) ∧
    ∀ last result, asm_parse_tokens ("foo" :: "bar" :: ["OUT"]) last result =
      some { result with error := some ASM_ERROR_UNKNOWN_INSTRUCTION }) :=
  ⟨by decide, by decide, by decide, by decide,
    asm_parse_src_unknown_instruction "LDI 5\nfoo bar OUT" ["LDI", "5"] "foo" "bar" ["OUT"]
      (by decide) (by decide) (by decide) (by decide)⟩

/-- C17: in a source whose tokens are complete lines `pre`, then an optional
label, then as last token a mnemonic `t` (the token stream ends right after the
mnemonic of a line): when
`t` requires an argument, `asm_parse_src` sets the error to ArgumentRequired and
stops, and the result is otherwise that of parsing the lines `pre` alone, with no
instruction for `t`; when `t` requires none, the instruction for `t` is appended
to the list of `pre` and the error is the one `pre` left, which is not
ArgumentRequired. -/
theorem asm_parse_src_last_mnemonic (src : String) (pre : List String)
    (label : Option String) (t : String)
    (hs : strtok_tokens src.data [] = pre ++ (label.toList ++ [t]))
    (hl : asm_lines pre = true)
    (hlabel : ∀ l, label = some l → asm_is_instruction l = false)
    (hi : asm_is_instruction t = true) :
    ∃ r1, asm_parse_tokens pre none asm_make_compilation_result = some r1 ∧
      (asm_instruction_requires_arg t = true →
        asm_parse_src asm_make_compilation_result src =
          some { r1 with error := some ASM_ERROR_ARG_REQUIRED }) ∧
      (asm_instruction_requires_arg t = false →
        asm_parse_src asm_make_compilation_result src =
          some { r1 with
            root := r1.root ++ [asm_make_instruction t label none 0 r1.root.getLast?] } ∧
        r1.error ≠ some ASM_ERROR_ARG_REQUIRED) := by
  obtain ⟨r1, e1, e2, e3⟩ :=
    asm_parse_tokens_lines pre none asm_make_compilation_result hl rfl
  refine ⟨r1, e1, ?_, ?_⟩
  · intro ha
    rw [asm_parse_src_fresh, hs, e2]
    cases label with
    | none => exact asm_parse_tokens_arg_required t _ r1 hi ha
    | some l => exact asm_parse_tokens_label_arg_required l t _ r1 (hlabel l rfl) hi ha
  · intro ha
    constructor
    · rw [asm_parse_src_fresh, hs, e2]
      cases label with
      | none =>
        show asm_parse_tokens [t] _ r1 = _
        rw [asm_parse_tokens_noarg t [] _ r1 hi ha, asm_parse_tokens_nil]
      | some l =>
        show asm_parse_tokens [l, t] _ r1 = _
        rw [asm_parse_tokens_label_noarg l t [] _ r1 (hlabel l rfl) hi ha,
          asm_parse_tokens_nil]
    · rcases e3 with e3 | e3
      · rw [e3]
        simp [asm_make_compilation_result]
      · rw [e3]
        decide

theorem asm_parse_src_last_mnemonic_witness :
    strtok_tokens ("LDI 5\nloop ADD" : String).data [] =
      ["LDI", "5"] ++ ((some "loop").toList ++ ["ADD"]) ∧
    asm_lines ["LDI", "5"] = true ∧
    (∀ l, some "loop" = some l → asm_is_instruction l = false) ∧
    asm_is_instruction "ADD" = true ∧
    ∃ r1, asm_parse_tokens ["LDI", "5"] none asm_make_compilation_result = some r1 ∧
      (asm_instruction_requires_arg "ADD" = true →
        asm_parse_src asm_make_compilation_result "LDI 5\nloop ADD" =
          some { r1 with error := some ASM_ERROR_ARG_REQUIRED }) ∧
      (asm_instruction_requires_arg "ADD" = false →
        asm_parse_src asm_make_compilation_result "LDI 5\nloop ADD" =
          some { r1 with
            root := r1.root ++
              [asm_make_instruction "ADD" (some "loop") none 0 r1.root.getLast?] } ∧
        r1.error ≠ some ASM_ERROR_ARG_REQUIRED) :=
  have hlabel : ∀ l, some "loop" = some l → asm_is_instruction l = false := by
    intro l h
    cases h
    decide
  ⟨by decide, by decide, hlabel, by decide,
    asm_parse_src_last_mnemonic "LDI 5\nloop ADD" ["LDI", "5"] (some "loop") "ADD"
      (by decide) (by decide) hlabel (by decide)⟩

/-! ## The claims about the error field and about offsets -/

theorem asm_foldl_append_error_isSome (l1 l2 : List asm_instruction)
    (r : asm_compilation_result)
    (h : (l1.foldl asm_gen_code_for_instruction r).error.isSome = true) :
    ((l1 ++ l2).foldl asm_gen_code_for_instruction r).error.isSome = true := by
  rw [List.foldl_append]
  exact asm_foldl_error_isSome l2 _ h

/-- C18: an error, once set during `asm_assemble`, stays set.  For a source whose
tokens are complete lines `pre` followed by `suf`, with `r1` the state of the
parsing loop after `pre`, `p` the result of `asm_parse_src` and `l1` the
instructions that `asm_gen_code` has walked so far: an error in `r1` is an error
in `p`, an error in `p` is an error after `l1`, and an error after `l1` is an
error in the returned result; each assignment on the way (the argument branch
of the parser, `asm_gen_code_for_instruction`) keeps an error that is set.  So
the returned result has no error only if there was none at any of these
points. -/
theorem asm_assemble_error_is_kept (src : String) (pre suf : List String)
    (hs : strtok_tokens src.data [] = pre ++ suf) (hl : asm_lines pre = true)
    (p : asm_compilation_result)
    (hp : asm_parse_src asm_make_compilation_result src = some p)
    (l1 l2 : List asm_instruction) (hroot : p.root = l1 ++ l2) :
    ∃ r1, asm_parse_tokens pre none asm_make_compilation_result = some r1 ∧
      asm_assemble src = some (asm_gen_code p) ∧
      (r1.error.isSome = true → p.error.isSome = true) ∧
      (p.error.isSome = true →
        (l1.foldl asm_gen_code_for_instruction p).error.isSome = true) ∧
      ((l1.foldl asm_gen_code_for_instruction p).error.isSome = true →
        (asm_gen_code p).error.isSome = true) ∧
      (∀ arg error, error.isSome = true →
        (asm_parse_src_arg arg error).2.2.isSome = true) ∧
      (∀ r i, r.error.isSome = true →
        (asm_gen_code_for_instruction r i).error.isSome = true) ∧
      ((asm_gen_code p).error = none →
        r1.error = none ∧ p.error = none ∧
          (l1.foldl asm_gen_code_for_instruction p).error = none) := by
  obtain ⟨r1, e1, e2, -⟩ :=
    asm_parse_tokens_lines pre none asm_make_compilation_result hl rfl
  have hp2 : asm_parse_tokens suf r1.root.getLast? r1 = some p := by
    rw [← e2 suf, ← hs, ← asm_parse_src_fresh]
    exact hp
  have k1 : r1.error.isSome = true → p.error.isSome = true :=
    (asm_parse_tokens_grows suf _ r1 p hp2).2
  have k2 : p.error.isSome = true →
      (l1.foldl asm_gen_code_for_instruction p).error.isSome = true :=
    asm_foldl_error_isSome l1 p
  have k3 : (l1.foldl asm_gen_code_for_instruction p).error.isSome = true →
      (asm_gen_code p).error.isSome = true := by
    intro h
    unfold asm_gen_code
    rw [hroot]
    exact asm_foldl_append_error_isSome l1 l2 p h
  refine ⟨r1, e1, ?_, k1, k2, k3, asm_parse_src_arg_error_isSome,
    asm_gen_code_for_instruction_error_isSome, ?_⟩
  · unfold asm_assemble
    rw [hp]
    rfl
  · intro hnone
    have n3 : (l1.foldl asm_gen_code_for_instruction p).error = none := by
      by_contra hc
      have := k3 (Option.isSome_iff_ne_none.mpr hc)
      rw [hnone] at this
      exact absurd this (by simp)
    have n2 : p.error = none := by
      by_contra hc
      have := k2 (Option.isSome_iff_ne_none.mpr hc)
      rw [n3] at this
      exact absurd this (by simp)
    have n1 : r1.error = none := by
      by_contra hc
      have := k1 (Option.isSome_iff_ne_none.mpr hc)
      rw [n2] at this
      exact absurd this (by simp)
    exact ⟨n1, n2, n3⟩

theorem asm_assemble_error_is_kept_witness :
    strtok_tokens ("LDI 5000\nBRA nowhere\nHLT" : String).data [] =
      ["LDI", "5000"] ++ ["BRA", "nowhere", "HLT"] ∧
    asm_lines ["LDI", "5000"] = true ∧
    asm_parse_src asm_make_compilation_result "LDI 5000\nBRA nowhere\nHLT" =
      some asm_sample_errors ∧
    asm_sample_errors.root =
      [asm_make_instruction "LDI" none none 999 none] ++
        [{ instruction := "BRA", label := none, label_reference := some "nowhere",
           value := 0, offset := 1, slots := 1 },
         { instruction := "HLT", label := none, label_reference := none, value := 0,
           offset := 2, slots := 1 }] ∧
    ∃ r1, asm_parse_tokens ["LDI", "5000"] none asm_make_compilation_result = some r1 ∧
      asm_assemble "LDI 5000\nBRA nowhere\nHLT" = some (asm_gen_code asm_sample_errors) ∧
      (r1.error.isSome = true → asm_sample_errors.error.isSome = true) ∧
      (asm_sample_errors.error.isSome = true →
        ([asm_make_instruction "LDI" none none 999 none].foldl asm_gen_code_for_instruction
          asm_sample_errors).error.isSome = true) ∧
      (([asm_make_instruction "LDI" none none 999 none].foldl asm_gen_code_for_instruction
          asm_sample_errors).error.isSome = true →
        (asm_gen_code asm_sample_errors).error.isSome = true) ∧
      (∀ arg error, error.isSome = true →
        (asm_parse_src_arg arg error).2.2.isSome = true) ∧
      (∀ r i, r.error.isSome = true →
        (asm_gen_code_for_instruction r i).error.isSome = true) ∧
      ((asm_gen_code asm_sample_errors).error = none →
        r1.error = none ∧ asm_sample_errors.error = none ∧
          ([asm_make_instruction "LDI" none none 999 none].foldl asm_gen_code_for_instruction
            asm_sample_errors).error = none) :=
  ⟨by decide, by decide, rfl, rfl,
    asm_assemble_error_is_kept "LDI 5000\nBRA nowhere\nHLT" ["LDI", "5000"]
      ["BRA", "nowhere", "HLT"] (by decide) (by decide) asm_sample_errors rfl
      [asm_make_instruction "LDI" none none 999 none]
      [{ instruction := "BRA", label := none, label_reference := some "nowhere",
         value := 0, offset := 1, slots := 1 },
       { instruction := "HLT", label := none, label_reference := none, value := 0,
         offset := 2, slots := 1 }] rfl⟩

/-- C20: in the list that `asm_parse_src` builds, the first instruction has
offset 0, every other one its predecessor's offset plus its predecessor's slots
(3 for CALL, 2 for SPUSHI, 1 otherwise), so an instruction further down the list
starts at or after the end of the slots of one further up; for an instruction
of the list `asm_gen_code_for_instruction` changes no cell outside its slots,
and after `asm_gen_code` the cells of its slots hold what
`asm_gen_code_for_instruction` writes for it: for a CALL that is emitted the
words 920 and 910 in the second and third slot, for a SPUSHI the word 920 in
the second. -/
theorem asm_parse_src_offsets (src : String) (r : asm_compilation_result)
    (hp : asm_parse_src asm_make_compilation_result src = some r) :
    (∀ i rest, r.root = i :: rest → i.offset = 0) ∧
    (∀ pre i j post, r.root = pre ++ i :: j :: post → j.offset = i.offset + i.slots) ∧
    (∀ i ∈ r.root, i.slots =
      if i.instruction = "CALL" then 3 else if i.instruction = "SPUSHI" then 2 else 1) ∧
    (∀ pre i mid j post, r.root = pre ++ i :: (mid ++ j :: post) →
      i.offset + i.slots ≤ j.offset) ∧
    (∀ i ∈ r.root, ∀ (c : asm_compilation_result) (a : Int),
      a < i.offset ∨ i.offset + i.slots ≤ a →
        (asm_gen_code_for_instruction c i).code a = c.code a) ∧
    (∀ i ∈ r.root, ∀ a, i.offset ≤ a ∧ a < i.offset + i.slots →
      (asm_gen_code r).code a = (asm_gen_code_for_instruction r i).code a) ∧
    (∀ i ∈ r.root, i.instruction = "CALL" →
      (i.label_reference = none ∨
        ∃ l, i.label_reference = some l ∧ ∃ k ∈ r.root, k.label = some l) →
      (asm_gen_code r).code (i.offset + 1) = 920 ∧
        (asm_gen_code r).code (i.offset + 2) = 910) ∧
    (∀ i ∈ r.root, i.instruction = "SPUSHI" →
      (i.label_reference = none ∨
        ∃ l, i.label_reference = some l ∧ ∃ k ∈ r.root, k.label = some l) →
      (asm_gen_code r).code (i.offset + 1) = 920) := by
  obtain ⟨hl, -, -⟩ := asm_parse_src_linked src r hp
  have hemit : ∀ i, (i.label_reference = none ∨
      ∃ l, i.label_reference = some l ∧ ∃ k ∈ r.root, k.label = some l) →
      ∃ x, asm_gen_code_for_instruction r i = asm_gen_code_for_instruction_emit r i x := by
    intro i hx
    rcases hx with hnone | ⟨l, hsome, hex⟩
    · exact ⟨_, asm_gen_code_for_instruction_none r i hnone⟩
    · exact ⟨_, asm_gen_code_for_instruction_found r i l hsome
        (asm_find_label_resolved r.root l hl hex)⟩
  refine ⟨?_, ?_, ?_, ?_, ?_, ?_, ?_, ?_⟩
  · intro i rest hroot
    rw [hroot] at hl
    exact hl.1
  · intro pre i j post hroot
    rw [hroot] at hl
    obtain ⟨-, -, hpost, -⟩ := asm_linked_split 0 pre i (j :: post) hl
    exact hpost.1
  · intro i hi
    exact asm_linked_slots 0 r.root hl i hi
  · intro pre i mid j post hroot
    have hroot2 : r.root = (pre ++ i :: mid) ++ j :: post := by
      rw [hroot]
      simp
    rw [hroot2] at hl
    obtain ⟨-, -, -, hk⟩ := asm_linked_split 0 (pre ++ i :: mid) j post hl
    exact hk i (by simp)
  · intro i hi c a ha
    rw [asm_linked_slots 0 r.root hl i hi] at ha
    exact asm_gen_code_for_instruction_outside c i a ha
  · intro i hi a ha
    exact asm_gen_code_code_at r hl i hi a ha
  · intro i hi hcall hx
    obtain ⟨x, hgen⟩ := hemit i hx
    have hslots : i.slots = 3 := by
      rw [asm_linked_slots 0 r.root hl i hi, hcall]
      rfl
    constructor
    · rw [asm_gen_code_code_at r hl i hi (i.offset + 1) ⟨by omega, by omega⟩, hgen,
        asm_emit_call r i x hcall]
      simp [array_set]
    · rw [asm_gen_code_code_at r hl i hi (i.offset + 2) ⟨by omega, by omega⟩, hgen,
        asm_emit_call r i x hcall]
      simp [array_set]
  · intro i hi hpush hx
    obtain ⟨x, hgen⟩ := hemit i hx
    have hslots : i.slots = 2 := by
      rw [asm_linked_slots 0 r.root hl i hi, hpush]
      rfl
    rw [asm_gen_code_code_at r hl i hi (i.offset + 1) ⟨by omega, by omega⟩, hgen,
      asm_emit_spushi r i x hpush]
    simp [array_set]

theorem asm_parse_src_offsets_witness :
    asm_parse_src asm_make_compilation_result asm_sample_source = some asm_sample_parsed ∧
    ((∀ i rest, asm_sample_parsed.root = i :: rest → i.offset = 0) ∧
    (∀ pre i j post, asm_sample_parsed.root = pre ++ i :: j :: post →
      j.offset = i.offset + i.slots) ∧
    (∀ i ∈ asm_sample_parsed.root, i.slots =
      if i.instruction = "CALL" then 3 else if i.instruction = "SPUSHI" then 2 else 1) ∧
    (∀ pre i mid j post, asm_sample_parsed.root = pre ++ i :: (mid ++ j :: post) →
      i.offset + i.slots ≤ j.offset) ∧
    (∀ i ∈ asm_sample_parsed.root, ∀ (c : asm_compilation_result) (a : Int),
      a < i.offset ∨ i.offset + i.slots ≤ a →
        (asm_gen_code_for_instruction c i).code a = c.code a) ∧
    (∀ i ∈ asm_sample_parsed.root, ∀ a, i.offset ≤ a ∧ a < i.offset + i.slots →
      (asm_gen_code asm_sample_parsed).code a =
        (asm_gen_code_for_instruction asm_sample_parsed i).code a) ∧
    (∀ i ∈ asm_sample_parsed.root, i.instruction = "CALL" →
      (i.label_reference = none ∨
        ∃ l, i.label_reference = some l ∧ ∃ k ∈ asm_sample_parsed.root, k.label = some l) →
      (asm_gen_code asm_sample_parsed).code (i.offset + 1) = 920 ∧
        (asm_gen_code asm_sample_parsed).code (i.offset + 2) = 910) ∧
    (∀ i ∈ asm_sample_parsed.root, i.instruction = "SPUSHI" →
      (i.label_reference = none ∨
        ∃ l, i.label_reference = some l ∧ ∃ k ∈ asm_sample_parsed.root, k.label = some l) →
      (asm_gen_code asm_sample_parsed).code (i.offset + 1) = 920)) :=
  ⟨rfl, asm_parse_src_offsets asm_sample_source asm_sample_parsed rfl⟩

/-! ## The assembler and the interpreter share the encoding -/

theorem lmsm_dispatch_add (TOP : Int) (m : lmsm) (w : Int) (h : 100 ≤ w ∧ w ≤ 199) :
    lmsm_dispatch TOP m w = some (lmsm_i_add m (w - 100)) := by
  unfold lmsm_dispatch
  rw [if_neg (by omega), if_pos h]

theorem lmsm_dispatch_sub (TOP : Int) (m : lmsm) (w : Int) (h : 200 ≤ w ∧ w ≤ 299) :
    lmsm_dispatch TOP m w = some (lmsm_i_sub m (w - 200)) := by
  unfold lmsm_dispatch
  iterate 2 rw [if_neg (by omega)]
  rw [if_pos h]

theorem lmsm_dispatch_store (TOP : Int) (m : lmsm) (w : Int) (h : 300 ≤ w ∧ w ≤ 399) :
    lmsm_dispatch TOP m w = some (lmsm_i_store m (w - 300)) := by
  unfold lmsm_dispatch
  iterate 3 rw [if_neg (by omega)]
  rw [if_pos h]

theorem lmsm_dispatch_load (TOP : Int) (m : lmsm) (w : Int) (h : 500 ≤ w ∧ w ≤ 599) :
    lmsm_dispatch TOP m w = some (lmsm_i_load m (w - 500)) := by
  unfold lmsm_dispatch
  iterate 5 rw [if_neg (by omega)]
  rw [if_pos h]

theorem lmsm_dispatch_bra (TOP : Int) (m : lmsm) (w : Int) (h : 600 ≤ w ∧ w ≤ 699) :
    lmsm_dispatch TOP m w = some (lmsm_i_branch_unconditional m (w - 600)) := by
  unfold lmsm_dispatch
  iterate 6 rw [if_neg (by omega)]
  rw [if_pos h]

theorem lmsm_dispatch_brz (TOP : Int) (m : lmsm) (w : Int) (h : 700 ≤ w ∧ w ≤ 799) :
    lmsm_dispatch TOP m w = some (lmsm_i_branch_if_zero m (w - 700)) := by
  unfold lmsm_dispatch
  iterate 7 rw [if_neg (by omega)]
  rw [if_pos h]

theorem lmsm_dispatch_brp (TOP : Int) (m : lmsm) (w : Int) (h : 800 ≤ w ∧ w ≤ 899) :
    lmsm_dispatch TOP m w = some (lmsm_i_branch_if_positive m (w - 800)) := by
  unfold lmsm_dispatch
  iterate 8 rw [if_neg (by omega)]
  rw [if_pos h]

theorem asm_parse_src_mnemonic_number (M : String) (n : Nat) (hn : n ≤ 99)
    (ht : strtok_tokens M.data [] = [M]) (hi : asm_is_instruction M = true)
    (ha : asm_instruction_requires_arg M = true) :
    asm_parse_src asm_make_compilation_result (M ++ " " ++ toString n) =
      some { root := [asm_make_instruction M none none n none]
             error := none
             code := fun _ => 0 } := by
  rw [asm_parse_src_fresh, strtok_tokens_string_append M (toString n) " " [] (Or.inl rfl), ht,
    strtok_tokens_small_number n hn]
  show asm_parse_tokens [M, toString n] none asm_make_compilation_result = _
  rw [asm_parse_tokens_arg M (toString n) [] none _ hi ha,
    asm_parse_src_arg_small_number n hn, asm_parse_tokens_nil]
  rfl

/-- The eight classes of one-operand words: what `lmsm_exec_instruction` does
with the word `base + n` for `n` in [0, 99]. -/
theorem lmsm_exec_instruction_classes (TOP : Int) (m : lmsm) (n : Int)
    (hn : 0 ≤ n ∧ n ≤ 99) :
    (lmsm_dispatch TOP m (100 + n) = some (lmsm_i_add m n) ∧
      lmsm_exec_instruction TOP m (100 + n) =
        some { m with
          accumulator := lmsm_cap_value (int32_wrap (m.accumulator + m.memory n)) }) ∧
    (lmsm_dispatch TOP m (200 + n) = some (lmsm_i_sub m n) ∧
      lmsm_exec_instruction TOP m (200 + n) =
        some { m with
          accumulator := lmsm_cap_value (int32_wrap (m.accumulator - m.memory n)) }) ∧
    (lmsm_dispatch TOP m (300 + n) = some (lmsm_i_store m n) ∧
      lmsm_exec_instruction TOP m (300 + n) =
        some { m with
          memory := array_set m.memory n m.accumulator
          accumulator := lmsm_cap_value m.accumulator }) ∧
    (lmsm_dispatch TOP m (400 + n) = some (lmsm_i_load_immediate m n) ∧
      lmsm_exec_instruction TOP m (400 + n) = some { m with accumulator := n }) ∧
    (lmsm_dispatch TOP m (500 + n) = some (lmsm_i_load m n) ∧
      lmsm_exec_instruction TOP m (500 + n) =
        some { m with accumulator := lmsm_cap_value (m.memory n) }) ∧
    (lmsm_dispatch TOP m (600 + n) = some (lmsm_i_branch_unconditional m n) ∧
      lmsm_exec_instruction TOP m (600 + n) =
        some { m with
          program_counter := n
          accumulator := lmsm_cap_value m.accumulator }) ∧
    (lmsm_dispatch TOP m (700 + n) = some (lmsm_i_branch_if_zero m n) ∧
      lmsm_exec_instruction TOP m (700 + n) =
        some { m with
          program_counter := if m.accumulator = 0 then n else m.program_counter
          accumulator := lmsm_cap_value m.accumulator }) ∧
    (lmsm_dispatch TOP m (800 + n) = some (lmsm_i_branch_if_positive m n) ∧
      lmsm_exec_instruction TOP m (800 + n) =
        some { m with
          program_counter := if m.accumulator ≥ 0 then n else m.program_counter
          accumulator := lmsm_cap_value m.accumulator }) := by
  have hc : lmsm_cap_value n = n := lmsm_cap_value_of_range n (by omega) (by omega)
  have d1 : lmsm_dispatch TOP m (100 + n) = some (lmsm_i_add m n) := by
    rw [lmsm_dispatch_add TOP m _ (by omega), add_sub_cancel_left]
  have d2 : lmsm_dispatch TOP m (200 + n) = some (lmsm_i_sub m n) := by
    rw [lmsm_dispatch_sub TOP m _ (by omega), add_sub_cancel_left]
  have d3 : lmsm_dispatch TOP m (300 + n) = some (lmsm_i_store m n) := by
    rw [lmsm_dispatch_store TOP m _ (by omega), add_sub_cancel_left]
  have d4 : lmsm_dispatch TOP m (400 + n) = some (lmsm_i_load_immediate m n) := by
    rw [lmsm_dispatch_ldi TOP m _ (by omega), add_sub_cancel_left]
  have d5 : lmsm_dispatch TOP m (500 + n) = some (lmsm_i_load m n) := by
    rw [lmsm_dispatch_load TOP m _ (by omega), add_sub_cancel_left]
  have d6 : lmsm_dispatch TOP m (600 + n) = some (lmsm_i_branch_unconditional m n) := by
    rw [lmsm_dispatch_bra TOP m _ (by omega), add_sub_cancel_left]
  have d7 : lmsm_dispatch TOP m (700 + n) = some (lmsm_i_branch_if_zero m n) := by
    rw [lmsm_dispatch_brz TOP m _ (by omega), add_sub_cancel_left]
  have d8 : lmsm_dispatch TOP m (800 + n) = some (lmsm_i_branch_if_positive m n) := by
    rw [lmsm_dispatch_brp TOP m _ (by omega), add_sub_cancel_left]
  refine ⟨⟨d1, ?_⟩, ⟨d2, ?_⟩, ⟨d3, ?_⟩, ⟨d4, ?_⟩, ⟨d5, ?_⟩, ⟨d6, ?_⟩, ⟨d7, ?_⟩, ⟨d8, ?_⟩⟩
  · rw [lmsm_exec_instruction, d1]
    rfl
  · rw [lmsm_exec_instruction, d2]
    rfl
  · rw [lmsm_exec_instruction, d3]
    rfl
  · rw [lmsm_exec_instruction, d4]
    simp only [Option.map_some', lmsm_i_load_immediate, hc]
  · rw [lmsm_exec_instruction, d5]
    rfl
  · rw [lmsm_exec_instruction, d6]
    rfl
  · rw [lmsm_exec_instruction, d7]
    by_cases h0 : m.accumulator = 0
    · simp only [Option.map_some', lmsm_i_branch_if_zero, h0, if_true]
    · simp only [Option.map_some', lmsm_i_branch_if_zero, h0, if_false]
  · rw [lmsm_exec_instruction, d8]
    by_cases h0 : m.accumulator ≥ 0
    · simp only [Option.map_some', lmsm_i_branch_if_positive, h0, if_true]
    · simp only [Option.map_some', lmsm_i_branch_if_positive, h0, if_false]

/-- C19 (as stated, at a concrete machine): the source `ADD 5` is assembled to
the word 105; with accumulator 999 and 2147483647 in `memory[5]`,
`lmsm_exec_instruction` on 105 leaves the accumulator at -999 with no error,
not at the sum 999 + 2147483647 clamped to [-999, 999], which is 999. -/
theorem lmsm_add_overflow_wraps :
    (asm_assemble "ADD 5").map (fun r => (r.code 0, r.error)) = some (105, none) ∧
    (lmsm_sample 999 200 2147483647).accumulator = 999 ∧
    (lmsm_sample 999 200 2147483647).memory 5 = 2147483647 ∧
    (lmsm_exec_instruction 199 (lmsm_sample 999 200 2147483647) 105).map
      (fun s => (s.accumulator, s.error_code)) = some (-999, ERROR_NONE) ∧
    max (-999 : Int) (min 999 (999 + 2147483647)) = 999 := by
  decide

/-- C19 (amended): for each of ADD, SUB, STA, LDI, LDA, BRA, BRZ, BRP and `n` in
[0, 99], the source `M n` is parsed into one instruction for which
`asm_gen_code_for_instruction` emits the word `base + n`, and
`lmsm_exec_instruction` dispatches that word to the operation of `M` with the
operand `n`, with the error code and the status as they were: ADD adds
`memory[n]` to the accumulator and SUB subtracts it, when the sum or the
difference fits a C `int`; STA stores the accumulator in `memory[n]`, LDI sets
the accumulator to `n`, LDA loads `memory[n]`, BRA sets the program counter to
`n`, BRZ does so when the accumulator is 0 and BRP when it is at least 0, and
else leave it; the accumulator is then capped into [-999, 999]. -/
theorem asm_lmsm_encoding_agreement (M : String) (n : Nat) (hn : n ≤ 99)
    (hM : M ∈ ["ADD", "SUB", "STA", "LDI", "LDA", "BRA", "BRZ", "BRP"])
    (TOP_OF_MEMORY : Int) (m : lmsm) :
    ∃ p w, asm_parse_src asm_make_compilation_result (M ++ " " ++ toString n) = some p ∧
      p.root = [asm_make_instruction M none none n none] ∧
      (asm_gen_code_for_instruction p (asm_make_instruction M none none n none)).code
        (asm_make_instruction M none none n none).offset = w ∧
      (M = "ADD" → w = 100 + (n : Int) ∧
        lmsm_dispatch TOP_OF_MEMORY m w = some (lmsm_i_add m n) ∧
        (-2147483648 ≤ m.accumulator + m.memory n →
          m.accumulator + m.memory n ≤ 2147483647 →
          lmsm_exec_instruction TOP_OF_MEMORY m w =
            some { m with accumulator := lmsm_cap_value (m.accumulator + m.memory n) })) ∧
      (M = "SUB" → w = 200 + (n : Int) ∧
        lmsm_dispatch TOP_OF_MEMORY m w = some (lmsm_i_sub m n) ∧
        (-2147483648 ≤ m.accumulator - m.memory n →
          m.accumulator - m.memory n ≤ 2147483647 →
          lmsm_exec_instruction TOP_OF_MEMORY m w =
            some { m with accumulator := lmsm_cap_value (m.accumulator - m.memory n) })) ∧
      (M = "STA" → w = 300 + (n : Int) ∧
        lmsm_dispatch TOP_OF_MEMORY m w = some (lmsm_i_store m n) ∧
        lmsm_exec_instruction TOP_OF_MEMORY m w =
          some { m with
            memory := array_set m.memory n m.accumulator
            accumulator := lmsm_cap_value m.accumulator }) ∧
      (M = "LDI" → w = 400 + (n : Int) ∧
        lmsm_dispatch TOP_OF_MEMORY m w = some (lmsm_i_load_immediate m n) ∧
        lmsm_exec_instruction TOP_OF_MEMORY m w = some { m with accumulator := n }) ∧
      (M = "LDA" → w = 500 + (n : Int) ∧
        lmsm_dispatch TOP_OF_MEMORY m w = some (lmsm_i_load m n) ∧
        lmsm_exec_instruction TOP_OF_MEMORY m w =
          some { m with accumulator := lmsm_cap_value (m.memory n) }) ∧
      (M = "BRA" → w = 600 + (n : Int) ∧
        lmsm_dispatch TOP_OF_MEMORY m w = some (lmsm_i_branch_unconditional m n) ∧
        lmsm_exec_instruction TOP_OF_MEMORY m w =
          some { m with
            program_counter := n
            accumulator := lmsm_cap_value m.accumulator }) ∧
      (M = "BRZ" → w = 700 + (n : Int) ∧
        lmsm_dispatch TOP_OF_MEMORY m w = some (lmsm_i_branch_if_zero m n) ∧
        lmsm_exec_instruction TOP_OF_MEMORY m w =
          some { m with
            program_counter := if m.accumulator = 0 then (n : Int) else m.program_counter
            accumulator := lmsm_cap_value m.accumulator }) ∧
      (M = "BRP" → w = 800 + (n : Int) ∧
        lmsm_dispatch TOP_OF_MEMORY m w = some (lmsm_i_branch_if_positive m n) ∧
        lmsm_exec_instruction TOP_OF_MEMORY m w =
          some { m with
            program_counter := if m.accumulator ≥ 0 then (n : Int) else m.program_counter
            accumulator := lmsm_cap_value m.accumulator }) := by
  obtain ⟨c1, c2, c3, c4, c5, c6, c7, c8⟩ :=
    lmsm_exec_instruction_classes TOP_OF_MEMORY m (n : Int) ⟨by omega, by omega⟩
  simp only [List.mem_cons, List.mem_singleton, List.not_mem_nil, or_false] at hM
  rcases hM with rfl | rfl | rfl | rfl | rfl | rfl | rfl | rfl
  · refine ⟨_, 100 + (n : Int),
      asm_parse_src_mnemonic_number "ADD" n hn (by decide) (by decide) (by decide), rfl,
      by simp [asm_gen_code_for_instruction, asm_gen_code_for_instruction_emit,
        asm_make_instruction, array_set], ?_⟩
    refine ⟨fun _ => ⟨rfl, c1.1, fun hlo hhi => by
        rw [c1.2, int32_wrap_of_range _ hlo hhi]⟩, ?_, ?_, ?_, ?_, ?_, ?_, ?_⟩ <;>
      exact fun h => absurd h (by decide)
  · refine ⟨_, 200 + (n : Int),
      asm_parse_src_mnemonic_number "SUB" n hn (by decide) (by decide) (by decide), rfl,
      by simp [asm_gen_code_for_instruction, asm_gen_code_for_instruction_emit,
        asm_make_instruction, array_set], ?_⟩
    refine ⟨?_, fun _ => ⟨rfl, c2.1, fun hlo hhi => by
        rw [c2.2, int32_wrap_of_range _ hlo hhi]⟩, ?_, ?_, ?_, ?_, ?_, ?_⟩ <;>
      exact fun h => absurd h (by decide)
  · refine ⟨_, 300 + (n : Int),
      asm_parse_src_mnemonic_number "STA" n hn (by decide) (by decide) (by decide), rfl,
      by simp [asm_gen_code_for_instruction, asm_gen_code_for_instruction_emit,
        asm_make_instruction, array_set], ?_⟩
    refine ⟨?_, ?_, fun _ => ⟨rfl, c3.1, c3.2⟩, ?_, ?_, ?_, ?_, ?_⟩ <;>
      exact fun h => absurd h (by decide)
  · refine ⟨_, 400 + (n : Int),
      asm_parse_src_mnemonic_number "LDI" n hn (by decide) (by decide) (by decide), rfl,
      by simp [asm_gen_code_for_instruction, asm_gen_code_for_instruction_emit,
        asm_make_instruction, array_set], ?_⟩
    refine ⟨?_, ?_, ?_, fun _ => ⟨rfl, c4.1, c4.2⟩, ?_, ?_, ?_, ?_⟩ <;>
      exact fun h => absurd h (by decide)
  · refine ⟨_, 500 + (n : Int),
      asm_parse_src_mnemonic_number "LDA" n hn (by decide) (by decide) (by decide), rfl,
      by simp [asm_gen_code_for_instruction, asm_gen_code_for_instruction_emit,
        asm_make_instruction, array_set], ?_⟩
    refine ⟨?_, ?_, ?_, ?_, fun _ => ⟨rfl, c5.1, c5.2⟩, ?_, ?_, ?_⟩ <;>
      exact fun h => absurd h (by decide)
  · refine ⟨_, 600 + (n : Int),
      asm_parse_src_mnemonic_number "BRA" n hn (by decide) (by decide) (by decide), rfl,
      by simp [asm_gen_code_for_instruction, asm_gen_code_for_instruction_emit,
        asm_make_instruction, array_set], ?_⟩
    refine ⟨?_, ?_, ?_, ?_, ?_, fun _ => ⟨rfl, c6.1, c6.2⟩, ?_, ?_⟩ <;>
      exact fun h => absurd h (by decide)
  · refine ⟨_, 700 + (n : Int),
      asm_parse_src_mnemonic_number "BRZ" n hn (by decide) (by decide) (by decide), rfl,
      by simp [asm_gen_code_for_instruction, asm_gen_code_for_instruction_emit,
        asm_make_instruction, array_set], ?_⟩
    refine ⟨?_, ?_, ?_, ?_, ?_, ?_, fun _ => ⟨rfl, c7.1, c7.2⟩, ?_⟩ <;>
      exact fun h => absurd h (by decide)
  · refine ⟨_, 800 + (n : Int),
      asm_parse_src_mnemonic_number "BRP" n hn (by decide) (by decide) (by decide), rfl,
      by simp [asm_gen_code_for_instruction, asm_gen_code_for_instruction_emit,
        asm_make_instruction, array_set], ?_⟩
    refine ⟨?_, ?_, ?_, ?_, ?_, ?_, ?_, fun _ => ⟨rfl, c8.1, c8.2⟩⟩ <;>
      exact fun h => absurd h (by decide)

theorem asm_lmsm_encoding_agreement_witness :
    (5 : Nat) ≤ 99 ∧
    "ADD" ∈ ["ADD", "SUB", "STA", "LDI", "LDA", "BRA", "BRZ", "BRP"] ∧
    ∃ p w, asm_parse_src asm_make_compilation_result ("ADD" ++ " " ++ toString (5 : Nat)) = some p ∧
      p.root = [asm_make_instruction "ADD" none none (5 : Nat) none] ∧
      (asm_gen_code_for_instruction p (asm_make_instruction "ADD" none none (5 : Nat) none)).code
        (asm_make_instruction "ADD" none none (5 : Nat) none).offset = w ∧
      ("ADD" = "ADD" → w = 100 + ((5 : Nat) : Int) ∧
        lmsm_dispatch 199 lmsm_sample_add w = some (lmsm_i_add lmsm_sample_add (5 : Nat)) ∧
        (-2147483648 ≤ lmsm_sample_add.accumulator + lmsm_sample_add.memory (5 : Nat) →
          lmsm_sample_add.accumulator + lmsm_sample_add.memory (5 : Nat) ≤ 2147483647 →
          lmsm_exec_instruction 199 lmsm_sample_add w =
            some { lmsm_sample_add with accumulator := lmsm_cap_value (lmsm_sample_add.accumulator + lmsm_sample_add.memory (5 : Nat)) })) ∧
      ("ADD" = "SUB" → w = 200 + ((5 : Nat) : Int) ∧
        lmsm_dispatch 199 lmsm_sample_add w = some (lmsm_i_sub lmsm_sample_add (5 : Nat)) ∧
        (-2147483648 ≤ lmsm_sample_add.accumulator - lmsm_sample_add.memory (5 : Nat) →
          lmsm_sample_add.accumulator - lmsm_sample_add.memory (5 : Nat) ≤ 2147483647 →
          lmsm_exec_instruction 199 lmsm_sample_add w =
            some { lmsm_sample_add with accumulator := lmsm_cap_value (lmsm_sample_add.accumulator - lmsm_sample_add.memory (5 : Nat)) })) ∧
      ("ADD" = "STA" → w = 300 + ((5 : Nat) : Int) ∧
        lmsm_dispatch 199 lmsm_sample_add w = some (lmsm_i_store lmsm_sample_add (5 : Nat)) ∧
        lmsm_exec_instruction 199 lmsm_sample_add w =
          some { lmsm_sample_add with
            memory := array_set lmsm_sample_add.memory (5 : Nat) lmsm_sample_add.accumulator
            accumulator := lmsm_cap_value lmsm_sample_add.accumulator }) ∧
      ("ADD" = "LDI" → w = 400 + ((5 : Nat) : Int) ∧
        lmsm_dispatch 199 lmsm_sample_add w = some (lmsm_i_load_immediate lmsm_sample_add (5 : Nat)) ∧
        lmsm_exec_instruction 199 lmsm_sample_add w = some { lmsm_sample_add with accumulator := (5 : Nat) }) ∧
      ("ADD" = "LDA" → w = 500 + ((5 : Nat) : Int) ∧
        lmsm_dispatch 199 lmsm_sample_add w = some (lmsm_i_load lmsm_sample_add (5 : Nat)) ∧
        lmsm_exec_instruction 199 lmsm_sample_add w =
          some { lmsm_sample_add with accumulator := lmsm_cap_value (lmsm_sample_add.memory (5 : Nat)) }) ∧
      ("ADD" = "BRA" → w = 600 + ((5 : Nat) : Int) ∧
        lmsm_dispatch 199 lmsm_sample_add w = some (lmsm_i_branch_unconditional lmsm_sample_add (5 : Nat)) ∧
        lmsm_exec_instruction 199 lmsm_sample_add w =
          some { lmsm_sample_add with
            program_counter := (5 : Nat)
            accumulator := lmsm_cap_value lmsm_sample_add.accumulator }) ∧
      ("ADD" = "BRZ" → w = 700 + ((5 : Nat) : Int) ∧
        lmsm_dispatch 199 lmsm_sample_add w = some (lmsm_i_branch_if_zero lmsm_sample_add (5 : Nat)) ∧
        lmsm_exec_instruction 199 lmsm_sample_add w =
          some { lmsm_sample_add with
            program_counter := if lmsm_sample_add.accumulator = 0 then ((5 : Nat) : Int) else lmsm_sample_add.program_counter
            accumulator := lmsm_cap_value lmsm_sample_add.accumulator }) ∧
      ("ADD" = "BRP" → w = 800 + ((5 : Nat) : Int) ∧
        lmsm_dispatch 199 lmsm_sample_add w = some (lmsm_i_branch_if_positive lmsm_sample_add (5 : Nat)) ∧
        lmsm_exec_instruction 199 lmsm_sample_add w =
          some { lmsm_sample_add with
            program_counter := if lmsm_sample_add.accumulator ≥ 0 then ((5 : Nat) : Int) else lmsm_sample_add.program_counter
            accumulator := lmsm_cap_value lmsm_sample_add.accumulator }) :=
  ⟨by decide, by decide,
    asm_lmsm_encoding_agreement "ADD" 5 (by decide) (by decide) 199 lmsm_sample_add⟩

/-! ## The interpreter: the two-operand stack instructions -/

theorem lmsm_i_ssub_two (TOP : Int) (m : lmsm) (h : m.stack_pointer < TOP) :
    lmsm_i_ssub TOP m =
      { m with
        stack_pointer := m.stack_pointer + 1
        memory := array_set m.memory (m.stack_pointer + 1)
          (lmsm_cap_value (int32_wrap
            (m.memory (m.stack_pointer + 1) - m.memory m.stack_pointer))) } := by
  rw [lmsm_i_ssub, if_pos (lmsm_has_two_values_on_stack_eq_zero TOP m h)]

theorem lmsm_i_smul_two (TOP : Int) (m : lmsm) (h : m.stack_pointer < TOP) :
    lmsm_i_smul TOP m =
      { m with
        stack_pointer := m.stack_pointer + 1
        memory := array_set m.memory (m.stack_pointer + 1)
          (lmsm_cap_value (int32_wrap
            (m.memory m.stack_pointer * m.memory (m.stack_pointer + 1)))) } := by
  rw [lmsm_i_smul, if_pos (lmsm_has_two_values_on_stack_eq_zero TOP m h)]

theorem lmsm_i_sdiv_two (TOP : Int) (m : lmsm) (h : m.stack_pointer < TOP)
    (ht : m.memory m.stack_pointer ≠ 0)
    (hq : ¬ (m.memory (m.stack_pointer + 1) = -2147483648 ∧ m.memory m.stack_pointer = -1)) :
    lmsm_i_sdiv TOP m =
      some { m with
        stack_pointer := m.stack_pointer + 1
        memory := array_set m.memory (m.stack_pointer + 1)
          (int32_wrap
            (Int.tdiv (m.memory (m.stack_pointer + 1)) (m.memory m.stack_pointer))) } := by
  rw [lmsm_i_sdiv, if_pos (lmsm_has_two_values_on_stack_eq_zero TOP m h)]
  exact if_neg (by
    rintro (h0 | hq1)
    · exact ht h0
    · exact hq hq1)

theorem lmsm_i_smax_two (TOP : Int) (m : lmsm) (h : m.stack_pointer < TOP) :
    lmsm_i_smax TOP m =
      { m with
        stack_pointer := m.stack_pointer + 1
        memory := array_set m.memory (m.stack_pointer + 1)
          (if m.memory m.stack_pointer > m.memory (m.stack_pointer + 1)
            then m.memory m.stack_pointer else m.memory (m.stack_pointer + 1)) } := by
  rw [lmsm_i_smax, if_pos (lmsm_has_two_values_on_stack_eq_zero TOP m h)]

theorem lmsm_i_smin_two (TOP : Int) (m : lmsm) (h : m.stack_pointer < TOP) :
    lmsm_i_smin TOP m =
      { m with
        stack_pointer := m.stack_pointer + 1
        memory := array_set m.memory (m.stack_pointer + 1)
          (if m.memory m.stack_pointer < m.memory (m.stack_pointer + 1)
            then m.memory m.stack_pointer else m.memory (m.stack_pointer + 1)) } := by
  rw [lmsm_i_smin, if_pos (lmsm_has_two_values_on_stack_eq_zero TOP m h)]

/-- What a step leaves when the instruction at the program counter replaces the
two top cells of the stack by the value `v`: no new error, the stack pointer one
higher, `v` in the cell it points to and every other cell as it was. -/
theorem lmsm_step_binary_result (TOP : Int) (m : lmsm) (w v : Int)
    (h : m.status ≠ STATUS_HALTED) (hw : m.memory m.program_counter = w)
    (hd : lmsm_dispatch TOP
        { m with program_counter := m.program_counter + 1, current_instruction := w } w =
      some { m with
        program_counter := m.program_counter + 1
        current_instruction := w
        stack_pointer := m.stack_pointer + 1
        memory := array_set m.memory (m.stack_pointer + 1) v }) :
    ∃ s', lmsm_step TOP m = some s' ∧
      s'.error_code = m.error_code ∧ s'.status = m.status ∧
      s'.stack_pointer = m.stack_pointer + 1 ∧
      s'.memory (m.stack_pointer + 1) = v ∧
      ∀ j, j ≠ m.stack_pointer + 1 → s'.memory j = m.memory j := by
  rw [lmsm_step_running TOP m h, lmsm_exec_instruction, hw, hd]
  refine ⟨_, rfl, rfl, rfl, rfl, ?_, ?_⟩
  · exact array_set_eq _ _ _
  · intro j hj
    exact array_set_ne _ _ _ _ hj

/-- The steps of SSUB, SMUL, SDIV, SMAX and SMIN on sample stacks: 40 - 50,
-800 - 700 (saturated), 65 * 65 (saturated), -100 / 7 (truncated toward zero),
2000 / 2 (not saturated), and the larger and the smaller of 1500 and -1200 (not
saturated); each ends with the stack pointer at 199 and no error. -/
theorem lmsm_step_binary_samples :
    (lmsm_step 199 (lmsm_sample_stack 50 40 931)).map
      (fun s => (s.stack_pointer, s.memory 199, s.error_code)) =
      some (199, -10, ERROR_NONE) ∧
    (lmsm_step 199 (lmsm_sample_stack 700 (-800) 931)).map
      (fun s => (s.stack_pointer, s.memory 199, s.error_code)) =
      some (199, -999, ERROR_NONE) ∧
    (lmsm_step 199 (lmsm_sample_stack 65 65 932)).map
      (fun s => (s.stack_pointer, s.memory 199, s.error_code)) =
      some (199, 999, ERROR_NONE) ∧
    (lmsm_step 199 (lmsm_sample_stack 7 (-100) 933)).map
      (fun s => (s.stack_pointer, s.memory 199, s.error_code)) =
      some (199, -14, ERROR_NONE) ∧
    (lmsm_step 199 (lmsm_sample_stack 2 2000 933)).map
      (fun s => (s.stack_pointer, s.memory 199, s.error_code)) =
      some (199, 1000, ERROR_NONE) ∧
    (lmsm_step 199 (lmsm_sample_stack 1500 (-1200) 934)).map
      (fun s => (s.stack_pointer, s.memory 199, s.error_code)) =
      some (199, 1500, ERROR_NONE) ∧
    (lmsm_step 199 (lmsm_sample_stack 1500 (-1200) 935)).map
      (fun s => (s.stack_pointer, s.memory 199, s.error_code)) =
      some (199, -1200, ERROR_NONE) := by
  decide

/-- C21 (as stated, at a concrete machine): with the two values 65536 and 65536
on the stack (stack pointer 198 = 199 - 1) and SMUL (932) at the program counter,
the step leaves 0 at the new top, not the product 65536 * 65536 saturated to
[-999, 999], which is 999. -/
theorem lmsm_smul_overflow_wraps :
    (lmsm_sample_stack 65536 65536 932).status ≠ STATUS_HALTED ∧
    (lmsm_sample_stack 65536 65536 932).stack_pointer ≤ 199 - 1 ∧
    (lmsm_sample_stack 65536 65536 932).memory
      (lmsm_sample_stack 65536 65536 932).program_counter = 932 ∧
    (lmsm_sample_stack 65536 65536 932).memory 198 = 65536 ∧
    (lmsm_sample_stack 65536 65536 932).memory (198 + 1) = 65536 ∧
    (lmsm_step 199 (lmsm_sample_stack 65536 65536 932)).map
      (fun s => s.memory (198 + 1)) = some 0 ∧
    max (-999 : Int) (min 999 (65536 * 65536)) = 999 := by
  decide

/-- C21 (amended): when the machine is not halted and the stack pointer `sp` is
at most `TOP_OF_MEMORY - 1`, with `t = memory[sp]` and `s = memory[sp+1]`, a step
on SSUB (931), SMUL (932), SDIV (933), SMAX (934) or SMIN (935) raises no error
(error code and status are as before), moves the stack pointer to `sp + 1`,
stores its result in `memory[sp+1]` and leaves every other cell as it was.  The
result is `s - t` saturated to [-999, 999] for SSUB and `s * t` saturated for
SMUL, when the difference or product fits a C `int`; for SDIV with `t ≠ 0` the
quotient of `s` by `t` truncated toward zero, not saturated, when it fits a C
`int`; the larger of `s` and `t` for SMAX and the smaller for SMIN, not
saturated. -/
theorem lmsm_step_binary_ops (TOP_OF_MEMORY : Int) (m : lmsm) (s t : Int)
    (h : m.status ≠ STATUS_HALTED) (hsp : m.stack_pointer ≤ TOP_OF_MEMORY - 1)
    (ht : m.memory m.stack_pointer = t) (hs : m.memory (m.stack_pointer + 1) = s) :
    (m.memory m.program_counter = 931 →
      -2147483648 ≤ s - t →
      s - t ≤ 2147483647 →
      ∃ s', lmsm_step TOP_OF_MEMORY m = some s' ∧
        s'.error_code = m.error_code ∧ s'.status = m.status ∧
        s'.stack_pointer = m.stack_pointer + 1 ∧
        s'.memory (m.stack_pointer + 1) = max (-999) (min 999 (s - t)) ∧
        ∀ j, j ≠ m.stack_pointer + 1 → s'.memory j = m.memory j) ∧
    (m.memory m.program_counter = 932 →
      -2147483648 ≤ s * t →
      s * t ≤ 2147483647 →
      ∃ s', lmsm_step TOP_OF_MEMORY m = some s' ∧
        s'.error_code = m.error_code ∧ s'.status = m.status ∧
        s'.stack_pointer = m.stack_pointer + 1 ∧
        s'.memory (m.stack_pointer + 1) = max (-999) (min 999 (s * t)) ∧
        ∀ j, j ≠ m.stack_pointer + 1 → s'.memory j = m.memory j) ∧
    (m.memory m.program_counter = 933 → t ≠ 0 →
      -2147483648 ≤ Int.tdiv s t →
      Int.tdiv s t ≤ 2147483647 →
      ∃ s', lmsm_step TOP_OF_MEMORY m = some s' ∧
        s'.error_code = m.error_code ∧ s'.status = m.status ∧
        s'.stack_pointer = m.stack_pointer + 1 ∧
        s'.memory (m.stack_pointer + 1) = Int.tdiv s t ∧
        ∀ j, j ≠ m.stack_pointer + 1 → s'.memory j = m.memory j) ∧
    (m.memory m.program_counter = 934 →
      ∃ s', lmsm_step TOP_OF_MEMORY m = some s' ∧
        s'.error_code = m.error_code ∧ s'.status = m.status ∧
        s'.stack_pointer = m.stack_pointer + 1 ∧
        s'.memory (m.stack_pointer + 1) = max s t ∧
        ∀ j, j ≠ m.stack_pointer + 1 → s'.memory j = m.memory j) ∧
    (m.memory m.program_counter = 935 →
      ∃ s', lmsm_step TOP_OF_MEMORY m = some s' ∧
        s'.error_code = m.error_code ∧ s'.status = m.status ∧
        s'.stack_pointer = m.stack_pointer + 1 ∧
        s'.memory (m.stack_pointer + 1) = min s t ∧
        ∀ j, j ≠ m.stack_pointer + 1 → s'.memory j = m.memory j) := by
  subst ht hs
  have hlt : m.stack_pointer < TOP_OF_MEMORY := by omega
  refine ⟨?_, ?_, ?_, ?_, ?_⟩
  · intro hw hlo hhi
    have hs := lmsm_i_ssub_two TOP_OF_MEMORY
      { m with program_counter := m.program_counter + 1, current_instruction := 931 } hlt
    have hr := lmsm_step_binary_result TOP_OF_MEMORY m 931 _ h hw
      (by rw [lmsm_dispatch_931, hs])
    rw [int32_wrap_of_range _ hlo hhi, lmsm_cap_value_eq_max_min] at hr
    exact hr
  · intro hw hlo hhi
    have hs := lmsm_i_smul_two TOP_OF_MEMORY
      { m with program_counter := m.program_counter + 1, current_instruction := 932 } hlt
    have hr := lmsm_step_binary_result TOP_OF_MEMORY m 932 _ h hw
      (by rw [lmsm_dispatch_932, hs])
    rw [mul_comm (m.memory m.stack_pointer), int32_wrap_of_range _ hlo hhi,
      lmsm_cap_value_eq_max_min] at hr
    exact hr
  · intro hw ht hlo hhi
    have hq : ¬ (m.memory (m.stack_pointer + 1) = -2147483648 ∧
        m.memory m.stack_pointer = -1) := by
      rintro ⟨q1, q2⟩
      rw [q1, q2] at hhi
      exact absurd hhi (by decide)
    have hs := lmsm_i_sdiv_two TOP_OF_MEMORY
      { m with program_counter := m.program_counter + 1, current_instruction := 933 } hlt ht hq
    have hr := lmsm_step_binary_result TOP_OF_MEMORY m 933 _ h hw
      (by rw [lmsm_dispatch_933, hs])
    rw [int32_wrap_of_range _ hlo hhi] at hr
    exact hr
  · intro hw
    have hs := lmsm_i_smax_two TOP_OF_MEMORY
      { m with program_counter := m.program_counter + 1, current_instruction := 934 } hlt
    have hr := lmsm_step_binary_result TOP_OF_MEMORY m 934 _ h hw
      (by rw [lmsm_dispatch_934, hs])
    have hv : (if m.memory m.stack_pointer > m.memory (m.stack_pointer + 1)
        then m.memory m.stack_pointer else m.memory (m.stack_pointer + 1)) =
        max (m.memory (m.stack_pointer + 1)) (m.memory m.stack_pointer) := by
      split_ifs <;> omega
    rw [hv] at hr
    exact hr
  · intro hw
    have hs := lmsm_i_smin_two TOP_OF_MEMORY
      { m with program_counter := m.program_counter + 1, current_instruction := 935 } hlt
    have hr := lmsm_step_binary_result TOP_OF_MEMORY m 935 _ h hw
      (by rw [lmsm_dispatch_935, hs])
    have hv : (if m.memory m.stack_pointer < m.memory (m.stack_pointer + 1)
        then m.memory m.stack_pointer else m.memory (m.stack_pointer + 1)) =
        min (m.memory (m.stack_pointer + 1)) (m.memory m.stack_pointer) := by
      split_ifs <;> omega
    rw [hv] at hr
    exact hr

theorem lmsm_step_binary_ops_witness :
    lmsm_sample_ssub.status ≠ STATUS_HALTED ∧
    lmsm_sample_ssub.stack_pointer ≤ 199 - 1 ∧
    lmsm_sample_ssub.memory lmsm_sample_ssub.stack_pointer = 700 ∧
    lmsm_sample_ssub.memory (lmsm_sample_ssub.stack_pointer + 1) = -800 ∧
    ((lmsm_sample_ssub.memory lmsm_sample_ssub.program_counter = 931 →
        -2147483648 ≤ (-800 : Int) - (700 : Int) →
        (-800 : Int) - (700 : Int) ≤ 2147483647 →
        ∃ s', lmsm_step 199 lmsm_sample_ssub = some s' ∧
          s'.error_code = lmsm_sample_ssub.error_code ∧ s'.status = lmsm_sample_ssub.status ∧
          s'.stack_pointer = lmsm_sample_ssub.stack_pointer + 1 ∧
          s'.memory (lmsm_sample_ssub.stack_pointer + 1) = max (-999) (min 999 ((-800 : Int) -
              (700 : Int))) ∧
          ∀ j, j ≠ lmsm_sample_ssub.stack_pointer + 1 → s'.memory j = lmsm_sample_ssub.memory j) ∧
      (lmsm_sample_ssub.memory lmsm_sample_ssub.program_counter = 932 →
        -2147483648 ≤ (-800 : Int) * (700 : Int) →
        (-800 : Int) * (700 : Int) ≤ 2147483647 →
        ∃ s', lmsm_step 199 lmsm_sample_ssub = some s' ∧
          s'.error_code = lmsm_sample_ssub.error_code ∧ s'.status = lmsm_sample_ssub.status ∧
          s'.stack_pointer = lmsm_sample_ssub.stack_pointer + 1 ∧
          s'.memory (lmsm_sample_ssub.stack_pointer + 1) = max (-999) (min 999 ((-800 : Int) *
              (700 : Int))) ∧
          ∀ j, j ≠ lmsm_sample_ssub.stack_pointer + 1 → s'.memory j = lmsm_sample_ssub.memory j) ∧
      (lmsm_sample_ssub.memory lmsm_sample_ssub.program_counter = 933 → (700 : Int) ≠ 0 →
        -2147483648 ≤ Int.tdiv (-800 : Int) (700 : Int) →
        Int.tdiv (-800 : Int) (700 : Int) ≤ 2147483647 →
        ∃ s', lmsm_step 199 lmsm_sample_ssub = some s' ∧
          s'.error_code = lmsm_sample_ssub.error_code ∧ s'.status = lmsm_sample_ssub.status ∧
          s'.stack_pointer = lmsm_sample_ssub.stack_pointer + 1 ∧
          s'.memory (lmsm_sample_ssub.stack_pointer + 1) = Int.tdiv (-800 : Int) (700 : Int) ∧
          ∀ j, j ≠ lmsm_sample_ssub.stack_pointer + 1 → s'.memory j = lmsm_sample_ssub.memory j) ∧
      (lmsm_sample_ssub.memory lmsm_sample_ssub.program_counter = 934 →
        ∃ s', lmsm_step 199 lmsm_sample_ssub = some s' ∧
          s'.error_code = lmsm_sample_ssub.error_code ∧ s'.status = lmsm_sample_ssub.status ∧
          s'.stack_pointer = lmsm_sample_ssub.stack_pointer + 1 ∧
          s'.memory (lmsm_sample_ssub.stack_pointer + 1) = max (-800 : Int) (700 : Int) ∧
          ∀ j, j ≠ lmsm_sample_ssub.stack_pointer + 1 → s'.memory j = lmsm_sample_ssub.memory j) ∧
      (lmsm_sample_ssub.memory lmsm_sample_ssub.program_counter = 935 →
        ∃ s', lmsm_step 199 lmsm_sample_ssub = some s' ∧
          s'.error_code = lmsm_sample_ssub.error_code ∧ s'.status = lmsm_sample_ssub.status ∧
          s'.stack_pointer = lmsm_sample_ssub.stack_pointer + 1 ∧
          s'.memory (lmsm_sample_ssub.stack_pointer + 1) = min (-800 : Int) (700 : Int) ∧
          ∀ j, j ≠ lmsm_sample_ssub.stack_pointer + 1 → s'.memory j = lmsm_sample_ssub.memory j))
              :=
  ⟨by decide, by decide, by decide, by decide,
    lmsm_step_binary_ops 199 lmsm_sample_ssub (-800) 700
      (by decide) (by decide) (by decide) (by decide)⟩

/-! ## The interpreter: call and return -/

theorem lmsm_dispatch_910 (TOP : Int) (m : lmsm) :
    lmsm_dispatch TOP m 910 = some (lmsm_i_jal m) := by
  simp only [lmsm_dispatch]
  norm_num

theorem lmsm_dispatch_911 (TOP : Int) (m : lmsm) :
    lmsm_dispatch TOP m 911 = some (lmsm_i_ret m) := by
  simp only [lmsm_dispatch]
  norm_num

theorem lmsm_dispatch_920 (TOP : Int) (m : lmsm) :
    lmsm_dispatch TOP m 920 = some (lmsm_i_push m) := by
  simp only [lmsm_dispatch]
  norm_num

/-- C22: for a machine with program counter `p`, return-address pointer `r` and
stack pointer `sp` where `r + 1` and `sp` are distinct addresses, `lmsm_i_jal`
stores `p` in `memory[r+1]`, sets the return-address pointer to `r + 1`, the
program counter to the old `memory[sp]` and the stack pointer to `sp + 1`, and
changes no other cell (so `memory[sp]` still holds the old value); `lmsm_i_ret`
right after it sets the program counter back to `p` and the return-address
pointer back to `r`.  The words 910 and 911 are decoded to these two
functions. -/
theorem lmsm_i_jal_ret (m : lmsm)
    (hne : m.return_address_pointer + 1 ≠ m.stack_pointer) :
    (lmsm_i_jal m).memory (m.return_address_pointer + 1) = m.program_counter ∧
    (lmsm_i_jal m).return_address_pointer = m.return_address_pointer + 1 ∧
    (lmsm_i_jal m).program_counter = m.memory m.stack_pointer ∧
    (lmsm_i_jal m).stack_pointer = m.stack_pointer + 1 ∧
    (∀ j, j ≠ m.return_address_pointer + 1 → (lmsm_i_jal m).memory j = m.memory j) ∧
    (lmsm_i_jal m).memory m.stack_pointer = m.memory m.stack_pointer ∧
    (lmsm_i_ret (lmsm_i_jal m)).program_counter = m.program_counter ∧
    (lmsm_i_ret (lmsm_i_jal m)).return_address_pointer = m.return_address_pointer ∧
    (∀ TOP_OF_MEMORY, lmsm_dispatch TOP_OF_MEMORY m 910 = some (lmsm_i_jal m) ∧
      lmsm_dispatch TOP_OF_MEMORY (lmsm_i_jal m) 911 =
        some (lmsm_i_ret (lmsm_i_jal m))) := by
  refine ⟨?_, rfl, rfl, rfl, ?_, ?_, ?_, ?_, ?_⟩
  · exact array_set_eq _ _ _
  · intro j hj
    exact array_set_ne _ _ _ _ hj
  · exact array_set_ne _ _ _ _ (Ne.symm hne)
  · show array_set m.memory (m.return_address_pointer + 1) m.program_counter
      (m.return_address_pointer + 1) = m.program_counter
    exact array_set_eq _ _ _
  · show m.return_address_pointer + 1 - 1 = m.return_address_pointer
    omega
  · intro TOP_OF_MEMORY
    exact ⟨lmsm_dispatch_910 _ _, lmsm_dispatch_911 _ _⟩

theorem lmsm_i_jal_ret_witness :
    (lmsm_sample_stack 42 7 0).return_address_pointer + 1 ≠
      (lmsm_sample_stack 42 7 0).stack_pointer ∧
    (lmsm_i_jal (lmsm_sample_stack 42 7 0)).memory
      ((lmsm_sample_stack 42 7 0).return_address_pointer + 1) =
      (lmsm_sample_stack 42 7 0).program_counter ∧
    (lmsm_i_jal (lmsm_sample_stack 42 7 0)).return_address_pointer =
      (lmsm_sample_stack 42 7 0).return_address_pointer + 1 ∧
    (lmsm_i_jal (lmsm_sample_stack 42 7 0)).program_counter =
      (lmsm_sample_stack 42 7 0).memory (lmsm_sample_stack 42 7 0).stack_pointer ∧
    (lmsm_i_jal (lmsm_sample_stack 42 7 0)).stack_pointer =
      (lmsm_sample_stack 42 7 0).stack_pointer + 1 ∧
    (∀ j, j ≠ (lmsm_sample_stack 42 7 0).return_address_pointer + 1 →
      (lmsm_i_jal (lmsm_sample_stack 42 7 0)).memory j =
        (lmsm_sample_stack 42 7 0).memory j) ∧
    (lmsm_i_jal (lmsm_sample_stack 42 7 0)).memory (lmsm_sample_stack 42 7 0).stack_pointer =
      (lmsm_sample_stack 42 7 0).memory (lmsm_sample_stack 42 7 0).stack_pointer ∧
    (lmsm_i_ret (lmsm_i_jal (lmsm_sample_stack 42 7 0))).program_counter =
      (lmsm_sample_stack 42 7 0).program_counter ∧
    (lmsm_i_ret (lmsm_i_jal (lmsm_sample_stack 42 7 0))).return_address_pointer =
      (lmsm_sample_stack 42 7 0).return_address_pointer ∧
    (∀ TOP_OF_MEMORY,
      lmsm_dispatch TOP_OF_MEMORY (lmsm_sample_stack 42 7 0) 910 =
        some (lmsm_i_jal (lmsm_sample_stack 42 7 0)) ∧
      lmsm_dispatch TOP_OF_MEMORY (lmsm_i_jal (lmsm_sample_stack 42 7 0)) 911 =
        some (lmsm_i_ret (lmsm_i_jal (lmsm_sample_stack 42 7 0)))) :=
  ⟨by decide, lmsm_i_jal_ret (lmsm_sample_stack 42 7 0) (by decide)⟩

/-! ## The interpreter: the three words of CALL -/

theorem lmsm_step_load_immediate (TOP : Int) (m : lmsm) (x : Int)
    (h : m.status ≠ STATUS_HALTED) (hx : 0 ≤ x ∧ x ≤ 99)
    (hw : m.memory m.program_counter = 400 + x) :
    lmsm_step TOP m =
      some { m with
        program_counter := m.program_counter + 1
        current_instruction := 400 + x
        accumulator := x } := by
  rw [lmsm_step_running TOP m h, lmsm_exec_instruction, hw,
    lmsm_dispatch_ldi TOP _ (400 + x) (by omega)]
  simp only [Option.map_some', lmsm_i_load_immediate]
  rw [show 400 + x - 400 = x by omega, lmsm_cap_value_of_range x (by omega) (by omega)]

theorem lmsm_step_push (TOP : Int) (m : lmsm)
    (h : m.status ≠ STATUS_HALTED) (hw : m.memory m.program_counter = 920) :
    lmsm_step TOP m =
      some { m with
        program_counter := m.program_counter + 1
        current_instruction := 920
        stack_pointer := m.stack_pointer - 1
        memory := array_set m.memory (m.stack_pointer - 1) m.accumulator
        accumulator := lmsm_cap_value m.accumulator } := by
  rw [lmsm_step_running TOP m h, lmsm_exec_instruction, hw, lmsm_dispatch_920]
  rfl

theorem lmsm_step_jal (TOP : Int) (m : lmsm)
    (h : m.status ≠ STATUS_HALTED) (hw : m.memory m.program_counter = 910) :
    lmsm_step TOP m =
      some { m with
        program_counter := m.memory m.stack_pointer
        current_instruction := 910
        return_address_pointer := m.return_address_pointer + 1
        stack_pointer := m.stack_pointer + 1
        memory := array_set m.memory (m.return_address_pointer + 1) (m.program_counter + 1)
        accumulator := lmsm_cap_value m.accumulator } := by
  rw [lmsm_step_running TOP m h, lmsm_exec_instruction, hw, lmsm_dispatch_910]
  rfl

/-- C23 (as stated, at a concrete machine): a running machine whose error code
is BadStack stands in front of the words 405, 920, 910 (program counter 1, stack
pointer 200, return-address pointer 99; the cells 199, 100, 2 and 3 are
distinct).  After three steps the program counter is 5 and the error code is
still BadStack, not None.  The machine is in this state when `lmsm_run` is
called again on the machine that halted on the SPOP in cell 0: the run of
`lmsm_sample_call_program 5` ends halted with error BadStack at program counter
1, and `lmsm_run` sets the status to Running and keeps the error code. -/
theorem lmsm_call_keeps_error_code :
    (lmsm_sample_call 5 ERROR_BAD_STACK).status ≠ STATUS_HALTED ∧
    (lmsm_sample_call 5 ERROR_BAD_STACK).memory
      (lmsm_sample_call 5 ERROR_BAD_STACK).program_counter = 400 + 5 ∧
    (lmsm_sample_call 5 ERROR_BAD_STACK).memory
      ((lmsm_sample_call 5 ERROR_BAD_STACK).program_counter + 1) = 920 ∧
    (lmsm_sample_call 5 ERROR_BAD_STACK).memory
      ((lmsm_sample_call 5 ERROR_BAD_STACK).program_counter + 2) = 910 ∧
    (lmsm_sample_call 5 ERROR_BAD_STACK).stack_pointer - 1 = 199 ∧
    (lmsm_sample_call 5 ERROR_BAD_STACK).return_address_pointer + 1 = 100 ∧
    (lmsm_sample_call 5 ERROR_BAD_STACK).program_counter + 1 = 2 ∧
    (lmsm_sample_call 5 ERROR_BAD_STACK).program_counter + 2 = 3 ∧
    (lmsm_steps 199 3 (lmsm_sample_call 5 ERROR_BAD_STACK)).map
      (fun s => (s.program_counter, s.error_code)) = some (5, ERROR_BAD_STACK) ∧
    ERROR_BAD_STACK ≠ ERROR_NONE ∧
    (lmsm_run 199 1 (lmsm_sample_call_program 5)).map
      (fun s => (s.program_counter, s.stack_pointer, s.return_address_pointer, s.status,
        s.error_code)) =
      some ((lmsm_sample_call 5 ERROR_BAD_STACK).program_counter,
        (lmsm_sample_call 5 ERROR_BAD_STACK).stack_pointer,
        (lmsm_sample_call 5 ERROR_BAD_STACK).return_address_pointer,
        STATUS_HALTED, ERROR_BAD_STACK) ∧
    (lmsm_run 199 1 (lmsm_sample_call_program 5)).map
      (fun s => [s.accumulator, s.current_instruction, s.memory 0, s.memory 1, s.memory 2,
        s.memory 3]) =
      some [(lmsm_sample_call 5 ERROR_BAD_STACK).accumulator,
        (lmsm_sample_call 5 ERROR_BAD_STACK).current_instruction, 921, 405, 920, 910] := by
  decide

/-- C23 (amended): when the machine is not halted, the cells `o`, `o + 1`,
`o + 2` at the program counter `o` hold `400 + x`, 920, 910 with `0 ≤ x ≤ 99`
(the words that the assembler writes for a CALL of `x`), and with stack pointer
`sp` and return-address pointer `r` the addresses `sp - 1` and `r + 1` are
distinct from each other and from `o + 1` and `o + 2`, three steps have a
result: the program counter is `x`, `memory[r+1]` is `o + 3`, the return-address
pointer is `r + 1`, the stack pointer is `sp` again, the accumulator is `x`, the
error code is the one from before the three steps (None when it was None) and
the status is as before, not Halted.  The cell `sp - 1` holds `x`, and every
other cell but `r + 1` is as it was. -/
theorem lmsm_steps_call (TOP_OF_MEMORY : Int) (m : lmsm) (x : Int)
    (h : m.status ≠ STATUS_HALTED) (hx : 0 ≤ x ∧ x ≤ 99)
    (h0 : m.memory m.program_counter = 400 + x)
    (h1 : m.memory (m.program_counter + 1) = 920)
    (h2 : m.memory (m.program_counter + 2) = 910)
    (hd1 : m.stack_pointer - 1 ≠ m.return_address_pointer + 1)
    (hd2 : m.stack_pointer - 1 ≠ m.program_counter + 1)
    (hd3 : m.stack_pointer - 1 ≠ m.program_counter + 2)
    (hd4 : m.return_address_pointer + 1 ≠ m.program_counter + 1)
    (hd5 : m.return_address_pointer + 1 ≠ m.program_counter + 2) :
    (∃ s', lmsm_steps TOP_OF_MEMORY 3 m = some s' ∧
      s'.program_counter = x ∧
      s'.memory (m.return_address_pointer + 1) = m.program_counter + 3 ∧
      s'.return_address_pointer = m.return_address_pointer + 1 ∧
      s'.stack_pointer = m.stack_pointer ∧
      s'.accumulator = x ∧
      s'.error_code = m.error_code ∧
      (m.error_code = ERROR_NONE → s'.error_code = ERROR_NONE) ∧
      s'.status = m.status ∧ s'.status ≠ STATUS_HALTED ∧
      s'.memory (m.stack_pointer - 1) = x ∧
      s'.memory (m.program_counter + 1) = 920 ∧
      s'.memory (m.program_counter + 2) = 910 ∧
      ∀ j, j ≠ m.stack_pointer - 1 → j ≠ m.return_address_pointer + 1 →
        s'.memory j = m.memory j) ∧
    ∀ (r : asm_compilation_result) (i : asm_instruction), i.instruction = "CALL" →
      (asm_gen_code_for_instruction_emit r i x).code i.offset = 400 + x ∧
      (asm_gen_code_for_instruction_emit r i x).code (i.offset + 1) = 920 ∧
      (asm_gen_code_for_instruction_emit r i x).code (i.offset + 2) = 910 := by
  constructor
  · have e1 := lmsm_step_load_immediate TOP_OF_MEMORY m x h hx h0
    have e2 := lmsm_step_push TOP_OF_MEMORY
      { m with
        program_counter := m.program_counter + 1
        current_instruction := 400 + x
        accumulator := x } h h1
    have hw3 : array_set m.memory (m.stack_pointer - 1) x (m.program_counter + 1 + 1) = 910 := by
      rw [array_set_ne _ _ _ _ (by omega), ← h2]
      congr 1
      omega
    have e3 := lmsm_step_jal TOP_OF_MEMORY
      { m with
        program_counter := m.program_counter + 1 + 1
        current_instruction := 920
        stack_pointer := m.stack_pointer - 1
        memory := array_set m.memory (m.stack_pointer - 1) x
        accumulator := lmsm_cap_value x } h hw3
    have hsteps : lmsm_steps TOP_OF_MEMORY 3 m =
        lmsm_step TOP_OF_MEMORY
          { m with
            program_counter := m.program_counter + 1 + 1
            current_instruction := 920
            stack_pointer := m.stack_pointer - 1
            memory := array_set m.memory (m.stack_pointer - 1) x
            accumulator := lmsm_cap_value x } := by
      show (lmsm_step TOP_OF_MEMORY m).bind (lmsm_steps TOP_OF_MEMORY 2) = _
      rw [e1]
      show (lmsm_step TOP_OF_MEMORY
        { m with
          program_counter := m.program_counter + 1
          current_instruction := 400 + x
          accumulator := x }).bind (lmsm_steps TOP_OF_MEMORY 1) = _
      rw [e2]
      exact Option.bind_some _
    rw [hsteps, e3]
    have hc : lmsm_cap_value (lmsm_cap_value x) = x := by
      rw [lmsm_cap_value_of_range x (by omega) (by omega),
        lmsm_cap_value_of_range x (by omega) (by omega)]
    refine ⟨_, rfl, ?_, ?_, rfl, ?_, hc, rfl, fun he => he, rfl, h, ?_, ?_, ?_, ?_⟩
    · exact array_set_eq _ _ _
    · show array_set _ (m.return_address_pointer + 1) (m.program_counter + 1 + 1 + 1)
        (m.return_address_pointer + 1) = m.program_counter + 3
      rw [array_set_eq]
      omega
    · show m.stack_pointer - 1 + 1 = m.stack_pointer
      omega
    · show array_set (array_set m.memory (m.stack_pointer - 1) x) _ _ (m.stack_pointer - 1) = x
      rw [array_set_ne _ _ _ _ hd1, array_set_eq]
    · show array_set (array_set m.memory (m.stack_pointer - 1) x) _ _
        (m.program_counter + 1) = 920
      rw [array_set_ne _ _ _ _ (Ne.symm hd4), array_set_ne _ _ _ _ (Ne.symm hd2), h1]
    · show array_set (array_set m.memory (m.stack_pointer - 1) x) _ _
        (m.program_counter + 2) = 910
      rw [array_set_ne _ _ _ _ (Ne.symm hd5), array_set_ne _ _ _ _ (Ne.symm hd3), h2]
    · intro j hj1 hj2
      show array_set (array_set m.memory (m.stack_pointer - 1) x) _ _ j = m.memory j
      rw [array_set_ne _ _ _ _ hj2, array_set_ne _ _ _ _ hj1]
  · intro r i hcall
    rw [asm_emit_call r i x hcall]
    refine ⟨?_, ?_, ?_⟩
    · show array_set _ (i.offset + 2) 910 i.offset = 400 + x
      rw [array_set_ne _ _ _ _ (by omega), array_set_eq]
    · show array_set _ (i.offset + 2) 910 (i.offset + 1) = 920
      rw [array_set_ne _ _ _ _ (by omega), array_set_ne _ _ _ _ (by omega), array_set_eq]
    · exact array_set_eq _ _ _

theorem lmsm_steps_call_witness :
    lmsm_sample_call_5.status ≠ STATUS_HALTED ∧
    ((0 : Int) ≤ 5 ∧ (5 : Int) ≤ 99) ∧
    lmsm_sample_call_5.memory lmsm_sample_call_5.program_counter = 400 + (5 : Int) ∧
    lmsm_sample_call_5.memory (lmsm_sample_call_5.program_counter + 1) = 920 ∧
    lmsm_sample_call_5.memory (lmsm_sample_call_5.program_counter + 2) = 910 ∧
    lmsm_sample_call_5.stack_pointer - 1 ≠ lmsm_sample_call_5.return_address_pointer + 1 ∧
    lmsm_sample_call_5.stack_pointer - 1 ≠ lmsm_sample_call_5.program_counter + 1 ∧
    lmsm_sample_call_5.stack_pointer - 1 ≠ lmsm_sample_call_5.program_counter + 2 ∧
    lmsm_sample_call_5.return_address_pointer + 1 ≠ lmsm_sample_call_5.program_counter + 1 ∧
    lmsm_sample_call_5.return_address_pointer + 1 ≠ lmsm_sample_call_5.program_counter + 2 ∧
    ((∃ s', lmsm_steps 199 3 lmsm_sample_call_5 = some s' ∧
        s'.program_counter = (5 : Int) ∧
        s'.memory (lmsm_sample_call_5.return_address_pointer + 1) =
            lmsm_sample_call_5.program_counter + 3 ∧
        s'.return_address_pointer = lmsm_sample_call_5.return_address_pointer + 1 ∧
        s'.stack_pointer = lmsm_sample_call_5.stack_pointer ∧
        s'.accumulator = (5 : Int) ∧
        s'.error_code = lmsm_sample_call_5.error_code ∧
        (lmsm_sample_call_5.error_code = ERROR_NONE → s'.error_code = ERROR_NONE) ∧
        s'.status = lmsm_sample_call_5.status ∧ s'.status ≠ STATUS_HALTED ∧
        s'.memory (lmsm_sample_call_5.stack_pointer - 1) = (5 : Int) ∧
        s'.memory (lmsm_sample_call_5.program_counter + 1) = 920 ∧
        s'.memory (lmsm_sample_call_5.program_counter + 2) = 910 ∧
        ∀ j, j ≠ lmsm_sample_call_5.stack_pointer - 1 → j ≠
            lmsm_sample_call_5.return_address_pointer + 1 →
          s'.memory j = lmsm_sample_call_5.memory j) ∧
      ∀ (r : asm_compilation_result) (i : asm_instruction), i.instruction = "CALL" →
        (asm_gen_code_for_instruction_emit r i (5 : Int)).code i.offset = 400 + (5 : Int) ∧
        (asm_gen_code_for_instruction_emit r i (5 : Int)).code (i.offset + 1) = 920 ∧
        (asm_gen_code_for_instruction_emit r i (5 : Int)).code (i.offset + 2) = 910) :=
  ⟨by decide, by decide, by decide, by decide, by decide, by decide,
    by decide, by decide, by decide, by decide,
    lmsm_steps_call 199 lmsm_sample_call_5 5
      (by decide) (by decide) (by decide) (by decide) (by decide) (by decide) (by decide)
      (by decide) (by decide) (by decide)⟩
